import Mathlib

/-!
# Universal inverter data normalizer: engine, registry, helpers and adapters

A shallow embedding of `internal/normalizer/engine.go`,
`internal/provider/registry.go`, `internal/normalizer/units.go` and of the
normalization functions and code mappers of the four vendor adapters
(`internal/provider/{sma,huawei,sungrow,saj}`), with theorems about provider
registration, the aggregate fan-out queries, the routing queries, the
factory registry, the derived-metric helpers, composite identifiers, vendor
code mapping, history points, realtime snapshots, alarms, adapter
initialization and the paging of the Huawei plant list.

Conventions of the embedding

* A Go `map[string]T` is an association list with distinct keys
  (`AList`).  Only the lookup and the key set of a map are observable in Go;
  the order of the entries is not, so every loop that ranges over a map, and
  every loop that drains a channel fed by goroutines, takes the order in
  which it sees its elements from a `Schedule` argument.
* A Go slice is a `List`; the nil slice and the empty slice are both `[]`.
  A pointer result is an `Option`.  A Go `error` is an `Option GoError`,
  `none` being the nil error.
* The provider interface is a record of functions: the outcome of each
  method as a function of its arguments.  Calls made on providers are
  recorded in the `calls` component of the result (`Traced`).
* A `float64` is a rational number (exact arithmetic); the helpers of
  `units.go` are written over any ordered field.
* What an adapter receives from its vendor (the decoded response, the error of
  the HTTP call) is an argument of the function that models it.
* A Go `int` is an integer; where the code computes with one
  (`pageNo*20`), the result wraps at 64 bits (`wrapInt`).
* `log` statements and time stamps are not modelled.
-/

namespace InverterNormalizer

/-! ## Go runtime values -/

/-- A Go `error` value, represented by the text its `Error()` method returns. -/
structure GoError where
  msg : String
  deriving DecidableEq, Repr

/-- A `context.Context`, reduced to whether it is already cancelled or expired.
The engine never inspects it and hands it to every provider call. -/
structure Context where
  done : Bool
  deriving DecidableEq, Repr

/-- The order in which a loop meets the elements it is given: the iteration
order of a Go map, or the order in which goroutines deliver to a channel.
Any rearrangement is possible, none is lost or duplicated. -/
structure Schedule (α : Type) where
  order : List α → List α
  perm : ∀ l, (order l).Perm l

/-- The schedule that keeps the given order. -/
def Schedule.fifo (α : Type) : Schedule α where
  order := fun l => l
  perm := fun l => List.Perm.refl l

/-- The schedule that reverses the given order. -/
def Schedule.lifo (α : Type) : Schedule α where
  order := fun l => l.reverse
  perm := fun l => List.reverse_perm l

/-- The text `fmt` prints for a slice under the verb `%v`: the elements
separated by blanks, in square brackets. -/
def fmtSlice (xs : List String) : String :=
  "[" ++ " ".intercalate xs ++ "]"

/-! ## Canonical data model (`internal/models`)

A `float64` is modelled by a rational number: exact arithmetic, without NaN,
infinities or rounding.  A named string type with constants is `String`
with the same constants.  Fields of type `time.Time` are left out. -/

/-- Type `models.PlantType`. -/
abbrev PlantType := String

def PlantTypeGridTied : PlantType := "grid_tied"
def PlantTypeHybrid : PlantType := "hybrid"
def PlantTypeOffGrid : PlantType := "off_grid"
def PlantTypeACCoupled : PlantType := "ac_coupled"
def PlantTypeCommercial : PlantType := "commercial"
def PlantTypeUtility : PlantType := "utility_scale"
def PlantTypeUnknown : PlantType := "unknown"

/-- Type `models.GridConnectionType`. -/
abbrev GridConnectionType := String

def GridConnectionFullExport : GridConnectionType := "full_export"
def GridConnectionSelfConsume : GridConnectionType := "self_consumption"
def GridConnectionOffGrid : GridConnectionType := "off_grid"
def GridConnectionUnknown : GridConnectionType := "unknown"

/-- Type `models.DeviceType`. -/
abbrev DeviceType := String

def DeviceTypeInverter : DeviceType := "inverter"
def DeviceTypeHybridInverter : DeviceType := "hybrid_inverter"
def DeviceTypeMicroInverter : DeviceType := "micro_inverter"
def DeviceTypeStringInverter : DeviceType := "string_inverter"
def DeviceTypeBattery : DeviceType := "battery"
def DeviceTypeMeter : DeviceType := "meter"
def DeviceTypeEMS : DeviceType := "ems"
def DeviceTypeEVCharger : DeviceType := "ev_charger"
def DeviceTypeLoadMonitor : DeviceType := "load_monitor"
def DeviceTypeWeatherStation : DeviceType := "weather_station"
def DeviceTypeDieselGenerator : DeviceType := "diesel_generator"
def DeviceTypeHeatPump : DeviceType := "heat_pump"
def DeviceTypeSmartPlug : DeviceType := "smart_plug"
def DeviceTypeOptimizer : DeviceType := "optimizer"
def DeviceTypeGateway : DeviceType := "gateway"
def DeviceTypeUnknown : DeviceType := "unknown"

/-- Type `models.DeviceStatus`. -/
abbrev DeviceStatus := String

def DeviceStatusOnline : DeviceStatus := "online"
def DeviceStatusOffline : DeviceStatus := "offline"
def DeviceStatusStandby : DeviceStatus := "standby"
def DeviceStatusNormal : DeviceStatus := "normal"
def DeviceStatusWarning : DeviceStatus := "warning"
def DeviceStatusFault : DeviceStatus := "fault"
def DeviceStatusUpgrade : DeviceStatus := "upgrading"
def DeviceStatusUnknown : DeviceStatus := "unknown"

/-- Type `models.AlarmSeverity`. -/
abbrev AlarmSeverity := String

def AlarmSeverityInfo : AlarmSeverity := "info"
def AlarmSeverityWarning : AlarmSeverity := "warning"
def AlarmSeverityCritical : AlarmSeverity := "critical"
def AlarmSeverityUnknown : AlarmSeverity := "unknown"

/-- Type `models.AlarmStatus`. -/
abbrev AlarmStatus := String

def AlarmStatusActive : AlarmStatus := "active"
def AlarmStatusResolved : AlarmStatus := "resolved"
def AlarmStatusAcknowledged : AlarmStatus := "acknowledged"
def AlarmStatusUnknown : AlarmStatus := "unknown"

/-- Type `models.OperatingMode`. -/
abbrev OperatingMode := String

def OperatingModeInitializing : OperatingMode := "initializing"
def OperatingModeWaiting : OperatingMode := "waiting"
def OperatingModeGridConnected : OperatingMode := "grid_connected"
def OperatingModeOffGrid : OperatingMode := "off_grid"
def OperatingModeFault : OperatingMode := "fault"
def OperatingModeUpgrading : OperatingMode := "upgrading"
def OperatingModeStandby : OperatingMode := "standby"
def OperatingModeShutdown : OperatingMode := "shutdown"
def OperatingModeUnknown : OperatingMode := "unknown"

/-- Type `models.EnergyDirection`. -/
abbrev EnergyDirection := String

def DirectionCharging : EnergyDirection := "charging"
def DirectionDischarging : EnergyDirection := "discharging"
def DirectionIdle : EnergyDirection := "idle"
def DirectionUnknown : EnergyDirection := "unknown"

/-- Type `models.GridDirection`. -/
abbrev GridDirection := String

def GridDirectionImporting : GridDirection := "importing"
def GridDirectionExporting : GridDirection := "exporting"
def GridDirectionIdle : GridDirection := "idle"
def GridDirectionUnknown : GridDirection := "unknown"

/-- Struct `models.ProviderMeta`.  The map `Extra` is the list of its
entries. -/
structure ProviderMeta where
  Provider : String := ""
  ProviderPlantID : String := ""
  ProviderDeviceID : String := ""
  ProviderPlantUID : String := ""
  RawDataAvailable : Bool := false
  Extra : List (String × String) := []
  deriving DecidableEq, Repr

/-- Struct `models.LatLng`. -/
structure LatLng where
  Latitude : ℚ := 0
  Longitude : ℚ := 0
  deriving DecidableEq, Repr

/-- Struct `models.NormalizedPlant`. -/
structure NormalizedPlant where
  ID : String := ""
  Provider : String := ""
  Name : String := ""
  Timezone : String := ""
  Address : String := ""
  Country : String := ""
  Currency : String := ""
  Meta : ProviderMeta := {}
  Location : Option LatLng := none
  PeakPowerKWp : Option ℚ := none
  PlantType : PlantType := ""
  GridConnectionType : Option GridConnectionType := none
  ElectricityPrice : Option ℚ := none
  deriving DecidableEq, Repr

/-- Struct `models.FirmwareInfo`. -/
structure FirmwareInfo where
  MainVersion : String := ""
  SlaveVersion : String := ""
  DisplayVersion : String := ""
  ModuleModel : String := ""
  ModuleSN : String := ""
  ModuleFirmware : String := ""
  deriving DecidableEq, Repr

/-- Struct `models.NormalizedDevice`, without `BatteryInfo`, which no adapter
sets. -/
structure NormalizedDevice where
  ID : String := ""
  Provider : String := ""
  PlantID : String := ""
  Name : String := ""
  SerialNumber : String := ""
  Model : String := ""
  Manufacturer : String := ""
  IsOnline : Bool := false
  HasAlarm : Bool := false
  Meta : ProviderMeta := {}
  DeviceType : DeviceType := ""
  Status : DeviceStatus := ""
  RatedPowerW : Option ℚ := none
  FirmwareInfo : Option FirmwareInfo := none
  deriving DecidableEq, Repr

/-- Struct `models.NormalizedAlarm`. -/
structure NormalizedAlarm where
  ID : String := ""
  Provider : String := ""
  DeviceID : String := ""
  PlantID : String := ""
  Code : String := ""
  Name : String := ""
  Message : String := ""
  Meta : ProviderMeta := {}
  Severity : AlarmSeverity := ""
  Status : AlarmStatus := ""
  DeviceSerialNumber : String := ""
  DeviceType : DeviceType := ""
  PlantName : String := ""
  Duration : String := ""
  deriving DecidableEq, Repr

/-- Type `models.Period`, a named string type. -/
abbrev Period := String

def PeriodDay : Period := "day"
def PeriodWeek : Period := "week"
def PeriodMonth : Period := "month"
def PeriodYear : Period := "year"
def PeriodTotal : Period := "total"

/-- Type `models.Granularity`, a named string type. -/
abbrev Granularity := String

def GranularityMinute : Granularity := "minute"
def GranularityHour : Granularity := "hour"
def GranularityDay : Granularity := "day"
def GranularityMonth : Granularity := "month"
def GranularityYear : Granularity := "year"

/-- Struct `models.NormalizedEnergy`. -/
structure NormalizedEnergy where
  ID : String := ""
  Provider : String := ""
  Period : Period := ""
  Currency : String := ""
  Meta : ProviderMeta := {}
  PVGenerationKWh : Option ℚ := none
  LoadConsumptionKWh : Option ℚ := none
  GridImportKWh : Option ℚ := none
  GridExportKWh : Option ℚ := none
  BatteryChargeKWh : Option ℚ := none
  BatteryDischargeKWh : Option ℚ := none
  SelfConsumptionKWh : Option ℚ := none
  SelfConsumptionRate : Option ℚ := none
  SelfSufficiencyRate : Option ℚ := none
  CO2SavedKg : Option ℚ := none
  TreesEquivalent : Option ℚ := none
  Revenue : Option ℚ := none
  Savings : Option ℚ := none
  CurrentPowerW : Option ℚ := none
  DeviceStatus : Option DeviceStatus := none
  BatterySOC : Option ℚ := none
  deriving DecidableEq, Repr

/-- Struct `models.HistoryRequest`. -/
structure HistoryRequest where
  DeviceID : String := ""
  StartTime : String := ""
  EndTime : String := ""
  Granularity : Granularity := ""
  Metrics : List String := []
  Page : Int := 0
  PageSize : Int := 0
  deriving DecidableEq, Repr

/-- Struct `models.PVString`. -/
structure PVString where
  ID : Int := 0
  VoltageV : Option ℚ := none
  CurrentA : Option ℚ := none
  PowerW : Option ℚ := none
  deriving DecidableEq, Repr

/-- Struct `models.PhaseData`. -/
structure PhaseData where
  Phase : String := ""
  VoltageV : Option ℚ := none
  CurrentA : Option ℚ := none
  PowerW : Option ℚ := none
  FrequencyHz : Option ℚ := none
  PowerFactor : Option ℚ := none
  ApparentPowerVA : Option ℚ := none
  ReactivePowerVAR : Option ℚ := none
  deriving DecidableEq, Repr

/-- Struct `models.PVData`. -/
structure PVData where
  TotalPowerW : ℚ := 0
  TodayEnergyKWh : Option ℚ := none
  TotalEnergyKWh : Option ℚ := none
  MonthEnergyKWh : Option ℚ := none
  YearEnergyKWh : Option ℚ := none
  Strings : List PVString := []
  deriving DecidableEq, Repr

/-- Struct `models.BatteryGroup`. -/
structure BatteryGroup where
  ID : Int := 0
  SOCPercent : Option ℚ := none
  PowerW : Option ℚ := none
  VoltageV : Option ℚ := none
  CurrentA : Option ℚ := none
  TempC : Option ℚ := none
  deriving DecidableEq, Repr

/-- Struct `models.BatteryData`. -/
structure BatteryData where
  SOCPercent : Option ℚ := none
  PowerW : ℚ := 0
  Direction : EnergyDirection := ""
  TemperatureC : Option ℚ := none
  TodayChargeKWh : Option ℚ := none
  TodayDischargeKWh : Option ℚ := none
  TotalChargeKWh : Option ℚ := none
  TotalDischargeKWh : Option ℚ := none
  MaxChargePowerW : Option ℚ := none
  MaxDischargePowerW : Option ℚ := none
  VoltageDC : Option ℚ := none
  CurrentDC : Option ℚ := none
  Groups : List BatteryGroup := []
  deriving DecidableEq, Repr

/-- Struct `models.GridData`. -/
structure GridData where
  TotalPowerW : ℚ := 0
  Direction : GridDirection := ""
  FrequencyHz : Option ℚ := none
  PowerFactor : Option ℚ := none
  TodayImportKWh : Option ℚ := none
  TodayExportKWh : Option ℚ := none
  TotalImportKWh : Option ℚ := none
  TotalExportKWh : Option ℚ := none
  MonthImportKWh : Option ℚ := none
  MonthExportKWh : Option ℚ := none
  YearImportKWh : Option ℚ := none
  YearExportKWh : Option ℚ := none
  Phases : List PhaseData := []
  deriving DecidableEq, Repr

/-- Struct `models.LoadData`. -/
structure LoadData where
  TotalPowerW : ℚ := 0
  TodayEnergyKWh : Option ℚ := none
  TotalEnergyKWh : Option ℚ := none
  SelfConsumptionRate : Option ℚ := none
  SelfSufficiencyRate : Option ℚ := none
  deriving DecidableEq, Repr

/-- Struct `models.BackupData`. -/
structure BackupData where
  TotalPowerW : ℚ := 0
  Phases : List PhaseData := []
  deriving DecidableEq, Repr

/-- Type `models.MeterType`. -/
abbrev MeterType := String

/-- Struct `models.MeterData`. -/
structure MeterData where
  ID : String := ""
  MeterType : MeterType := ""
  TotalPowerW : ℚ := 0
  TotalImportKWh : Option ℚ := none
  TotalExportKWh : Option ℚ := none
  Phases : List PhaseData := []
  deriving DecidableEq, Repr

/-- Struct `models.EnvironmentData`. -/
structure EnvironmentData where
  InverterTemperatureC : Option ℚ := none
  AmbientTemperatureC : Option ℚ := none
  SinkTemperatureC : Option ℚ := none
  IrradianceWM2 : Option ℚ := none
  WindSpeedMS : Option ℚ := none
  ModuleTemperatureC : Option ℚ := none
  SignalStrengthDBm : Option Int := none
  deriving DecidableEq, Repr

/-- Struct `models.NormalizedRealtime`; a nil pointer is `none`. -/
structure NormalizedRealtime where
  DeviceID : String := ""
  Provider : String := ""
  OriginalTimestamp : String := ""
  OriginalTimezone : String := ""
  Status : DeviceStatus := ""
  OperatingMode : OperatingMode := ""
  PV : Option PVData := none
  Battery : Option BatteryData := none
  Grid : Option GridData := none
  Load : Option LoadData := none
  Backup : Option BackupData := none
  Meters : List MeterData := []
  Environment : Option EnvironmentData := none
  Meta : ProviderMeta := {}
  deriving DecidableEq, Repr

/-- Struct `models.NormalizedTimeSeries`. -/
structure NormalizedTimeSeries where
  DeviceID : String := ""
  Provider : String := ""
  Granularity : Granularity := ""
  Meta : ProviderMeta := {}
  PVPowerW : Option ℚ := none
  LoadPowerW : Option ℚ := none
  GridPowerW : Option ℚ := none
  BatteryPowerW : Option ℚ := none
  SelfUsePowerW : Option ℚ := none
  GridImportPowerW : Option ℚ := none
  GridExportPowerW : Option ℚ := none
  BatterySOC : Option ℚ := none
  BatteryDirection : Option EnergyDirection := none
  PVEnergyKWh : Option ℚ := none
  LoadEnergyKWh : Option ℚ := none
  GridImportEnergyKWh : Option ℚ := none
  GridExportEnergyKWh : Option ℚ := none
  BatteryChargeKWh : Option ℚ := none
  BatteryDischargeKWh : Option ℚ := none
  SelfConsumptionKWh : Option ℚ := none
  PVStrings : List PVString := []
  GridPhases : List PhaseData := []
  InverterPhases : List PhaseData := []
  deriving DecidableEq, Repr

/-- Struct `models.TimeSeriesAggregate`. -/
structure TimeSeriesAggregate where
  TotalPVEnergyKWh : Option ℚ := none
  TotalLoadEnergyKWh : Option ℚ := none
  TotalGridImportKWh : Option ℚ := none
  TotalGridExportKWh : Option ℚ := none
  TotalBatteryChargeKWh : Option ℚ := none
  TotalBatteryDischargeKWh : Option ℚ := none
  SelfConsumptionRate : Option ℚ := none
  SelfSufficiencyRate : Option ℚ := none
  deriving DecidableEq, Repr

/-- Struct `models.HistoryResponse`. -/
structure HistoryResponse where
  DeviceID : String := ""
  Provider : String := ""
  Granularity : Granularity := ""
  StartTime : String := ""
  EndTime : String := ""
  TotalPoints : Int := 0
  DataPoints : List NormalizedTimeSeries := []
  Aggregate : Option TimeSeriesAggregate := none
  deriving DecidableEq, Repr

/-! ## Provider capability contract (`internal/provider/provider.go`) -/

/-- Interface `provider.Provider`: each method is the pair (or value) the Go
method returns, as a function of its arguments.  `Initialize` is not part of
the record: neither the engine nor the registry calls it. -/
structure Provider where
  Name : String
  GetPlants : Context → List NormalizedPlant × Option GoError
  GetPlantDetails : Context → String → Option NormalizedPlant × Option GoError
  GetDevices : Context → String → List NormalizedDevice × Option GoError
  GetDeviceDetails : Context → String → Option NormalizedDevice × Option GoError
  GetRealTimeData : Context → String → Option NormalizedRealtime × Option GoError
  GetEnergyStats : Context → String → Period → Option NormalizedEnergy × Option GoError
  GetHistoricalData : Context → String → HistoryRequest → Option HistoryResponse × Option GoError
  GetAlarms : Context → String → List NormalizedAlarm × Option GoError
  GetAllAlarms : Context → List NormalizedAlarm × Option GoError
  Healthy : Context → Bool
  Close : Option GoError

/-- A method of the provider interface together with the arguments of one call. -/
inductive Method where
  | GetPlants
  | GetPlantDetails (plantID : String)
  | GetDevices (plantID : String)
  | GetDeviceDetails (deviceID : String)
  | GetRealTimeData (deviceID : String)
  | GetEnergyStats (plantID : String) (period : Period)
  | GetHistoricalData (deviceID : String) (req : HistoryRequest)
  | GetAlarms (deviceID : String)
  | GetAllAlarms
  | Healthy
  | Close
  deriving DecidableEq, Repr

/-- One call made on a provider: the name it is registered under in the
engine, the context handed over (absent for `Close`), and the method. -/
structure Call where
  provider : String
  ctx : Option Context
  method : Method
  deriving DecidableEq, Repr

/-- A result together with the provider calls made to obtain it. -/
structure Traced (ρ : Type) where
  result : ρ
  calls : List Call

/-- A Go map from strings to `β`. -/
abbrev GoMap (β : Type) := AList (fun _ : String => β)

/-! ## Normalization engine (`internal/normalizer/engine.go`) -/

/-- Struct `normalizer.Engine`.  The mutex is not modelled; every method
below is one atomic step on the provider map. -/
structure Engine where
  providers : GoMap Provider

/-- Go: `NewEngine`. -/
def NewEngine : Engine :=
  { providers := ∅ }

/-- Go: `Engine.RegisterProvider`: `e.providers[p.Name()] = p`. -/
def Engine.RegisterProvider (e : Engine) (p : Provider) : Engine :=
  let name := p.Name
  { providers := e.providers.insert name p }

/-- Go: `Engine.GetProvider`: `p, ok := e.providers[name]`. -/
def Engine.GetProvider (e : Engine) (name : String) : Option Provider × Bool :=
  let p := e.providers.lookup name
  (p, p.isSome)

/-- Go: `Engine.ProviderNames`. -/
def Engine.ProviderNames (e : Engine) (sched : Schedule (Σ _ : String, Provider)) : List String :=
  (sched.order e.providers.entries).foldl (fun names x => names ++ [x.1]) []

/-- The engine after registering the providers `ps` one after the other,
starting from `NewEngine`. -/
def registerAll (ps : List Provider) : Engine :=
  ps.foldl Engine.RegisterProvider NewEngine

/-- Go: the local struct `result` of `GetAllPlants`. -/
structure PlantsResult where
  plants : List NormalizedPlant
  err : Option GoError
  name : String

/-- Go: the goroutine of `GetAllPlants`, started for the map entry `x`:
`plants, err := p.GetPlants(ctx)` and the value it sends on the channel. -/
def plantsWorker (ctx : Context) (x : Σ _ : String, Provider) : PlantsResult :=
  let r := x.2.GetPlants ctx
  { plants := r.1, err := r.2, name := x.1 }

/-- Go: the receiving loop of `GetAllPlants` over the channel contents `ch`,
with the accumulators `allPlants` and `errors`.  A result with a non-nil
error appends `fmt.Errorf("%s: %w", r.name, r.err)` to `errors` and its
plants are skipped. -/
def collectPlants :
    List PlantsResult → List NormalizedPlant → List GoError → List NormalizedPlant × List GoError
  | [], allPlants, errors => (allPlants, errors)
  | r :: ch, allPlants, errors =>
    match r.err with
    | some err => collectPlants ch allPlants (errors ++ [{ msg := r.name ++ ": " ++ err.msg }])
    | none => collectPlants ch (allPlants ++ r.plants) errors

/-- Go: `Engine.GetAllPlants`.  One goroutine per map entry; `sched` gives
the order in which their results arrive on the channel; all of them are
received before the final test
`len(allPlants) == 0 && len(errors) > 0`. -/
def Engine.GetAllPlants (e : Engine) (sched : Schedule (Σ _ : String, Provider))
    (ctx : Context) : Traced (List NormalizedPlant × Option GoError) :=
  let arrivals := sched.order e.providers.entries
  let ch := arrivals.map (plantsWorker ctx)
  let acc := collectPlants ch [] []
  let allPlants := acc.1
  let errors := acc.2
  { result :=
      if allPlants.length = 0 ∧ errors.length > 0 then
        ([], some { msg := "all providers failed: " ++ fmtSlice (errors.map GoError.msg) })
      else
        (allPlants, none)
    calls := arrivals.map fun x => { provider := x.1, ctx := some ctx, method := Method.GetPlants } }

/-- The plants a fan-out over `xs` is expected to merge: those of the
entries whose `GetPlants` returned a nil error, concatenated. -/
def plantsOfSuccessful (ctx : Context) (xs : List (Σ _ : String, Provider)) : List NormalizedPlant :=
  xs.flatMap fun x => if (x.2.GetPlants ctx).2.isNone then (x.2.GetPlants ctx).1 else []

/-- The failure lines of a fan-out over `xs`: for each entry whose
`GetPlants` returned an error, the registered name, a colon and the text of
the error. -/
def plantFailures (ctx : Context) (xs : List (Σ _ : String, Provider)) : List String :=
  xs.filterMap fun x => (x.2.GetPlants ctx).2.map fun err => x.1 ++ ": " ++ err.msg

/-- Go: the local struct `result` of `GetAllDevices`. -/
structure DevicesResult where
  devices : List NormalizedDevice
  err : Option GoError

/-- Go: the goroutine of `GetAllDevices`, started for `plant`: it looks the
provider up under `plant.Provider`; without one it sends the error
`provider <name> not found` and calls nothing, otherwise it sends the outcome
of `p.GetDevices(ctx, plant.Meta.ProviderPlantID)`. -/
def devicesWorker (e : Engine) (ctx : Context) (plant : NormalizedPlant) : Traced DevicesResult :=
  match e.providers.lookup plant.Provider with
  | none =>
    { result := { devices := [],
                  err := some { msg := "provider " ++ plant.Provider ++ " not found" } }
      calls := [] }
  | some p =>
    let r := p.GetDevices ctx plant.Meta.ProviderPlantID
    { result := { devices := r.1, err := r.2 }
      calls := [{ provider := plant.Provider, ctx := some ctx,
                  method := Method.GetDevices plant.Meta.ProviderPlantID }] }

/-- Go: the receiving loop of `GetAllDevices` over the channel contents, with
the accumulator `allDevices`. -/
def collectDevices : List DevicesResult → List NormalizedDevice → List NormalizedDevice
  | [], allDevices => allDevices
  | r :: ch, allDevices =>
    match r.err with
    | some _ => collectDevices ch allDevices
    | none => collectDevices ch (allDevices ++ r.devices)

/-- Go: `Engine.GetAllDevices`.  It returns the error of `GetAllPlants` if
there is one; otherwise it starts one goroutine per plant, `schedD` giving
the order in which their results arrive. -/
def Engine.GetAllDevices (e : Engine) (sched : Schedule (Σ _ : String, Provider))
    (schedD : Schedule NormalizedPlant) (ctx : Context) :
    Traced (List NormalizedDevice × Option GoError) :=
  let got := e.GetAllPlants sched ctx
  match got.result.2 with
  | some err => { result := ([], some err), calls := got.calls }
  | none =>
    let plants := got.result.1
    let ch := (schedD.order plants).map (devicesWorker e ctx)
    { result := (collectDevices (ch.map Traced.result) [], none)
      calls := got.calls ++ ch.flatMap Traced.calls }

/-- The text of the error every routing query returns for a name without a
provider: `fmt.Errorf("provider %q not registered", providerName)`.  The
rendering of a string under the verb `%q` belongs to the Go library and is
the parameter `quote`. -/
def errNotRegistered (quote : String → String) (providerName : String) : GoError :=
  { msg := "provider " ++ quote providerName ++ " not registered" }

/-- Go: `Engine.GetRealTimeData`. -/
def Engine.GetRealTimeData (e : Engine) (quote : String → String) (ctx : Context)
    (providerName deviceID : String) : Traced (Option NormalizedRealtime × Option GoError) :=
  match e.GetProvider providerName with
  | (some p, true) =>
    { result := p.GetRealTimeData ctx deviceID
      calls := [{ provider := providerName, ctx := some ctx,
                  method := Method.GetRealTimeData deviceID }] }
  | _ => { result := (none, some (errNotRegistered quote providerName)), calls := [] }

/-- Go: `Engine.GetPlantDetails`. -/
def Engine.GetPlantDetails (e : Engine) (quote : String → String) (ctx : Context)
    (providerName plantID : String) : Traced (Option NormalizedPlant × Option GoError) :=
  match e.GetProvider providerName with
  | (some p, true) =>
    { result := p.GetPlantDetails ctx plantID
      calls := [{ provider := providerName, ctx := some ctx,
                  method := Method.GetPlantDetails plantID }] }
  | _ => { result := (none, some (errNotRegistered quote providerName)), calls := [] }

/-- Go: `Engine.GetDevices`. -/
def Engine.GetDevices (e : Engine) (quote : String → String) (ctx : Context)
    (providerName plantID : String) : Traced (List NormalizedDevice × Option GoError) :=
  match e.GetProvider providerName with
  | (some p, true) =>
    { result := p.GetDevices ctx plantID
      calls := [{ provider := providerName, ctx := some ctx,
                  method := Method.GetDevices plantID }] }
  | _ => { result := ([], some (errNotRegistered quote providerName)), calls := [] }

/-- Go: `Engine.GetEnergyStats`.  The argument `date` is not used; `period`
is converted to `models.Period`. -/
def Engine.GetEnergyStats (e : Engine) (quote : String → String) (ctx : Context)
    (providerName plantID period _date : String) :
    Traced (Option NormalizedEnergy × Option GoError) :=
  match e.GetProvider providerName with
  | (some p, true) =>
    { result := p.GetEnergyStats ctx plantID (period : Period)
      calls := [{ provider := providerName, ctx := some ctx,
                  method := Method.GetEnergyStats plantID (period : Period) }] }
  | _ => { result := (none, some (errNotRegistered quote providerName)), calls := [] }

/-- Go: `Engine.GetHistoricalData`. -/
def Engine.GetHistoricalData (e : Engine) (quote : String → String) (ctx : Context)
    (providerName : String) (req : HistoryRequest) :
    Traced (Option HistoryResponse × Option GoError) :=
  match e.GetProvider providerName with
  | (some p, true) =>
    { result := p.GetHistoricalData ctx req.DeviceID req
      calls := [{ provider := providerName, ctx := some ctx,
                  method := Method.GetHistoricalData req.DeviceID req }] }
  | _ => { result := (none, some (errNotRegistered quote providerName)), calls := [] }

/-- Go: the local struct `result` of `GetAllAlarms`. -/
structure AlarmsResult where
  alarms : List NormalizedAlarm
  err : Option GoError
  name : String

/-- Go: the goroutine of `GetAllAlarms`, started for the map entry `x`. -/
def alarmsWorker (ctx : Context) (x : Σ _ : String, Provider) : AlarmsResult :=
  let r := x.2.GetAllAlarms ctx
  { alarms := r.1, err := r.2, name := x.1 }

/-- Go: the receiving loop of `GetAllAlarms` over the channel contents, with
the accumulator `allAlarms`. -/
def collectAlarms : List AlarmsResult → List NormalizedAlarm → List NormalizedAlarm
  | [], allAlarms => allAlarms
  | r :: ch, allAlarms =>
    match r.err with
    | some _ => collectAlarms ch allAlarms
    | none => collectAlarms ch (allAlarms ++ r.alarms)

/-- Go: `Engine.GetAllAlarms`.  One goroutine per map entry; `sched` gives
the order in which their results arrive; the error returned is always nil. -/
def Engine.GetAllAlarms (e : Engine) (sched : Schedule (Σ _ : String, Provider))
    (ctx : Context) : Traced (List NormalizedAlarm × Option GoError) :=
  let arrivals := sched.order e.providers.entries
  let ch := arrivals.map (alarmsWorker ctx)
  { result := (collectAlarms ch [], none)
    calls := arrivals.map fun x =>
      { provider := x.1, ctx := some ctx, method := Method.GetAllAlarms } }

/-- Go: `Engine.GetDeviceAlarms`. -/
def Engine.GetDeviceAlarms (e : Engine) (quote : String → String) (ctx : Context)
    (providerName deviceID : String) : Traced (List NormalizedAlarm × Option GoError) :=
  match e.GetProvider providerName with
  | (some p, true) =>
    { result := p.GetAlarms ctx deviceID
      calls := [{ provider := providerName, ctx := some ctx,
                  method := Method.GetAlarms deviceID }] }
  | _ => { result := ([], some (errNotRegistered quote providerName)), calls := [] }

/-- Go: `Engine.HealthCheck`.  The loop ranges over the provider map in the
order `sched` gives and stores `status[name] = p.Healthy(ctx)`. -/
def Engine.HealthCheck (e : Engine) (sched : Schedule (Σ _ : String, Provider))
    (ctx : Context) : Traced (GoMap Bool) :=
  let visited := sched.order e.providers.entries
  { result := visited.foldl (fun status x => status.insert x.1 (x.2.Healthy ctx)) ∅
    calls := visited.map fun x =>
      { provider := x.1, ctx := some ctx, method := Method.Healthy } }

/-- The alarms a fan-out over `xs` is expected to merge: those of the entries
whose `GetAllAlarms` returned a nil error, concatenated. -/
def alarmsOfSuccessful (ctx : Context) (xs : List (Σ _ : String, Provider)) : List NormalizedAlarm :=
  xs.flatMap fun x => if (x.2.GetAllAlarms ctx).2.isNone then (x.2.GetAllAlarms ctx).1 else []

/-- The devices a fan-out over `plants` is expected to merge: for each plant
whose `Provider` field names a registered provider and whose `GetDevices`
call on that provider returned a nil error, the devices of that call. -/
def devicesOfSuccessful (e : Engine) (ctx : Context) (plants : List NormalizedPlant) :
    List NormalizedDevice :=
  plants.flatMap fun plant =>
    match e.providers.lookup plant.Provider with
    | none => []
    | some p =>
      if (p.GetDevices ctx plant.Meta.ProviderPlantID).2.isNone then
        (p.GetDevices ctx plant.Meta.ProviderPlantID).1
      else []

/-! ## Provider registry (`internal/provider/registry.go`) -/

/-- Go: `type Factory func() Provider`. -/
abbrev Factory := Unit → Provider

/-- Struct `provider.Registry`.  The mutex is not modelled. -/
structure Registry where
  factories : GoMap Factory

/-- Go: `NewRegistry`. -/
def NewRegistry : Registry :=
  { factories := ∅ }

/-- Go: `Registry.Register`: `r.factories[name] = factory`. -/
def Registry.Register (r : Registry) (name : String) (factory : Factory) : Registry :=
  { factories := r.factories.insert name factory }

/-- Go: `Registry.ListProviders`.  The loop ranges over the factory map in
the order `sched` gives and appends each name. -/
def Registry.ListProviders (r : Registry) (sched : Schedule (Σ _ : String, Factory)) :
    List String :=
  (sched.order r.factories.entries).foldl (fun names x => names ++ [x.1]) []

/-- What `Registry.Create` returns, the names of the factories it ran, and
the registry after the call. -/
structure Created where
  provider : Option Provider
  err : Option GoError
  invoked : List String
  registry : Registry

/-- Go: `Registry.Create`.  Without a factory under `name` the error is
`fmt.Errorf("unknown provider type: %q (registered: %v)", name, r.ListProviders())`;
otherwise the factory is run once and its provider returned.  The method
only reads `r.factories`. -/
def Registry.Create (r : Registry) (quote : String → String)
    (sched : Schedule (Σ _ : String, Factory)) (name : String) : Created :=
  match r.factories.lookup name with
  | none =>
    { provider := none
      err := some { msg := "unknown provider type: " ++ quote name ++ " (registered: "
                      ++ fmtSlice (r.ListProviders sched) ++ ")" }
      invoked := []
      registry := r }
  | some factory =>
    { provider := some (factory ()), err := none, invoked := [name], registry := r }

/-! ## Unit and derived-metric helpers (`internal/normalizer/units.go`)

The helpers are written over an arbitrary ordered field, so that they can be
read over the reals and evaluated over the rationals. -/

/-- Go: `const CO2KgPerKWh = 0.475`. -/
def CO2KgPerKWh {α : Type} [LinearOrderedField α] : α := 475 / 1000

/-- Go: `CalculateCO2Savings`. -/
def CalculateCO2Savings {α : Type} [LinearOrderedField α] (kWh : α) : α :=
  kWh * CO2KgPerKWh

/-- Go: `CalculateTreesEquivalent`. -/
def CalculateTreesEquivalent {α : Type} [LinearOrderedField α] (co2SavedKg : α) : α :=
  co2SavedKg / 22

/-- Go: `CalculateSelfConsumptionRate`. -/
def CalculateSelfConsumptionRate {α : Type} [LinearOrderedField α]
    (pvGenerationKWh gridExportKWh : α) : α :=
  if pvGenerationKWh ≤ 0 then 0
  else
    let rate := (pvGenerationKWh - gridExportKWh) / pvGenerationKWh
    if rate < 0 then 0
    else if rate > 1 then 1
    else rate

/-- Go: `CalculateSelfSufficiencyRate`. -/
def CalculateSelfSufficiencyRate {α : Type} [LinearOrderedField α]
    (totalConsumptionKWh gridImportKWh : α) : α :=
  if totalConsumptionKWh ≤ 0 then 0
  else
    let rate := (totalConsumptionKWh - gridImportKWh) / totalConsumptionKWh
    if rate < 0 then 0
    else if rate > 1 then 1
    else rate

/-! ## Vendor payloads and Go library functions

A value decoded by `encoding/json` into `interface{}` is a `JsonValue`; a
`map[string]interface{}` is a `JsonObject`, the nil map being the empty one
(the adapters only read these maps).  Functions of the Go standard library
whose text output or parsing the adapters rely on are the fields of `GoLib`. -/

/-- A value held in an `interface{}`: JSON null, a bool, a `float64`, a
string, an `int`, or anything else (arrays, objects), kept opaque. -/
inductive JsonValue where
  | null
  | bool (b : Bool)
  | float (x : ℚ)
  | str (s : String)
  | int (i : Int)
  | other (tag : Nat)
  deriving DecidableEq, Repr

/-- A `map[string]interface{}`. -/
abbrev JsonObject := GoMap JsonValue

/-- Go: `v, ok := m[key]` followed by the test `!ok || v == nil`: the value
under `key` when the key is present with a non-nil value. -/
def jsonGet (m : JsonObject) (key : String) : Option JsonValue :=
  match m.lookup key with
  | none => none
  | some JsonValue.null => none
  | some v => some v

/-- Functions of the Go standard library, as parameters:
`strconv.FormatFloat(v, 'f', -1, 64)`, `fmt.Sprintf("%v", v)`,
`strconv.ParseFloat(s, 64)` (`none` when it returns an error) and
`strings.TrimSpace`; `parseFloatValue` is the number `strconv.ParseFloat`
returns whether or not it also returns an error; `atoi` is `strconv.Atoi`
(`none` when it returns an error) and `atoiValue` the number it returns
whether or not it also returns an error. -/
structure GoLib where
  formatFloat : ℚ → String
  sprintV : JsonValue → String
  parseFloat : String → Option ℚ
  trimSpace : String → String
  parseFloatValue : String → ℚ
  atoi : String → Option Int
  atoiValue : String → Int

/-- Go: `strconv.Itoa`, `strconv.FormatInt(i, 10)` and the verb `%d`: the
decimal text of an integer. -/
def itoa (i : Int) : String :=
  toString i

/-- The map built from a list of entries, later entries replacing earlier
ones with the same key. -/
def GoMap.ofList {β : Type} (kvs : List (String × β)) : GoMap β :=
  kvs.foldl (fun m kv => m.insert kv.1 kv.2) ∅

/-! ## SMA adapter (`internal/provider/sma/sma.go`) -/

namespace SMA

/-- Go: `const providerName = "sma"`, also the result of `Name()`. -/
def providerName : String := "sma"

/-- Struct `smaPlant`. -/
structure smaPlant where
  PlantID : String := ""
  Name : String := ""
  deriving DecidableEq, Repr

/-- Struct `smaPlantInstallation`. -/
structure smaPlantInstallation where
  PlantID : String := ""
  Name : String := ""
  Timezone : String := ""
  Latitude : Option ℚ := none
  Longitude : Option ℚ := none
  PeakPower : Option ℚ := none
  CalculatedAcNomPower : Option ℚ := none
  CO2SavingsFactor : Option ℚ := none
  Country : String := ""
  City : String := ""
  Street : String := ""
  PostalCode : String := ""
  deriving DecidableEq, Repr

/-- Struct `smaDevice`. -/
structure smaDevice where
  DeviceID : String := ""
  Name : String := ""
  Serial : String := ""
  Product : String := ""
  DeviceType : String := ""
  IsActive : Bool := false
  Status : String := ""
  Manufacturer : String := ""
  deriving DecidableEq, Repr

/-- Struct `smaDeviceListResponse`. -/
structure smaDeviceListResponse where
  Devices : List smaDevice := []
  deriving DecidableEq, Repr

/-- Struct `smaMeasurementEntry`; `Values` is a `map[string]*float64`. -/
structure smaMeasurementEntry where
  Time : String := ""
  Values : GoMap (Option ℚ) := ∅

/-- Struct `smaMeasurementSetResponse`. -/
structure smaMeasurementSetResponse where
  SetType : String := ""
  Sets : List smaMeasurementEntry := []

/-- Go: `entry.Values[key]`: the pointer stored under `key`, nil when the key
is absent. -/
def value (entry : smaMeasurementEntry) (key : String) : Option ℚ :=
  (entry.Values.lookup key).join

/-- Go: `defaultIfEmpty`. -/
def defaultIfEmpty (val dflt : String) : String :=
  if val = "" then dflt else val

/-- Go: `smaDeviceType`. -/
def smaDeviceType (t : String) : DeviceType :=
  if t = "SolarInverter" ∨ t = "PV Inverter" then DeviceTypeStringInverter
  else if t = "HybridInverter" then DeviceTypeHybridInverter
  else if t = "Battery" ∨ t = "BatteryInverter" then DeviceTypeBattery
  else if t = "EnergyMeter" ∨ t = "Meter" then DeviceTypeMeter
  else if t = "Gateway" ∨ t = "CommunicationProduct" then DeviceTypeGateway
  else if t = "Sensor" ∨ t = "SatelliteSensor" then DeviceTypeWeatherStation
  else if t = "EVCharger" then DeviceTypeEVCharger
  else DeviceTypeUnknown

/-- Go: `smaDeviceStatus`. -/
def smaDeviceStatus (status : String) (isActive : Bool) : DeviceStatus :=
  if !isActive then DeviceStatusOffline
  else if status = "Ok" ∨ status = "ok" then DeviceStatusNormal
  else if status = "Warning" ∨ status = "warning" then DeviceStatusWarning
  else if status = "Error" ∨ status = "error" ∨ status = "Alarm" ∨ status = "alarm" then
    DeviceStatusFault
  else DeviceStatusOnline

/-- Go: `smaLogSeverity`. -/
def smaLogSeverity (severity : String) : AlarmSeverity :=
  if severity = "info" then AlarmSeverityInfo
  else if severity = "warning" then AlarmSeverityWarning
  else if severity = "alarm" ∨ severity = "error" then AlarmSeverityCritical
  else AlarmSeverityUnknown

/-- Go: `normalizeSMAPlant`. -/
def normalizeSMAPlant (raw : smaPlant) : NormalizedPlant :=
  { ID := providerName ++ "_" ++ raw.PlantID
    Provider := providerName
    Name := raw.Name
    Meta := { Provider := providerName, ProviderPlantID := raw.PlantID } }

/-- Go: `normalizeSMAPlantInstallation`. -/
def normalizeSMAPlantInstallation (raw : smaPlantInstallation) (plantID : String) :
    NormalizedPlant :=
  { ID := providerName ++ "_" ++ plantID
    Provider := providerName
    Name := raw.Name
    Timezone := raw.Timezone
    Country := raw.Country
    Address := raw.Street ++ ", " ++ raw.PostalCode ++ " " ++ raw.City
    Meta := { Provider := providerName, ProviderPlantID := plantID }
    Location :=
      match raw.Latitude, raw.Longitude with
      | some lat, some lng => some { Latitude := lat, Longitude := lng }
      | _, _ => none
    PeakPowerKWp := raw.PeakPower.map fun wp => wp / 1000 }

/-- Go: `normalizeSMADevice`. -/
def normalizeSMADevice (raw : smaDevice) (plantID : String) : NormalizedDevice :=
  { ID := providerName ++ "_" ++ raw.DeviceID
    Provider := providerName
    PlantID := providerName ++ "_" ++ plantID
    Name := raw.Name
    SerialNumber := raw.Serial
    Model := raw.Product
    DeviceType := smaDeviceType raw.DeviceType
    Manufacturer := defaultIfEmpty raw.Manufacturer "SMA"
    Status := smaDeviceStatus raw.Status raw.IsActive
    IsOnline := raw.IsActive
    Meta := { Provider := providerName, ProviderDeviceID := raw.DeviceID,
              ProviderPlantID := plantID } }

/-- Go: `SMAProvider.GetDevices`, given what `p.client.Get` did: the error it
returned and the response it decoded. -/
def GetDevices (httpErr : Option GoError) (resp : smaDeviceListResponse) (plantID : String) :
    List NormalizedDevice × Option GoError :=
  match httpErr with
  | some err => ([], some { msg := "SMA GetDevices: " ++ err.msg })
  | none => (resp.Devices.foldl (fun devices raw => devices ++ [normalizeSMADevice raw plantID]) [],
             none)

/-- Go: one of the running sums of `normalizeSMAEnergy`: over all entries,
the values stored under `key`, each divided by 1000 (Wh to kWh). -/
def sumKWh (sets : List smaMeasurementEntry) (key : String) : ℚ :=
  sets.foldl
    (fun acc entry =>
      match value entry key with
      | some v => acc + v / 1000
      | none => acc)
    0

/-- Go: `normalizeSMAEnergy`.  The two rates are computed in place, each only
when its denominator is positive. -/
def normalizeSMAEnergy (resp : smaMeasurementSetResponse) (plantID : String) (period : Period) :
    NormalizedEnergy :=
  let pvGen := sumKWh resp.Sets "PvGeneration"
  let consumption := sumKWh resp.Sets "TotalConsumption"
  let gridFeedIn := sumKWh resp.Sets "GridFeedIn"
  let gridPurchase := sumKWh resp.Sets "GridPurchase"
  let batChg := sumKWh resp.Sets "BatteryCharge"
  let batDis := sumKWh resp.Sets "BatteryDischarge"
  { ID := providerName ++ "_" ++ plantID
    Provider := providerName
    Period := period
    Meta := { Provider := providerName, ProviderPlantID := plantID }
    PVGenerationKWh := some pvGen
    LoadConsumptionKWh := some consumption
    GridExportKWh := some gridFeedIn
    GridImportKWh := some gridPurchase
    BatteryChargeKWh := some batChg
    BatteryDischargeKWh := some batDis
    SelfConsumptionRate := if pvGen > 0 then some ((pvGen - gridFeedIn) / pvGen) else none
    SelfSufficiencyRate :=
      if consumption > 0 then some ((consumption - gridPurchase) / consumption) else none }

/-- Go: the loop over the phases `A`, `B`, `C` in `normalizeSMAHistory`. -/
def historyPhases (entry : smaMeasurementEntry) : List PhaseData :=
  ["A", "B", "C"].foldl
    (fun phases phase =>
      let v := value entry ("VoltagePhase" ++ phase)
      let c := value entry ("CurrentPhase" ++ phase)
      let pw := value entry ("PowerActivePhase" ++ phase)
      if v.isSome ∨ c.isSome ∨ pw.isSome then
        phases ++ [{ Phase := phase, VoltageV := v, CurrentA := c, PowerW := pw }]
      else phases)
    []

/-- Go: `normalizeSMAHistory`. -/
def normalizeSMAHistory (resp : smaMeasurementSetResponse) (deviceID : String)
    (req : HistoryRequest) : HistoryResponse :=
  let resultDeviceID := providerName ++ "_" ++ deviceID
  let dataPoints := resp.Sets.foldl
    (fun points entry =>
      points ++ [{ DeviceID := resultDeviceID
                   Provider := providerName
                   Granularity := req.Granularity
                   Meta := { Provider := providerName, ProviderDeviceID := deviceID }
                   PVPowerW := value entry "PowerActive"
                   GridPhases := historyPhases entry }])
    []
  { DeviceID := resultDeviceID
    Provider := providerName
    Granularity := req.Granularity
    StartTime := req.StartTime
    EndTime := req.EndTime
    DataPoints := dataPoints
    TotalPoints := dataPoints.length }

end SMA

/-! ## Huawei adapter (`internal/provider/huawei/huawei.go`) -/

namespace Huawei

/-- Go: `const providerName = "huawei"`, also the result of `Name()`. -/
def providerName : String := "huawei"

/-- Struct `huaweiBaseResponse`. -/
structure huaweiBaseResponse where
  Success : Bool := false
  FailCode : Int := 0
  Message : String := ""
  deriving DecidableEq, Repr

/-- Struct `huaweiStation`. -/
structure huaweiStation where
  StationCode : String := ""
  StationName : String := ""
  StationAddr : String := ""
  Latitude : ℚ := 0
  Longitude : ℚ := 0
  Capacity : ℚ := 0
  ContactPerson : String := ""
  deriving DecidableEq, Repr

/-- Struct `huaweiStationKpi`. -/
structure huaweiStationKpi where
  StationCode : String := ""
  DataItemMap : JsonObject := ∅

/-- Struct `huaweiDevInfo`. -/
structure huaweiDevInfo where
  DevID : Int := 0
  DevName : String := ""
  DevTypeID : Int := 0
  StationCode : String := ""
  InvType : String := ""
  SoftwareVersion : String := ""
  ESN : String := ""
  deriving DecidableEq, Repr

/-- Struct `huaweiDevListResponse`. -/
structure huaweiDevListResponse extends huaweiBaseResponse where
  Data : List huaweiDevInfo := []
  deriving DecidableEq, Repr

/-- Struct `huaweiKpiHistoryEntry`. -/
structure huaweiKpiHistoryEntry where
  StationCode : String := ""
  CollectTime : Int := 0
  DataItemMap : JsonObject := ∅

/-- Struct `huaweiKpiHistoryResponse`. -/
structure huaweiKpiHistoryResponse extends huaweiBaseResponse where
  Data : List huaweiKpiHistoryEntry := []

/-- Go: `extractFloatP`. -/
def extractFloatP (lib : GoLib) (m : JsonObject) (key : String) : Option ℚ :=
  match jsonGet m key with
  | some (JsonValue.float val) => some val
  | some (JsonValue.str val) => lib.parseFloat (lib.trimSpace val)
  | _ => none

/-- Go: `huaweiDeviceType`. -/
def huaweiDeviceType (typeID : Int) : DeviceType :=
  if typeID = 1 then DeviceTypeStringInverter
  else if typeID = 2 then DeviceTypeMeter
  else if typeID = 38 then DeviceTypeBattery
  else if typeID = 39 then DeviceTypeOptimizer
  else if typeID = 46 then DeviceTypeEMS
  else if typeID = 47 then DeviceTypeGateway
  else if typeID = 62 then DeviceTypeHybridInverter
  else DeviceTypeUnknown

/-- Go: `huaweiAlarmSeverity`. -/
def huaweiAlarmSeverity (severity : Int) : AlarmSeverity :=
  if severity = 1 then AlarmSeverityCritical
  else if severity = 2 then AlarmSeverityCritical
  else if severity = 3 then AlarmSeverityWarning
  else if severity = 4 then AlarmSeverityInfo
  else AlarmSeverityUnknown

/-- Go: `huaweiAlarmStatus`. -/
def huaweiAlarmStatus (status : Int) : AlarmStatus :=
  if status = 1 then AlarmStatusActive
  else if status = 2 then AlarmStatusResolved
  else AlarmStatusUnknown

/-- Go: `normalizeHuaweiStation`. -/
def normalizeHuaweiStation (raw : huaweiStation) : NormalizedPlant :=
  { ID := providerName ++ "_" ++ raw.StationCode
    Provider := providerName
    Name := raw.StationName
    Address := raw.StationAddr
    PeakPowerKWp := some raw.Capacity
    Location := some { Latitude := raw.Latitude, Longitude := raw.Longitude }
    Meta := { Provider := providerName, ProviderPlantID := raw.StationCode } }

/-- Go: `normalizeHuaweiStationKpi`. -/
def normalizeHuaweiStationKpi (_raw : huaweiStationKpi) (plantID : String) : NormalizedPlant :=
  { ID := providerName ++ "_" ++ plantID
    Provider := providerName
    Name := plantID
    Meta := { Provider := providerName, ProviderPlantID := plantID, RawDataAvailable := true } }

/-- Go: `normalizeHuaweiDevice`. -/
def normalizeHuaweiDevice (raw : huaweiDevInfo) (plantID : String) : NormalizedDevice :=
  let devID := itoa raw.DevID
  { ID := providerName ++ "_" ++ devID
    Provider := providerName
    PlantID := providerName ++ "_" ++ plantID
    Name := raw.DevName
    SerialNumber := raw.ESN
    Model := raw.InvType
    DeviceType := huaweiDeviceType raw.DevTypeID
    Manufacturer := "Huawei"
    Status := DeviceStatusUnknown
    FirmwareInfo := some { MainVersion := raw.SoftwareVersion }
    Meta := { Provider := providerName, ProviderDeviceID := devID, ProviderPlantID := plantID,
              Extra := [("devTypeId", itoa raw.DevTypeID), ("stationCode", raw.StationCode)] } }

/-- Go: `HuaweiProvider.GetDevices`, given what `p.client.Post` did: the error
it returned and the response it decoded. -/
def GetDevices (httpErr : Option GoError) (resp : huaweiDevListResponse) (plantID : String) :
    List NormalizedDevice × Option GoError :=
  match httpErr with
  | some err => ([], some { msg := "Huawei GetDevices: " ++ err.msg })
  | none =>
    if !resp.Success then ([], some { msg := "Huawei GetDevices failed: " ++ resp.Message })
    else
      (resp.Data.foldl (fun devices raw => devices ++ [normalizeHuaweiDevice raw plantID]) [],
       none)

/-- Go: `normalizeHuaweiHistory`. -/
def normalizeHuaweiHistory (lib : GoLib) (resp : huaweiKpiHistoryResponse) (deviceID : String)
    (req : HistoryRequest) : HistoryResponse :=
  let resultDeviceID := providerName ++ "_" ++ deviceID
  let dataPoints := resp.Data.foldl
    (fun points entry =>
      let data := entry.DataItemMap
      points ++ [{ DeviceID := resultDeviceID
                   Provider := providerName
                   Granularity := req.Granularity
                   Meta := { Provider := providerName }
                   PVEnergyKWh := extractFloatP lib data "inverter_power"
                   GridExportEnergyKWh := extractFloatP lib data "ongrid_power"
                   LoadEnergyKWh := extractFloatP lib data "use_power" }])
    []
  { DeviceID := resultDeviceID
    Provider := providerName
    Granularity := req.Granularity
    StartTime := req.StartTime
    EndTime := req.EndTime
    DataPoints := dataPoints
    TotalPoints := dataPoints.length }

end Huawei

/-! ## Sungrow adapter (`internal/provider/sungrow/sungrow.go`) -/

namespace Sungrow

/-- Go: `const providerName = "sungrow"`, also the result of `Name()`. -/
def providerName : String := "sungrow"

/-- Struct `sungrowBaseResponse`. -/
structure sungrowBaseResponse where
  ResultCode : String := ""
  ResultMsg : String := ""
  deriving DecidableEq, Repr

/-- Struct `sungrowPlant`. -/
structure sungrowPlant where
  PSID : String := ""
  PSName : String := ""
  PSLocation : String := ""
  Latitude : String := ""
  Longitude : String := ""
  DesignCapacity : String := ""
  PSType : Int := 0
  ConnectType : Int := 0
  deriving DecidableEq, Repr

/-- Struct `sungrowDevice`. -/
structure sungrowDevice where
  DeviceID : String := ""
  DeviceName : String := ""
  DeviceType : Int := 0
  DeviceModel : String := ""
  DeviceSN : String := ""
  DeviceStatus : Int := 0
  PSID : String := ""
  deriving DecidableEq, Repr

/-- Struct `sungrowDeviceListResponse`; `PageList` is `ResultData.PageList`. -/
structure sungrowDeviceListResponse extends sungrowBaseResponse where
  PageList : List sungrowDevice := []
  deriving DecidableEq, Repr

/-- Struct `sungrowHistoryResponse`; `TimeType` and `DataList` are the fields
of `ResultData`. -/
structure sungrowHistoryResponse extends sungrowBaseResponse where
  TimeType : String := ""
  DataList : List JsonObject := []

/-- Go: `extractStr`. -/
def extractStr (lib : GoLib) (m : JsonObject) (key : String) : String :=
  match jsonGet m key with
  | none => ""
  | some v => lib.sprintV v

/-- Go: `extractFlP`. -/
def extractFlP (lib : GoLib) (m : JsonObject) (key : String) : Option ℚ :=
  match jsonGet m key with
  | some (JsonValue.float val) => some val
  | some (JsonValue.str val) => lib.parseFloat (lib.trimSpace val)
  | _ => none

/-- Go: `sungrowDeviceType`. -/
def sungrowDeviceType (t : Int) : DeviceType :=
  if t = 1 then DeviceTypeStringInverter
  else if t = 2 then DeviceTypeOptimizer
  else if t = 3 then DeviceTypeMeter
  else if t = 4 then DeviceTypeWeatherStation
  else if t = 5 then DeviceTypeGateway
  else if t = 7 then DeviceTypeBattery
  else if t = 11 then DeviceTypeHybridInverter
  else if t = 14 then DeviceTypeEMS
  else DeviceTypeUnknown

/-- Go: `sungrowDeviceStatus`. -/
def sungrowDeviceStatus (s : Int) : DeviceStatus :=
  if s = 0 then DeviceStatusOffline
  else if s = 1 then DeviceStatusOnline
  else DeviceStatusUnknown

/-- Go: `sungrowAlarmSeverity`. -/
def sungrowAlarmSeverity (level : Int) : AlarmSeverity :=
  if level = 1 then AlarmSeverityInfo
  else if level = 2 then AlarmSeverityWarning
  else if level = 3 then AlarmSeverityCritical
  else AlarmSeverityUnknown

/-- Go: `sungrowAlarmStatus`. -/
def sungrowAlarmStatus (status : Int) : AlarmStatus :=
  if status = 1 then AlarmStatusActive
  else if status = 2 then AlarmStatusResolved
  else AlarmStatusUnknown

/-- Go: `normalizeSungrowPlant`. -/
def normalizeSungrowPlant (lib : GoLib) (raw : sungrowPlant) : NormalizedPlant :=
  { ID := providerName ++ "_" ++ raw.PSID
    Provider := providerName
    Name := raw.PSName
    Address := raw.PSLocation
    Meta := { Provider := providerName, ProviderPlantID := raw.PSID }
    Location :=
      match lib.parseFloat raw.Latitude, lib.parseFloat raw.Longitude with
      | some lat, some lng => some { Latitude := lat, Longitude := lng }
      | _, _ => none
    PeakPowerKWp := lib.parseFloat raw.DesignCapacity }

/-- Go: `normalizeSungrowPlantDetail`. -/
def normalizeSungrowPlantDetail (lib : GoLib) (data : JsonObject) : NormalizedPlant :=
  { ID := providerName ++ "_" ++ extractStr lib data "ps_id"
    Provider := providerName
    Name := extractStr lib data "ps_name"
    Address := extractStr lib data "ps_location"
    Meta := { Provider := providerName, ProviderPlantID := extractStr lib data "ps_id",
              RawDataAvailable := true } }

/-- Go: `normalizeSungrowDevice`. -/
def normalizeSungrowDevice (raw : sungrowDevice) (plantID : String) : NormalizedDevice :=
  { ID := providerName ++ "_" ++ raw.DeviceID
    Provider := providerName
    PlantID := providerName ++ "_" ++ plantID
    Name := raw.DeviceName
    SerialNumber := raw.DeviceSN
    Model := raw.DeviceModel
    DeviceType := sungrowDeviceType raw.DeviceType
    Manufacturer := "Sungrow"
    Status := sungrowDeviceStatus raw.DeviceStatus
    IsOnline := decide (raw.DeviceStatus = 1)
    Meta := { Provider := providerName, ProviderDeviceID := raw.DeviceID,
              ProviderPlantID := plantID, Extra := [("deviceType", itoa raw.DeviceType)] } }

/-- Go: `SungrowProvider.GetDevices`, given what `p.client.Post` did: the
error it returned and the response it decoded. -/
def GetDevices (httpErr : Option GoError) (resp : sungrowDeviceListResponse)
    (plantID : String) : List NormalizedDevice × Option GoError :=
  match httpErr with
  | some err => ([], some { msg := "Sungrow GetDevices: " ++ err.msg })
  | none =>
    if resp.ResultCode ≠ "1" then
      ([], some { msg := "Sungrow GetDevices failed: " ++ resp.ResultMsg })
    else
      (resp.PageList.foldl (fun devices raw => devices ++ [normalizeSungrowDevice raw plantID])
        [], none)

/-- Go: `normalizeSungrowHistory`.  Every point takes `pac`, `e_day` and
`meter_power`, whatever the granularity. -/
def normalizeSungrowHistory (lib : GoLib) (resp : sungrowHistoryResponse) (deviceID : String)
    (req : HistoryRequest) : HistoryResponse :=
  let resultDeviceID := providerName ++ "_" ++ deviceID
  let dataPoints := resp.DataList.foldl
    (fun points point =>
      points ++ [{ DeviceID := resultDeviceID
                   Provider := providerName
                   Granularity := req.Granularity
                   Meta := { Provider := providerName, ProviderDeviceID := deviceID }
                   PVPowerW := extractFlP lib point "pac"
                   PVEnergyKWh := extractFlP lib point "e_day"
                   GridPowerW := extractFlP lib point "meter_power" }])
    []
  { DeviceID := resultDeviceID
    Provider := providerName
    Granularity := req.Granularity
    StartTime := req.StartTime
    EndTime := req.EndTime
    DataPoints := dataPoints
    TotalPoints := dataPoints.length }

end Sungrow

/-! ## SAJ adapter (`internal/provider/saj/saj.go`) -/

namespace SAJ

/-- Go: `const providerName = "saj"`, also the result of `Name()`. -/
def providerName : String := "saj"

/-- Struct `sajPlantRow`. -/
structure sajPlantRow where
  PlantID : String := ""
  PlantName : String := ""
  NMI : String := ""
  PlantNo : String := ""
  deriving DecidableEq, Repr

/-- Struct `sajPlantDetails`; `TypeCode` is its field `Type`. -/
structure sajPlantDetails where
  PlantUid : String := ""
  PlantName : String := ""
  PlantNo : String := ""
  TypeCode : Int := 0
  SystemPower : ℚ := 0
  GridPrice : ℚ := 0
  CurrencyName : String := ""
  Currency : String := ""
  TimeZone : String := ""
  Country : String := ""
  CountryCode : String := ""
  Province : String := ""
  City : String := ""
  FullAddress : String := ""
  Latitude : ℚ := 0
  Longitude : ℚ := 0
  GridNetType : String := ""
  DeviceSnList : List String := []
  ModuleSnList : List String := []
  deriving DecidableEq, Repr

/-- Struct `sajDeviceWrapper`. -/
structure sajDeviceWrapper where
  DeviceType : Int := 0
  SN : String := ""
  InverterData : JsonObject := ∅
  EmsData : JsonObject := ∅
  MeterData : JsonObject := ∅
  ChargerData : JsonObject := ∅

/-- Struct `sajDeviceListResponse`. -/
structure sajDeviceListResponse where
  Code : Int := 0
  Msg : String := ""
  Data : List sajDeviceWrapper := []

/-- Struct `sajUploadDataResponse`; the last four fields are those of its
`Data`, and `Total` is absent when that map is nil. -/
structure sajUploadDataResponse where
  ErrCode : Int := 0
  ErrMsg : String := ""
  DeviceType : Int := 0
  TimeUnit : Int := 0
  Total : Option JsonObject := none
  Data : List JsonObject := []

/-- Go: `extractStringSafe`. -/
def extractStringSafe (lib : GoLib) (m : JsonObject) (key : String) : String :=
  match jsonGet m key with
  | none => ""
  | some (JsonValue.str val) => val
  | some (JsonValue.float val) => lib.formatFloat val
  | some v => lib.sprintV v

/-- Go: `extractFloatPtr`. -/
def extractFloatPtr (lib : GoLib) (m : JsonObject) (key : String) : Option ℚ :=
  match jsonGet m key with
  | some (JsonValue.float val) => some val
  | some (JsonValue.str val) => lib.parseFloat (lib.trimSpace val)
  | some (JsonValue.int val) => some (val : ℚ)
  | _ => none

/-- Go: `sajPlantType`. -/
def sajPlantType (t : Int) : PlantType :=
  if t = 0 then PlantTypeGridTied
  else if t = 1 then PlantTypeHybrid
  else if t = 3 then PlantTypeACCoupled
  else PlantTypeUnknown

/-- Go: `sajGridConnectionType`. -/
def sajGridConnectionType (t : String) : GridConnectionType :=
  if t = "1" then GridConnectionFullExport
  else if t = "2" then GridConnectionSelfConsume
  else if t = "3" then GridConnectionOffGrid
  else GridConnectionUnknown

/-- Go: `sajDeviceType`. -/
def sajDeviceType (t : Int) : DeviceType :=
  if t = 0 then DeviceTypeStringInverter
  else if t = 1 then DeviceTypeHybridInverter
  else if t = 2 then DeviceTypeLoadMonitor
  else if t = 3 then DeviceTypeEVCharger
  else if t = 6 then DeviceTypeEMS
  else if t = 7 then DeviceTypeMeter
  else if t = 10 then DeviceTypeDieselGenerator
  else if t = 16 ∨ t = 18 then DeviceTypeOptimizer
  else if t = 17 then DeviceTypeHeatPump
  else if t = 19 then DeviceTypeWeatherStation
  else DeviceTypeUnknown

/-- Go: `sajOperatingMode`. -/
def sajOperatingMode (mode : Int) : OperatingMode :=
  if mode = 0 then OperatingModeInitializing
  else if mode = 1 then OperatingModeWaiting
  else if mode = 2 then OperatingModeGridConnected
  else if mode = 3 then OperatingModeOffGrid
  else if mode = 5 then OperatingModeFault
  else if mode = 6 then OperatingModeUpgrading
  else OperatingModeUnknown

/-- Go: `sajBatteryDirection`. -/
def sajBatteryDirection (dir : Int) : EnergyDirection :=
  if dir = -1 then DirectionCharging
  else if dir = 1 then DirectionDischarging
  else if dir = 0 then DirectionIdle
  else DirectionUnknown

/-- Go: `sajGridDirection`. -/
def sajGridDirection (dir : Int) : GridDirection :=
  if dir = -1 then GridDirectionImporting
  else if dir = 1 then GridDirectionExporting
  else if dir = 0 then GridDirectionIdle
  else GridDirectionUnknown

/-- Go: `sajAlarmSeverity`. -/
def sajAlarmSeverity (level : Int) : AlarmSeverity :=
  if level = 1 then AlarmSeverityInfo
  else if level = 2 then AlarmSeverityWarning
  else if level = 3 then AlarmSeverityCritical
  else AlarmSeverityUnknown

/-- Go: `sajAlarmStatus`. -/
def sajAlarmStatus (status : Int) : AlarmStatus :=
  if status = 1 then AlarmStatusActive
  else if status = 4 then AlarmStatusResolved
  else AlarmStatusUnknown

/-- Go: `normalizeSAJPlant`. -/
def normalizeSAJPlant (raw : sajPlantRow) : NormalizedPlant :=
  { ID := providerName ++ "_" ++ raw.PlantID
    Provider := providerName
    Name := raw.PlantName
    Meta := { Provider := providerName, ProviderPlantID := raw.PlantID,
              Extra := [("plantNo", raw.PlantNo), ("nmi", raw.NMI)] } }

/-- Go: `normalizeSAJPlantDetails`. -/
def normalizeSAJPlantDetails (raw : sajPlantDetails) : NormalizedPlant :=
  { ID := providerName ++ "_" ++ raw.PlantUid
    Provider := providerName
    Name := raw.PlantName
    Timezone := raw.TimeZone
    Country := raw.Country
    Address := raw.FullAddress
    PeakPowerKWp := some raw.SystemPower
    PlantType := sajPlantType raw.TypeCode
    GridConnectionType := some (sajGridConnectionType raw.GridNetType)
    ElectricityPrice := some raw.GridPrice
    Currency := raw.Currency
    Location := some { Latitude := raw.Latitude, Longitude := raw.Longitude }
    Meta := { Provider := providerName, ProviderPlantID := raw.PlantUid,
              ProviderPlantUID := raw.PlantUid,
              Extra := [("plantNo", raw.PlantNo), ("countryCode", raw.CountryCode)] } }

/-- Go: `normalizeSAJDevice`. -/
def normalizeSAJDevice (lib : GoLib) (raw : sajDeviceWrapper) (plantID : String) :
    NormalizedDevice :=
  let deviceType := sajDeviceType raw.DeviceType
  let sn := extractStringSafe lib raw.InverterData "deviceSn"
  let sn := if sn = "" then extractStringSafe lib raw.EmsData "deviceSn" else sn
  let sn := if sn = "" then extractStringSafe lib raw.MeterData "meterSn" else sn
  let sn := if sn = "" then raw.SN else sn
  let name := extractStringSafe lib raw.InverterData "aliases"
  let name := if name = "" then extractStringSafe lib raw.EmsData "emsModuleName" else name
  let name := if name = "" then sn else name
  let model := extractStringSafe lib raw.InverterData "deviceModel"
  let model := if model = "" then extractStringSafe lib raw.EmsData "emsModel" else model
  { ID := providerName ++ "_" ++ sn
    Provider := providerName
    PlantID := providerName ++ "_" ++ plantID
    Name := name
    SerialNumber := sn
    Model := model
    DeviceType := deviceType
    Manufacturer := "SAJ"
    Status := DeviceStatusUnknown
    Meta := { Provider := providerName, ProviderDeviceID := sn, ProviderPlantID := plantID } }

/-- Go: `normalizeSAJBaseInfo`. -/
def normalizeSAJBaseInfo (lib : GoLib) (raw : JsonObject) (deviceID : String) :
    NormalizedDevice :=
  { ID := providerName ++ "_" ++ deviceID
    Provider := providerName
    SerialNumber := extractStringSafe lib raw "invSN"
    Model := extractStringSafe lib raw "invType"
    DeviceType := DeviceTypeInverter
    Manufacturer := "SAJ"
    FirmwareInfo := some { MainVersion := extractStringSafe lib raw "invMFW"
                           SlaveVersion := extractStringSafe lib raw "invSFW"
                           DisplayVersion := extractStringSafe lib raw "invDFW"
                           ModuleModel := extractStringSafe lib raw "moduleModel"
                           ModuleSN := extractStringSafe lib raw "moduleSN"
                           ModuleFirmware := extractStringSafe lib raw "moduleFW" }
    Meta := { Provider := providerName, ProviderDeviceID := deviceID,
              RawDataAvailable := true } }

/-- Go: `SAJProvider.GetDevices`, given the error of `p.ensureToken`, and what
`p.client.Get` did: the error it returned and the response it decoded. -/
def GetDevices (lib : GoLib) (tokenErr httpErr : Option GoError) (resp : sajDeviceListResponse)
    (plantID : String) : List NormalizedDevice × Option GoError :=
  match tokenErr with
  | some err => ([], some err)
  | none =>
    match httpErr with
    | some err => ([], some err)
    | none =>
      if resp.Code ≠ 200 then
        ([], some { msg := "SAJ GetDevices: code=" ++ itoa resp.Code ++ " msg=" ++ resp.Msg })
      else
        (resp.Data.foldl (fun devices raw => devices ++ [normalizeSAJDevice lib raw plantID]) [],
         none)

/-- Go: the body of the loop of `normalizeSAJHistory` for one vendor point:
power fields for the granularity `minute`, energy fields for every other
granularity. -/
def historyPoint (lib : GoLib) (resultDeviceID deviceID : String) (req : HistoryRequest)
    (point : JsonObject) : NormalizedTimeSeries :=
  let dp : NormalizedTimeSeries :=
    { DeviceID := resultDeviceID
      Provider := providerName
      Granularity := req.Granularity
      Meta := { Provider := providerName, ProviderDeviceID := deviceID } }
  if req.Granularity = GranularityMinute then
    let chg := extractFloatPtr lib point "chargePower"
    let dis := extractFloatPtr lib point "dischargePower"
    { dp with
      PVPowerW := extractFloatPtr lib point "pvPower"
      LoadPowerW := extractFloatPtr lib point "loadPower"
      GridImportPowerW := extractFloatPtr lib point "buyPower"
      GridExportPowerW := extractFloatPtr lib point "sellPower"
      SelfUsePowerW := extractFloatPtr lib point "selfUsePower"
      BatterySOC := extractFloatPtr lib point "batterySOC"
      BatteryPowerW := if chg.isSome then chg else if dis.isSome then dis else none }
  else
    let pv := extractFloatPtr lib point "pVEnergy"
    { dp with
      PVEnergyKWh := if pv.isNone then extractFloatPtr lib point "pvEnergy" else pv
      LoadEnergyKWh := extractFloatPtr lib point "loadEnergy"
      GridImportEnergyKWh := extractFloatPtr lib point "buyEnergy"
      GridExportEnergyKWh := extractFloatPtr lib point "sellEnergy"
      SelfConsumptionKWh := extractFloatPtr lib point "selfConsumption" }

/-- Go: `normalizeSAJHistory`. -/
def normalizeSAJHistory (lib : GoLib) (resp : sajUploadDataResponse) (deviceID : String)
    (req : HistoryRequest) : HistoryResponse :=
  let resultDeviceID := providerName ++ "_" ++ deviceID
  let dataPoints := resp.Data.foldl
    (fun points point => points ++ [historyPoint lib resultDeviceID deviceID req point]) []
  { DeviceID := resultDeviceID
    Provider := providerName
    Granularity := req.Granularity
    StartTime := req.StartTime
    EndTime := req.EndTime
    DataPoints := dataPoints
    Aggregate := resp.Total.map fun total =>
      { TotalPVEnergyKWh := extractFloatPtr lib total "totalPVEnergy"
        TotalLoadEnergyKWh := extractFloatPtr lib total "totalLoad"
        TotalGridImportKWh := extractFloatPtr lib total "totalBuyEnergy"
        TotalGridExportKWh := extractFloatPtr lib total "totalSellEnergy"
        SelfConsumptionRate := extractFloatPtr lib total "pvSelfConsumedRate" }
    TotalPoints := dataPoints.length }

end SAJ

/-! ## Composite identifiers -/

/-- The names of the four adapters. -/
def adapterNames : List String :=
  [Huawei.providerName, SMA.providerName, Sungrow.providerName, SAJ.providerName]

/-- The plant `pl` is the plant of the adapter `name` for the vendor-native
plant identifier `native`: `Provider` and `Meta.Provider` are the adapter
name, `Meta.ProviderPlantID` is the native identifier, and `ID` is the name,
an underscore and the native identifier, which is `Provider`, an underscore
and `Meta.ProviderPlantID`. -/
def PlantIDFrom (name native : String) (pl : NormalizedPlant) : Prop :=
  pl.Provider = name ∧ pl.Meta.Provider = name ∧ pl.Meta.ProviderPlantID = native
    ∧ pl.ID = name ++ "_" ++ native
    ∧ pl.ID = pl.Provider ++ "_" ++ pl.Meta.ProviderPlantID

/-- The device `d` is the device of the adapter `name` for the vendor-native
device identifier `native`: as `PlantIDFrom`, with `Meta.ProviderDeviceID`. -/
def DeviceIDFrom (name native : String) (d : NormalizedDevice) : Prop :=
  d.Provider = name ∧ d.Meta.Provider = name ∧ d.Meta.ProviderDeviceID = native
    ∧ d.ID = name ++ "_" ++ native
    ∧ d.ID = d.Provider ++ "_" ++ d.Meta.ProviderDeviceID

/-- The plants that the plant normalizers of the four adapters produce, each
with the name of its adapter and the vendor-native plant identifier of the
input it was produced from: the identifier field of the vendor record, or
the plant identifier the adapter was called with. -/
inductive PlantNormalizedFrom (lib : GoLib) : String → String → NormalizedPlant → Prop where
  | smaPlant (raw : SMA.smaPlant) :
      PlantNormalizedFrom lib SMA.providerName raw.PlantID (SMA.normalizeSMAPlant raw)
  | smaPlantInstallation (raw : SMA.smaPlantInstallation) (plantID : String) :
      PlantNormalizedFrom lib SMA.providerName plantID
        (SMA.normalizeSMAPlantInstallation raw plantID)
  | huaweiStation (raw : Huawei.huaweiStation) :
      PlantNormalizedFrom lib Huawei.providerName raw.StationCode
        (Huawei.normalizeHuaweiStation raw)
  | huaweiStationKpi (raw : Huawei.huaweiStationKpi) (plantID : String) :
      PlantNormalizedFrom lib Huawei.providerName plantID
        (Huawei.normalizeHuaweiStationKpi raw plantID)
  | sungrowPlant (raw : Sungrow.sungrowPlant) :
      PlantNormalizedFrom lib Sungrow.providerName raw.PSID
        (Sungrow.normalizeSungrowPlant lib raw)
  | sungrowPlantDetail (data : JsonObject) :
      PlantNormalizedFrom lib Sungrow.providerName (Sungrow.extractStr lib data "ps_id")
        (Sungrow.normalizeSungrowPlantDetail lib data)
  | sajPlant (raw : SAJ.sajPlantRow) :
      PlantNormalizedFrom lib SAJ.providerName raw.PlantID (SAJ.normalizeSAJPlant raw)
  | sajPlantDetails (raw : SAJ.sajPlantDetails) :
      PlantNormalizedFrom lib SAJ.providerName raw.PlantUid (SAJ.normalizeSAJPlantDetails raw)

/-! ## Engine shutdown -/

/-- Go: `Engine.Close`.  The loop ranges over the provider map in the order
`sched` gives and calls `p.Close()` on each provider; an error is logged and
the loop goes on; the result is always the nil error. -/
def Engine.Close (e : Engine) (sched : Schedule (Σ _ : String, Provider)) :
    Traced (Option GoError) :=
  let visited := sched.order e.providers.entries
  { result := none
    calls := visited.foldl
      (fun calls x =>
        match x.2.Close with
        | some _ => calls ++ [{ provider := x.1, ctx := none, method := Method.Close }]
        | none => calls ++ [{ provider := x.1, ctx := none, method := Method.Close }])
      [] }

/-! ## SMA alarms (`internal/provider/sma/sma.go`) -/

namespace SMA

/-- Struct `smaPlantListResponse`. -/
structure smaPlantListResponse where
  Plants : List smaPlant := []
  deriving DecidableEq, Repr

/-- Struct `smaLogEntry`. -/
structure smaLogEntry where
  LogID : String := ""
  Time : String := ""
  Message : String := ""
  Severity : String := ""
  DeviceID : String := ""
  deriving DecidableEq, Repr

/-- Struct `smaLogResponse`. -/
structure smaLogResponse where
  Logs : List smaLogEntry := []
  deriving DecidableEq, Repr

/-- Go: `normalizeSMALogEntry`.  The argument `deviceID` is not used. -/
def normalizeSMALogEntry (entry : smaLogEntry) (_deviceID : String) : NormalizedAlarm :=
  { ID := providerName ++ "_log_" ++ entry.LogID
    Provider := providerName
    DeviceID := providerName ++ "_" ++ entry.DeviceID
    Code := entry.LogID
    Name := entry.Message
    Message := entry.Message
    Severity := smaLogSeverity entry.Severity
    Status := AlarmStatusActive
    Meta := { Provider := providerName, ProviderDeviceID := entry.DeviceID } }

/-- Go: the loop over `resp.Logs` in `GetAlarms` and `GetAllAlarms`: an entry
is normalized and appended to `alarms` when its severity is `alarm`, `error`
or `warning`. -/
def appendLogAlarms (alarms : List NormalizedAlarm) (logs : List smaLogEntry)
    (deviceID : String) : List NormalizedAlarm :=
  logs.foldl
    (fun alarms entry =>
      if entry.Severity = "alarm" ∨ entry.Severity = "error" ∨ entry.Severity = "warning" then
        alarms ++ [normalizeSMALogEntry entry deviceID]
      else alarms)
    alarms

/-- Go: `SMAProvider.GetAlarms`, given what `p.client.Get` did: the error it
returned and the response it decoded. -/
def GetAlarms (httpErr : Option GoError) (resp : smaLogResponse) (deviceID : String) :
    List NormalizedAlarm × Option GoError :=
  match httpErr with
  | some err => ([], some { msg := "SMA GetAlarms: " ++ err.msg })
  | none => (appendLogAlarms [] resp.Logs deviceID, none)

/-- Go: `SMAProvider.GetPlants`, given what `p.client.Get` did. -/
def GetPlants (httpErr : Option GoError) (resp : smaPlantListResponse) :
    List NormalizedPlant × Option GoError :=
  match httpErr with
  | some err => ([], some { msg := "SMA GetPlants: " ++ err.msg })
  | none => (resp.Plants.foldl (fun plants raw => plants ++ [normalizeSMAPlant raw]) [], none)

/-- Go: `SMAProvider.GetAllAlarms`, given what the plant-list request did
and, for each plant identifier, what the request of that plant's logs did.
A plant whose log request fails is skipped. -/
def GetAllAlarms (plantsErr : Option GoError) (plantsResp : smaPlantListResponse)
    (logs : String → Option GoError × smaLogResponse) :
    List NormalizedAlarm × Option GoError :=
  match GetPlants plantsErr plantsResp with
  | (_, some err) => ([], some err)
  | (plants, none) =>
    (plants.foldl
      (fun allAlarms plant =>
        let plantID := plant.Meta.ProviderPlantID
        match logs plantID with
        | (some _, _) => allAlarms
        | (none, resp) => appendLogAlarms allAlarms resp.Logs "")
      [], none)

end SMA

/-! ## Provider configuration and HTTP client (`provider.go`, `httpclient.go`) -/

/-- Struct `provider.ProviderConfig`; `TypeName` is its field `Type`. -/
structure ProviderConfig where
  TypeName : String := ""
  Name : String := ""
  Enabled : Bool := false
  BaseURL : String := ""
  Credentials : GoMap String := ∅
  RateLimitRPS : Int := 0
  TimeoutSeconds : Int := 0
  Timezone : String := ""

/-- Go: `ProviderConfig.GetCredential`: the value stored under `key`, the empty
string when there is none (or no credential map at all). -/
def ProviderConfig.GetCredential (c : ProviderConfig) (key : String) : String :=
  (c.Credentials.lookup key).getD ""

/-- Struct `provider.HTTPClient`, reduced to what `NewHTTPClient` and
`SetHeader` store. -/
structure HTTPClient where
  baseURL : String
  timeoutSec : Int
  rateRPS : Int
  headers : GoMap String

/-- Go: `NewHTTPClient`. -/
def NewHTTPClient (baseURL : String) (timeoutSec rateRPS : Int) : HTTPClient :=
  { baseURL := baseURL
    timeoutSec := if timeoutSec ≤ 0 then 30 else timeoutSec
    rateRPS := if rateRPS ≤ 0 then 5 else rateRPS
    headers := ∅ }

/-- Go: `HTTPClient.SetHeader`. -/
def HTTPClient.SetHeader (c : HTTPClient) (key value : String) : HTTPClient :=
  { c with headers := c.headers.insert key value }

/-! ## Adapter initialization

`Initialize` takes the provider before the call and returns the provider
after it together with the error.  What the vendor's login endpoint answered
(the error of the HTTP call and the decoded response) is an argument. -/

namespace SMA

/-- Go: `const defaultBaseURL`. -/
def defaultBaseURL : String := "https://monitoring.smaapis.de/monitoring/v1"

/-- Struct `SMAProvider`. -/
structure SMAProvider where
  client : Option HTTPClient := none
  config : ProviderConfig := {}
  token : String := ""

/-- Go: `SMAProvider.Initialize`. -/
def Initialize (p : SMAProvider) (cfg : ProviderConfig) : SMAProvider × Option GoError :=
  let baseURL := if cfg.BaseURL = "" then defaultBaseURL else cfg.BaseURL
  let rps := if cfg.RateLimitRPS ≤ 0 then 5 else cfg.RateLimitRPS
  let client := NewHTTPClient baseURL cfg.TimeoutSeconds rps
  let token := cfg.GetCredential "bearerToken"
  let p : SMAProvider := { p with config := cfg, client := some client, token := token }
  if token = "" then
    (p, some { msg := "SMA provider requires 'bearerToken' credential" })
  else
    ({ p with client := some (client.SetHeader "Authorization" ("Bearer " ++ token)) }, none)

/-- Go: `SMAProvider.Healthy`. -/
def Healthy (p : SMAProvider) : Bool :=
  decide (p.token ≠ "")

end SMA

namespace Huawei

/-- Go: `const defaultBaseURL`. -/
def defaultBaseURL : String := "https://eu5.fusionsolar.huawei.com/thirdData"

/-- Struct `HuaweiProvider`. -/
structure HuaweiProvider where
  client : Option HTTPClient := none
  config : ProviderConfig := {}
  xsrfToken : String := ""

/-- Go: `HuaweiProvider.authenticate`, given what the `/login` request did. -/
def authenticate (p : HuaweiProvider) (httpErr : Option GoError) (resp : huaweiBaseResponse) :
    HuaweiProvider × Option GoError :=
  match httpErr with
  | some err => (p, some { msg := "Huawei auth: " ++ err.msg })
  | none =>
    if !resp.Success then
      (p, some { msg := "Huawei auth failed: failCode=" ++ itoa resp.FailCode ++ " message="
                    ++ resp.Message })
    else ({ p with xsrfToken := "authenticated" }, none)

/-- Go: `HuaweiProvider.Initialize`. -/
def Initialize (p : HuaweiProvider) (cfg : ProviderConfig) (httpErr : Option GoError)
    (resp : huaweiBaseResponse) : HuaweiProvider × Option GoError :=
  let baseURL := if cfg.BaseURL = "" then defaultBaseURL else cfg.BaseURL
  let rps := if cfg.RateLimitRPS ≤ 0 then 5 else cfg.RateLimitRPS
  let client := (NewHTTPClient baseURL cfg.TimeoutSeconds rps).SetHeader "Content-Type"
    "application/json"
  authenticate { p with config := cfg, client := some client } httpErr resp

/-- Go: `HuaweiProvider.Healthy`. -/
def Healthy (p : HuaweiProvider) : Bool :=
  decide (p.xsrfToken ≠ "")

end Huawei

namespace SAJ

/-- Go: `const defaultBaseURL`. -/
def defaultBaseURL : String := "https://intl-developer.saj-electric.com/prod-api"

/-- Struct `SAJProvider`; `tokenExp` is a time in seconds. -/
structure SAJProvider where
  client : Option HTTPClient := none
  config : ProviderConfig := {}
  appID : String := ""
  token : String := ""
  tokenExp : Int := 0

/-- Struct `sajTokenResponse`; the last two fields are those of its `Data`. -/
structure sajTokenResponse where
  Code : Int := 0
  Msg : String := ""
  AccessToken : String := ""
  Expires : Int := 0
  deriving DecidableEq, Repr

/-- Go: `SAJProvider.authenticate`, given what the token request did and the
time `now` (in seconds) of the call. -/
def authenticate (p : SAJProvider) (now : Int) (httpErr : Option GoError)
    (resp : sajTokenResponse) : SAJProvider × Option GoError :=
  match httpErr with
  | some err => (p, some { msg := "SAJ auth: " ++ err.msg })
  | none =>
    if resp.Code ≠ 200 then
      (p, some { msg := "SAJ auth failed: code=" ++ itoa resp.Code ++ " msg=" ++ resp.Msg })
    else
      ({ p with
          token := resp.AccessToken
          tokenExp := now + resp.Expires
          client := p.client.map fun c => c.SetHeader "accessToken" resp.AccessToken },
        none)

/-- Go: `SAJProvider.Initialize`. -/
def Initialize (p : SAJProvider) (cfg : ProviderConfig) (now : Int) (httpErr : Option GoError)
    (resp : sajTokenResponse) : SAJProvider × Option GoError :=
  let baseURL := if cfg.BaseURL = "" then defaultBaseURL else cfg.BaseURL
  let rps := if cfg.RateLimitRPS ≤ 0 then 5 else cfg.RateLimitRPS
  let client := (NewHTTPClient baseURL cfg.TimeoutSeconds rps).SetHeader "content-language" "en_US"
  authenticate
    { p with config := cfg, client := some client, appID := cfg.GetCredential "appId" }
    now httpErr resp

/-- Go: `SAJProvider.Healthy` at the time `now`. -/
def Healthy (p : SAJProvider) (now : Int) : Bool :=
  decide (p.token ≠ "") && decide (now < p.tokenExp)

end SAJ

namespace Sungrow

/-- Go: `const defaultBaseURL`. -/
def defaultBaseURL : String := "https://gateway.isolarcloud.com"

/-- Struct `SungrowProvider`. -/
structure SungrowProvider where
  client : Option HTTPClient := none
  config : ProviderConfig := {}
  appKey : String := ""
  token : String := ""
  userID : String := ""

/-- Struct `sungrowLoginResponse`; `Token` and `UserID` are the fields of its
`ResultData`. -/
structure sungrowLoginResponse extends sungrowBaseResponse where
  Token : String := ""
  UserID : String := ""
  deriving DecidableEq, Repr

/-- Go: `SungrowProvider.authenticate`, given what the login request did. -/
def authenticate (p : SungrowProvider) (httpErr : Option GoError)
    (resp : sungrowLoginResponse) : SungrowProvider × Option GoError :=
  match httpErr with
  | some err => (p, some { msg := "Sungrow auth: " ++ err.msg })
  | none =>
    if resp.ResultCode ≠ "1" then
      (p, some { msg := "Sungrow auth failed: code=" ++ resp.ResultCode ++ " msg="
                    ++ resp.ResultMsg })
    else
      ({ p with
          token := resp.Token
          userID := resp.UserID
          client := p.client.map fun c => c.SetHeader "token" resp.Token },
        none)

/-- Go: `SungrowProvider.Initialize`. -/
def Initialize (p : SungrowProvider) (cfg : ProviderConfig) (httpErr : Option GoError)
    (resp : sungrowLoginResponse) : SungrowProvider × Option GoError :=
  let baseURL := if cfg.BaseURL = "" then defaultBaseURL else cfg.BaseURL
  let rps := if cfg.RateLimitRPS ≤ 0 then 10 else cfg.RateLimitRPS
  let client := (NewHTTPClient baseURL cfg.TimeoutSeconds rps).SetHeader "Content-Type"
    "application/json"
  authenticate
    { p with config := cfg, client := some client, appKey := cfg.GetCredential "appKey" }
    httpErr resp

/-- Go: `SungrowProvider.Healthy`. -/
def Healthy (p : SungrowProvider) : Bool :=
  decide (p.token ≠ "")

end Sungrow

/-! ## Huawei plant list (`HuaweiProvider.GetPlants`) -/

/-- The value of a Go `int` expression whose exact result is `x`, for an
`int` of 64 bits: results outside `-2^63 ≤ x < 2^63` wrap around. -/
def wrapInt (x : Int) : Int :=
  (x + 2 ^ 63) % 2 ^ 64 - 2 ^ 63

namespace Huawei

/-- Struct `huaweiStationListResponse`; the last three fields are those of
its `Data`, `Stations` being `Data.List`. -/
structure huaweiStationListResponse extends huaweiBaseResponse where
  Total : Int := 0
  PageCount : Int := 0
  Stations : List huaweiStation := []
  deriving DecidableEq, Repr

/-- Go: the loop of `HuaweiProvider.GetPlants` from the page `pageNo` on,
with the plants collected so far and the pages requested so far; `endpoint`
is what the request of each page does.  The loop has no bound of its own:
`fuel` bounds the number of requests, and `none` means the bound was reached
before the loop ended.  `pageNo*20` and `pageNo++` are computed in 64-bit
`int` arithmetic (`wrapInt`). -/
def GetPlantsLoop (endpoint : Int → Option GoError × huaweiStationListResponse) :
    Nat → Int → List NormalizedPlant → List Int →
      Option ((List NormalizedPlant × Option GoError) × List Int)
  | 0, _, _, _ => none
  | fuel + 1, pageNo, allPlants, pages =>
    match (endpoint pageNo).1 with
    | some err => some (([], some { msg := "Huawei GetPlants: " ++ err.msg }), pages ++ [pageNo])
    | none =>
      let resp := (endpoint pageNo).2
      if !resp.Success then
        some (([], some { msg := "Huawei GetPlants failed: " ++ itoa resp.FailCode ++ " "
                            ++ resp.Message }), pages ++ [pageNo])
      else
        let allPlants := resp.Stations.foldl
          (fun plants raw => plants ++ [normalizeHuaweiStation raw]) allPlants
        if wrapInt (pageNo * 20) ≥ resp.Total then some ((allPlants, none), pages ++ [pageNo])
        else GetPlantsLoop endpoint fuel (wrapInt (pageNo + 1)) allPlants (pages ++ [pageNo])

/-- Go: `HuaweiProvider.GetPlants`: the loop from page 1 with no plants; the
second component lists the pages requested. -/
def GetPlants (endpoint : Int → Option GoError × huaweiStationListResponse) (fuel : Nat) :
    Option ((List NormalizedPlant × Option GoError) × List Int) :=
  GetPlantsLoop endpoint fuel 1 [] []

/-- The number of the last page of a station list of `total` stations read
in pages of 20: at least 1. -/
def lastPage (total : Int) : Nat :=
  max 1 ((total + 19) / 20).toNat

/-- The normalized stations of the pages `first`, ..., `first + count - 1`,
in page order. -/
def stationsOfPages (endpoint : Int → Option GoError × huaweiStationListResponse)
    (first count : Nat) : List NormalizedPlant :=
  (List.range' first count).flatMap fun page =>
    (endpoint (page : Int)).2.Stations.map normalizeHuaweiStation

/-- The page numbers `first`, ..., `first + count - 1`. -/
def pageNumbers (first count : Nat) : List Int :=
  (List.range' first count).map fun page => (page : Int)

end Huawei

/-! ## Realtime normalizers (`normalizeSAJRealtime`, `normalizeSungrowRealtime`)

The fields `Timestamp` and `FetchedAt` are left out, as in the data model. -/

/-- Go: the conversion `int(x)` of a `float64`: the fraction is dropped.
Numbers outside the range of `int` are not modelled. -/
def truncToInt (x : ℚ) : Int :=
  Int.tdiv x.num (x.den : Int)

/-- The extraction helpers find no number under `key`: the key is not in the
map, or its value is null, a bool, or a value of some other type that is
neither a number nor a string. -/
def keyMissing (m : JsonObject) (key : String) : Bool :=
  match jsonGet m key with
  | none => true
  | some (JsonValue.bool _) => true
  | some (JsonValue.other _) => true
  | some _ => false

namespace SAJ

/-- Go: `extractFloatSafe`. -/
def extractFloatSafe (lib : GoLib) (m : JsonObject) (key : String) : ℚ :=
  match jsonGet m key with
  | some (JsonValue.float val) => val
  | some (JsonValue.str val) => lib.parseFloatValue (lib.trimSpace val)
  | some (JsonValue.int val) => (val : ℚ)
  | _ => 0

/-- Go: `extractIntSafe`. -/
def extractIntSafe (lib : GoLib) (m : JsonObject) (key : String) : Int :=
  match jsonGet m key with
  | some (JsonValue.float val) => truncToInt val
  | some (JsonValue.int val) => val
  | some (JsonValue.str val) => lib.atoiValue val
  | _ => 0

/-- Go: `extractIntPtr`. -/
def extractIntPtr (lib : GoLib) (m : JsonObject) (key : String) : Option Int :=
  match jsonGet m key with
  | some (JsonValue.float val) => some (truncToInt val)
  | some (JsonValue.int val) => some val
  | some (JsonValue.str val) => lib.atoi val
  | _ => none

/-- Go: the loop `for i := 1; i <= 16; i++` of `normalizeSAJRealtime`, which
builds `pvStrings`. -/
def realtimePVStrings (lib : GoLib) (raw : JsonObject) : List PVString :=
  (List.range' 1 16).foldl
    (fun pvStrings (i : Nat) =>
      let vKey := "pv" ++ itoa (i : Int) ++ "volt"
      let cKey := "pv" ++ itoa (i : Int) ++ "curr"
      let pKey := "pv" ++ itoa (i : Int) ++ "power"
      let v := extractFloatPtr lib raw vKey
      let c := extractFloatPtr lib raw cKey
      let pw := extractFloatPtr lib raw pKey
      if v.isSome || c.isSome || pw.isSome then
        pvStrings ++ [{ ID := (i : Int), VoltageV := v, CurrentA := c, PowerW := pw }]
      else pvStrings)
    []

/-- Go: the loop over `phaseNames` of `normalizeSAJRealtime`, which builds
`gridPhases`; each vendor phase name comes with `normalizedNames[i]`. -/
def realtimeGridPhases (lib : GoLib) (raw : JsonObject) : List PhaseData :=
  [("r", "A"), ("s", "B"), ("t", "C")].foldl
    (fun gridPhases ph =>
      let v := extractFloatPtr lib raw (ph.1 ++ "GridVolt")
      let c := extractFloatPtr lib raw (ph.1 ++ "GridCurr")
      let pw := extractFloatPtr lib raw (ph.1 ++ "GridPowerWatt")
      let f := extractFloatPtr lib raw (ph.1 ++ "GridFreq")
      if v.isSome || c.isSome || pw.isSome then
        gridPhases ++ [{ Phase := ph.2, VoltageV := v, CurrentA := c, PowerW := pw,
                         FrequencyHz := f }]
      else gridPhases)
    []

/-- Go: `normalizeSAJRealtime`. -/
def normalizeSAJRealtime (lib : GoLib) (raw : JsonObject) : NormalizedRealtime :=
  let dataTime := extractStringSafe lib raw "dataTime"
  let deviceSn := extractStringSafe lib raw "deviceSn"
  let mpvMode := extractIntSafe lib raw "mpvMode"
  let opMode := sajOperatingMode mpvMode
  let isOnline := decide (extractStringSafe lib raw "isOnline" = "1")
  let status := if isOnline then DeviceStatusOnline else DeviceStatusOffline
  let totalPV := extractFloatSafe lib raw "totalPVPower"
  let todayPV := extractFloatPtr lib raw "todayPvEnergy"
  let totalPVEnergy := extractFloatPtr lib raw "totalPvEnergy"
  let pvStrings := realtimePVStrings lib raw
  let batSOC := extractFloatPtr lib raw "batEnergyPercent"
  let batPower := extractFloatSafe lib raw "totalBatteryPower"
  let batDir := sajBatteryDirection (extractIntSafe lib raw "batteryDirection")
  let batTemp := extractFloatPtr lib raw "batTempC"
  let todayChg := extractFloatPtr lib raw "todayBatChgEnergy"
  let todayDis := extractFloatPtr lib raw "todayBatDisEnergy"
  let totalChg := extractFloatPtr lib raw "totalBatChgEnergy"
  let totalDis := extractFloatPtr lib raw "totalBatDisEnergy"
  let gridPower := extractFloatSafe lib raw "totalGridPowerWatt"
  let gridPower := if gridPower = 0 then extractFloatSafe lib raw "sysGridPowerWatt" else gridPower
  let gridDir := sajGridDirection (extractIntSafe lib raw "gridDirection")
  let todayExport := extractFloatPtr lib raw "todaySellEnergy"
  let todayImport := extractFloatPtr lib raw "todayFeedInEnergy"
  let totalExport := extractFloatPtr lib raw "totalSellEnergy"
  let totalImport := extractFloatPtr lib raw "totalFeedInEnergy"
  let gridPhases := realtimeGridPhases lib raw
  let loadPower := extractFloatSafe lib raw "totalLoadPowerWatt"
  let loadPower := if loadPower = 0 then extractFloatSafe lib raw "sysTotalLoadWatt" else loadPower
  let todayLoad := extractFloatPtr lib raw "todayLoadEnergy"
  let totalLoad := extractFloatPtr lib raw "totalTotalLoadEnergy"
  let sinkTemp := extractFloatPtr lib raw "sinkTempC"
  let ambTemp := extractFloatPtr lib raw "ambTempC"
  let invTemp := extractFloatPtr lib raw "invTempC"
  let signal := extractIntPtr lib raw "linkSignal"
  { DeviceID := providerName ++ "_" ++ deviceSn
    Provider := providerName
    OriginalTimestamp := dataTime
    Status := status
    OperatingMode := opMode
    Meta := { Provider := providerName, ProviderDeviceID := deviceSn, RawDataAvailable := true }
    PV := some { TotalPowerW := totalPV, TodayEnergyKWh := todayPV,
                 TotalEnergyKWh := totalPVEnergy, Strings := pvStrings }
    Battery := some { SOCPercent := batSOC, PowerW := batPower, Direction := batDir,
                      TemperatureC := batTemp, TodayChargeKWh := todayChg,
                      TodayDischargeKWh := todayDis, TotalChargeKWh := totalChg,
                      TotalDischargeKWh := totalDis }
    Grid := some { TotalPowerW := gridPower, Direction := gridDir,
                   TodayImportKWh := todayImport, TodayExportKWh := todayExport,
                   TotalImportKWh := totalImport, TotalExportKWh := totalExport,
                   Phases := gridPhases }
    Load := some { TotalPowerW := loadPower, TodayEnergyKWh := todayLoad,
                   TotalEnergyKWh := totalLoad }
    Environment := some { SinkTemperatureC := sinkTemp, AmbientTemperatureC := ambTemp,
                          InverterTemperatureC := invTemp, SignalStrengthDBm := signal } }

end SAJ

namespace Sungrow

/-- Go: `extractFl`. -/
def extractFl (lib : GoLib) (m : JsonObject) (key : String) : ℚ :=
  match jsonGet m key with
  | some (JsonValue.float val) => val
  | some (JsonValue.str val) => lib.parseFloatValue (lib.trimSpace val)
  | _ => 0

/-- Go: `sungrowGridDirection`. -/
def sungrowGridDirection (power : ℚ) : GridDirection :=
  if power > 0 then GridDirectionImporting
  else if power < 0 then GridDirectionExporting
  else GridDirectionIdle

/-- Go: `sungrowBatteryDirection`. -/
def sungrowBatteryDirection (power : ℚ) : EnergyDirection :=
  if power > 0 then DirectionCharging
  else if power < 0 then DirectionDischarging
  else DirectionIdle

/-- Go: the loop `for i := 1; i <= 12; i++` of `normalizeSungrowRealtime`,
which builds `pvStrings`. -/
def realtimePVStrings (lib : GoLib) (data : JsonObject) : List PVString :=
  (List.range' 1 12).foldl
    (fun pvStrings (i : Nat) =>
      let vKey := "mppt_" ++ itoa (i : Int) ++ "_cap_u"
      let cKey := "mppt_" ++ itoa (i : Int) ++ "_cap_i"
      let v := extractFlP lib data vKey
      let c := extractFlP lib data cKey
      if v.isSome || c.isSome then
        let pw : Option ℚ :=
          match v, c with
          | some v, some c => some (v * c)
          | _, _ => none
        pvStrings ++ [{ ID := (i : Int), VoltageV := v, CurrentA := c, PowerW := pw }]
      else pvStrings)
    []

/-- Go: the loop over the three `{v, c, p}` triples of
`normalizeSungrowRealtime`, which builds `phases`. -/
def realtimePhases (lib : GoLib) (data : JsonObject) (freq : Option ℚ) : List PhaseData :=
  [("ua", "ia", "A"), ("ub", "ib", "B"), ("uc", "ic", "C")].foldl
    (fun phases ph =>
      let voltage := extractFlP lib data ph.1
      let current := extractFlP lib data ph.2.1
      if voltage.isSome || current.isSome then
        phases ++ [{ Phase := ph.2.2, VoltageV := voltage, CurrentA := current,
                     FrequencyHz := freq }]
      else phases)
    []

/-- Go: `normalizeSungrowRealtime`. -/
def normalizeSungrowRealtime (lib : GoLib) (data : JsonObject) (deviceID : String) :
    NormalizedRealtime :=
  let totalPVPower := extractFl lib data "total_dc_power"
  let totalPVPower := if totalPVPower = 0 then extractFl lib data "pac" else totalPVPower
  let todayEnergy := extractFlP lib data "e_today"
  let totalEnergy := extractFlP lib data "e_total"
  let pvStrings := realtimePVStrings lib data
  let gridPower := extractFl lib data "meter_power"
  let freq := extractFlP lib data "fac"
  let pf := extractFlP lib data "pf"
  let phases := realtimePhases lib data freq
  let soc := extractFlP lib data "soc"
  let batPower := extractFl lib data "battery_power"
  let loadPower := extractFl lib data "load_power"
  { DeviceID := providerName ++ "_" ++ deviceID
    Provider := providerName
    Status := DeviceStatusOnline
    OperatingMode := OperatingModeGridConnected
    Meta := { Provider := providerName, ProviderDeviceID := deviceID, RawDataAvailable := true }
    PV := some { TotalPowerW := totalPVPower, TodayEnergyKWh := todayEnergy,
                 TotalEnergyKWh := totalEnergy, Strings := pvStrings }
    Grid := some { TotalPowerW := gridPower, Direction := sungrowGridDirection gridPower,
                   FrequencyHz := freq, PowerFactor := pf, Phases := phases }
    Battery := some { SOCPercent := soc, PowerW := batPower,
                      Direction := sungrowBatteryDirection batPower }
    Load := some { TotalPowerW := loadPower } }

end Sungrow

/-! ## Fan-out as interleaved steps

The aggregate queries start one goroutine per branch, each of which makes its
provider call and then sends its result on a channel buffered for all of
them, and run the loop `for i := 0; i < n; i++ { r := <-ch; ... }`.  A run
is a sequence of events: a branch that is still running delivers, or the
loop receives.  The context is handed to the provider calls and read nowhere
else, so it is not part of the state. -/

/-- An event of a fan-out: the running branch at position `k` finishes its
provider call and sends its result; or the loop receives from the channel. -/
inductive FanOutEvent where
  | deliver (k : Nat)
  | receive
  deriving DecidableEq, Repr

/-- Whether the event is a delivery. -/
def FanOutEvent.isDeliver : FanOutEvent → Bool
  | FanOutEvent.deliver _ => true
  | FanOutEvent.receive => false

/-- The state of a fan-out over branches of type `α`: the loop bound `n`,
the branches whose provider call is still in flight, the channel contents,
the loop counter `i`, and the branches whose results the loop has received,
in the order of receipt. -/
structure FanOut (α : Type) where
  n : Nat
  running : List α
  ch : List α
  i : Nat
  received : List α

/-- The state after all goroutines have been started. -/
def FanOut.start {α : Type} (branches : List α) : FanOut α :=
  { n := branches.length, running := branches, ch := [], i := 0, received := [] }

/-- One event.  A delivery needs a running branch at position `k`; the send
never blocks, the channel having room for every branch.  A receipt needs
`i < n` and a value in the channel: on an empty channel `r := <-ch` blocks. -/
def FanOut.step {α : Type} (s : FanOut α) : FanOutEvent → Option (FanOut α)
  | FanOutEvent.deliver k =>
    match s.running.get? k with
    | some x => some { s with running := s.running.eraseIdx k, ch := s.ch ++ [x] }
    | none => none
  | FanOutEvent.receive =>
    if s.i < s.n then
      match s.ch with
      | [] => none
      | x :: rest => some { s with ch := rest, i := s.i + 1, received := s.received ++ [x] }
    else none

/-- A sequence of events, `none` if one of them cannot happen. -/
def FanOut.run {α : Type} : FanOut α → List FanOutEvent → Option (FanOut α)
  | s, [] => some s
  | s, ev :: evs =>
    match s.step ev with
    | some t => t.run evs
    | none => none

/-- The loop has ended: `i < n` is false. -/
def FanOut.returned {α : Type} (s : FanOut α) : Bool :=
  !decide (s.i < s.n)

/-- The run in which the `n` branches deliver in the order they were started
and the loop then receives `n` times. -/
def FanOut.inOrder (n : Nat) : List FanOutEvent :=
  List.replicate n (FanOutEvent.deliver 0) ++ List.replicate n FanOutEvent.receive

/-- Go: `Engine.GetAllPlants` after the events `evs`: the value returned if
the loop has ended, `none` if the call has not returned (or `evs` is no
run). -/
def Engine.GetAllPlantsAfter (e : Engine) (ctx : Context) (evs : List FanOutEvent) :
    Option (List NormalizedPlant × Option GoError) :=
  match (FanOut.start e.providers.entries).run evs with
  | none => none
  | some s =>
    if s.returned then
      let acc := collectPlants (s.received.map (plantsWorker ctx)) [] []
      let allPlants := acc.1
      let errors := acc.2
      if allPlants.length = 0 ∧ errors.length > 0 then
        some ([], some { msg := "all providers failed: " ++ fmtSlice (errors.map GoError.msg) })
      else some (allPlants, none)
    else none

/-- Go: `Engine.GetAllAlarms` after the events `evs`. -/
def Engine.GetAllAlarmsAfter (e : Engine) (ctx : Context) (evs : List FanOutEvent) :
    Option (List NormalizedAlarm × Option GoError) :=
  match (FanOut.start e.providers.entries).run evs with
  | none => none
  | some s =>
    if s.returned then some (collectAlarms (s.received.map (alarmsWorker ctx)) [], none)
    else none

/-- Go: the second half of `Engine.GetAllDevices`, after `GetAllPlants` has
returned `plants` without an error: the fan-out over the plants after the
events `evs`. -/
def Engine.GetAllDevicesAfter (e : Engine) (ctx : Context) (plants : List NormalizedPlant)
    (evs : List FanOutEvent) : Option (List NormalizedDevice × Option GoError) :=
  match (FanOut.start plants).run evs with
  | none => none
  | some s =>
    if s.returned then
      some (collectDevices (s.received.map fun plant => (devicesWorker e ctx plant).result) [],
        none)
    else none

/-! ## Example providers -/

/-- A provider registered as `name` whose every query fails with the error
`unavailable`, and which reports unhealthy. -/
def Provider.failing (name : String) : Provider where
  Name := name
  GetPlants := fun _ => ([], some { msg := "unavailable" })
  GetPlantDetails := fun _ _ => (none, some { msg := "unavailable" })
  GetDevices := fun _ _ => ([], some { msg := "unavailable" })
  GetDeviceDetails := fun _ _ => (none, some { msg := "unavailable" })
  GetRealTimeData := fun _ _ => (none, some { msg := "unavailable" })
  GetEnergyStats := fun _ _ _ => (none, some { msg := "unavailable" })
  GetHistoricalData := fun _ _ _ => (none, some { msg := "unavailable" })
  GetAlarms := fun _ _ => ([], some { msg := "unavailable" })
  GetAllAlarms := fun _ => ([], some { msg := "unavailable" })
  Healthy := fun _ => false
  Close := none

/-- A plant of provider `prov` with vendor-native identifier `pid`. -/
def plantOf (prov pid : String) : NormalizedPlant :=
  { ID := prov ++ "_" ++ pid, Provider := prov,
    Meta := { Provider := prov, ProviderPlantID := pid } }

/-- A provider registered as `name` whose `GetPlants` succeeds with `plants`
and whose other queries fail. -/
def Provider.withPlants (name : String) (plants : List NormalizedPlant) : Provider :=
  { Provider.failing name with GetPlants := fun _ => (plants, none) }

/-- A live context. -/
def ctxLive : Context := { done := false }

/-- Provider `a` succeeds with no plants, provider `b` fails. -/
def engineEmptyAndFailing : Engine :=
  registerAll [Provider.withPlants "a" [], Provider.failing "b"]

/-- Provider `a` succeeds with three plants, provider `b` fails. -/
def engineThreeAndFailing : Engine :=
  registerAll [Provider.withPlants "a" [plantOf "a" "1", plantOf "a" "2", plantOf "a" "3"],
    Provider.failing "b"]

/-- Whether a recorded call is a `GetDevices` call. -/
def Call.isGetDevices (c : Call) : Bool :=
  match c.method with
  | Method.GetDevices _ => true
  | _ => false

/-- The rendering of `%q` on a string of printable characters without a
double quote or a backslash: the string between double quotes. -/
def quoteAscii (s : String) : String :=
  "\"" ++ s ++ "\""

/-- A device of provider `prov` with vendor-native identifier `did`. -/
def deviceOf (prov did : String) : NormalizedDevice :=
  { ID := prov ++ "_" ++ did, Provider := prov,
    Meta := { Provider := prov, ProviderDeviceID := did } }

/-- Provider `sma` with two plants: the devices of plant `1` are `d1` and
`d2`, the device query of every other plant fails. -/
def providerSma : Provider :=
  { Provider.failing "sma" with
    GetPlants := fun _ => ([plantOf "sma" "1", plantOf "sma" "2"], none)
    GetDevices := fun _ plantID =>
      if plantID = "1" then ([deviceOf "sma" "d1", deviceOf "sma" "d2"], none)
      else ([], some { msg := "timeout" })
    Healthy := fun _ => true }

/-- The engine with the single provider `sma`. -/
def engineSma : Engine :=
  registerAll [providerSma]

/-- The engine whose single provider, registered as `a`, returns one plant
whose `Provider` field is `b`. -/
def engineStray : Engine :=
  registerAll [Provider.withPlants "a" [plantOf "b" "1"]]

/-- The `GetDevices` calls a fan-out over `plants` is expected to make: one
for each plant whose `Provider` field names a registered provider, on that
provider, with the plant's vendor-native identifier. -/
def deviceCallsFor (e : Engine) (ctx : Context) (plants : List NormalizedPlant) : List Call :=
  (plants.filter fun plant => (e.providers.lookup plant.Provider).isSome).map fun plant =>
    { provider := plant.Provider, ctx := some ctx,
      method := Method.GetDevices plant.Meta.ProviderPlantID }

/-- The registry after `sma` was registered twice, first with a factory of a
failing provider, then with a factory of `providerSma`, next to `saj`. -/
def registryTwice : Registry :=
  ((NewRegistry.Register "saj" fun _ => Provider.failing "saj").Register "sma"
    fun _ => Provider.failing "sma").Register "sma" fun _ => providerSma

/-- Provider `saj`: its global alarm listing succeeds with one alarm, its
other queries fail, and it reports unhealthy. -/
def providerSaj : Provider :=
  { Provider.failing "saj" with
    GetAllAlarms := fun _ => ([{ ID := "saj_al1", Provider := "saj", Code := "E01" }], none) }

/-- The engine with the providers `sma` and `saj`. -/
def engineSmaSaj : Engine :=
  registerAll [providerSma, providerSaj]

/-- A stand-in for the Go library functions on payloads whose numbers are
JSON numbers and whose texts are JSON strings: a string prints as itself,
nothing parses as a number. -/
def libPlain : GoLib where
  formatFloat := fun _ => ""
  sprintV := fun v =>
    match v with
    | JsonValue.str s => s
    | _ => ""
  parseFloat := fun _ => none
  trimSpace := fun s => s
  parseFloatValue := fun _ => 0
  atoi := fun _ => none
  atoiValue := fun _ => 0

/-- An SMA energy-balance response of one entry: 5000 Wh generated, 8000 Wh
fed into the grid, 4000 Wh consumed, 9000 Wh purchased. -/
def smaEnergyFeedInAboveGeneration : SMA.smaMeasurementSetResponse :=
  { SetType := "EnergyBalance"
    Sets := [{ Time := "2025-01-15T00:00:00Z"
               Values := GoMap.ofList [("PvGeneration", some 5000), ("GridFeedIn", some 8000),
                 ("TotalConsumption", some 4000), ("GridPurchase", some 9000)] }] }

/-- A Huawei device list of two entries, the second with the device-type code
99, which `huaweiDeviceType` does not list. -/
def huaweiDevicesWithUnlistedType : Huawei.huaweiDevListResponse :=
  { Success := true
    Data := [{ DevID := 1001, DevName := "inv-1", DevTypeID := 1, StationCode := "NE=1" },
             { DevID := 1002, DevName := "box-2", DevTypeID := 99, StationCode := "NE=1" }] }

/-- A history request for the device `d1` at the given granularity. -/
def historyRequestAt (g : Granularity) : HistoryRequest :=
  { DeviceID := "d1", StartTime := "2025-01-15 00:00:00", EndTime := "2025-01-16 00:00:00",
    Granularity := g }

/-- A Sungrow history response of one point carrying `pac`, `e_day` and
`meter_power`. -/
def sungrowHistoryPowerAndEnergy : Sungrow.sungrowHistoryResponse :=
  { ResultCode := "1"
    TimeType := "1"
    DataList := [GoMap.ofList [("time_stamp", JsonValue.str "20250115120000"),
      ("pac", JsonValue.float 1500), ("e_day", JsonValue.float 3),
      ("meter_power", JsonValue.float 200)]] }

/-- An SMA measurement response of one entry carrying `PowerActive`. -/
def smaHistoryPower : SMA.smaMeasurementSetResponse :=
  { SetType := "PowerAc"
    Sets := [{ Time := "2025-01-15T12:00:00Z"
               Values := GoMap.ofList [("PowerActive", some 1500)] }] }

/-- A Huawei KPI history response of one entry carrying `inverter_power`. -/
def huaweiHistoryEnergy : Huawei.huaweiKpiHistoryResponse :=
  { Success := true
    Data := [{ StationCode := "NE=1", CollectTime := 1736942400000
               DataItemMap := GoMap.ofList [("inverter_power", JsonValue.float 12)] }] }

/-- A SAJ upload-data response of one point carrying `pvEnergy`. -/
def sajHistoryEnergy : SAJ.sajUploadDataResponse :=
  { Data := [GoMap.ofList [("dataTime", JsonValue.str "2025-01-15 12:00:00"),
      ("pvEnergy", JsonValue.float 7)]] }

/-- Provider `sma` closes cleanly, provider `saj` fails to close. -/
def engineCloseFailing : Engine :=
  registerAll [providerSma, { providerSaj with Close := some { msg := "socket busy" } }]

/-- An SMA log response with one entry of each severity. -/
def smaLogsMixed : SMA.smaLogResponse :=
  { Logs := [{ LogID := "1", Message := "started", Severity := "info", DeviceID := "d1" },
             { LogID := "2", Message := "grid fault", Severity := "alarm", DeviceID := "d1" },
             { LogID := "3", Message := "derating", Severity := "warning", DeviceID := "d1" },
             { LogID := "4", Message := "note", Severity := "debug", DeviceID := "d1" },
             { LogID := "5", Message := "fan", Severity := "error", DeviceID := "d1" }] }

/-- A station list of 25 stations in two pages (shortened to one station
per page); every request succeeds. -/
def huaweiTwoPages : Int → Option GoError × Huawei.huaweiStationListResponse := fun page =>
  (none, { Success := true, Total := 25
           Stations := if page = 1 then [{ StationCode := "S1" }]
                       else if page = 2 then [{ StationCode := "S21" }] else [] })

/-- A station list whose first page holds the only station and whose later
pages cannot be fetched. -/
def huaweiOnePageThenFailure : Int → Option GoError × Huawei.huaweiStationListResponse :=
  fun page =>
    if page = 1 then (none, { Success := true, Total := 1, Stations := [{ StationCode := "S1" }] })
    else (some { msg := "timeout" }, {})

/-- A station list of 45 announced stations whose third page is answered
with `success = false`. -/
def huaweiThirdPageRefused : Int → Option GoError × Huawei.huaweiStationListResponse :=
  fun page =>
    if page = 3 then (none, { Success := false, FailCode := 407, Message := "busy" })
    else (none, { Success := true, Total := 45, Stations := [{ StationCode := "S" }] })

/-- A station list that announces `2^63 - 1` stations on every page. -/
def huaweiTotalMaxInt : Int → Option GoError × Huawei.huaweiStationListResponse := fun _ =>
  (none, { Success := true, Total := 9223372036854775807 })

/-- A configuration without any credential. -/
def configNoCredentials : ProviderConfig :=
  { Name := "plant-a", Enabled := true }

/-- A context that has been cancelled. -/
def ctxCancelled : Context := { done := true }

/-- A SAJ realtime payload with a device serial, a null PV power, a grid
power of an unexpected type and one reported energy. -/
def sajRealtimeSparse : JsonObject :=
  GoMap.ofList [("deviceSn", JsonValue.str "SN1"), ("totalPVPower", JsonValue.null),
    ("totalGridPowerWatt", JsonValue.other 0), ("todayPvEnergy", JsonValue.float 3)]

/-! ## Registration and lookup -/

theorem providers_registerProvider (e : Engine) (p : Provider) :
    (e.RegisterProvider p).providers = e.providers.insert p.Name p := rfl

theorem lookup_foldl_registerProvider (ps : List Provider) (e : Engine) (name : String)
    (h : ∀ q ∈ ps, q.Name ≠ name) :
    (ps.foldl Engine.RegisterProvider e).providers.lookup name = e.providers.lookup name := by
  induction ps generalizing e with
  | nil => rfl
  | cons q qs ih =>
    have hq : q.Name ≠ name := h q (List.mem_cons_self q qs)
    have hqs : ∀ r ∈ qs, r.Name ≠ name := fun r hr => h r (List.mem_cons_of_mem q hr)
    rw [List.foldl_cons, ih _ hqs, providers_registerProvider]
    exact AList.lookup_insert_ne (Ne.symm hq)

/-- C1. After `RegisterProvider(p)`, `GetProvider(p.Name())` returns `(p, true)`;
a later registration under the same name replaces the earlier one; the entry
of every other name is unchanged; and in an engine built from `NewEngine` by
registrations, a name that was never registered yields `(nil, false)`. -/
theorem getProvider_registerProvider (e : Engine) (p : Provider) :
    (e.RegisterProvider p).GetProvider p.Name = (some p, true)
    ∧ (∀ p2 : Provider, p2.Name = p.Name →
        ((e.RegisterProvider p).RegisterProvider p2).GetProvider p.Name = (some p2, true))
    ∧ (∀ name : String, name ≠ p.Name →
        (e.RegisterProvider p).GetProvider name = e.GetProvider name)
    ∧ (∀ (ps : List Provider) (name : String), (∀ q ∈ ps, q.Name ≠ name) →
        (registerAll ps).GetProvider name = (none, false)) := by
  refine ⟨?_, ?_, ?_, ?_⟩
  · simp [Engine.GetProvider, Engine.RegisterProvider]
  · intro p2 h2
    rw [← h2]
    simp [Engine.GetProvider, Engine.RegisterProvider]
  · intro name hne
    simp [Engine.GetProvider, Engine.RegisterProvider, AList.lookup_insert_ne hne]
  · intro ps name hps
    have h := lookup_foldl_registerProvider ps NewEngine name hps
    simp only [registerAll, Engine.GetProvider, h]
    rfl

/-- Registering `sma` on the empty engine: `sma` is found, a second provider
of the same name replaces it, `saj` stays absent. -/
theorem getProvider_registerProvider_witness :
    (NewEngine.RegisterProvider (Provider.failing "sma")).GetProvider "sma"
      = (some (Provider.failing "sma"), true)
    ∧ ((NewEngine.RegisterProvider (Provider.failing "sma")).RegisterProvider
          (Provider.withPlants "sma" [])).GetProvider "sma"
      = (some (Provider.withPlants "sma" []), true)
    ∧ (NewEngine.RegisterProvider (Provider.failing "sma")).GetProvider "saj"
      = NewEngine.GetProvider "saj"
    ∧ (registerAll [Provider.failing "sma"]).GetProvider "saj" = (none, false) :=
  have h := getProvider_registerProvider NewEngine (Provider.failing "sma")
  ⟨h.1, h.2.1 (Provider.withPlants "sma" []) rfl, h.2.2.1 "saj" (by decide),
    h.2.2.2 [Provider.failing "sma"] "saj" (by decide)⟩

/-! ## `GetAllPlants` -/

theorem collectPlants_eq (ctx : Context) (xs : List (Σ _ : String, Provider))
    (allPlants : List NormalizedPlant) (errors : List GoError) :
    collectPlants (xs.map (plantsWorker ctx)) allPlants errors
      = (allPlants ++ plantsOfSuccessful ctx xs,
         errors ++ (plantFailures ctx xs).map GoError.mk) := by
  induction xs generalizing allPlants errors with
  | nil => simp [collectPlants, plantsOfSuccessful, plantFailures]
  | cons x xs ih =>
    cases hx : (x.2.GetPlants ctx).2 with
    | none =>
      simp only [List.map_cons, collectPlants, plantsWorker, hx, ih]
      simp [plantsOfSuccessful, plantFailures, hx]
    | some err =>
      simp only [List.map_cons, collectPlants, plantsWorker, hx, ih]
      simp [plantsOfSuccessful, plantFailures, hx]

theorem plantsOfSuccessful_perm (ctx : Context) {xs ys : List (Σ _ : String, Provider)}
    (h : xs.Perm ys) : (plantsOfSuccessful ctx xs).Perm (plantsOfSuccessful ctx ys) :=
  List.Perm.flatMap_right _ h

theorem plantFailures_perm (ctx : Context) {xs ys : List (Σ _ : String, Provider)}
    (h : xs.Perm ys) : (plantFailures ctx xs).Perm (plantFailures ctx ys) :=
  List.Perm.filterMap _ h

theorem plantsOfSuccessful_of_all_fail (ctx : Context) (xs : List (Σ _ : String, Provider))
    (h : ∀ x ∈ xs, (x.2.GetPlants ctx).2.isSome) : plantsOfSuccessful ctx xs = [] := by
  induction xs with
  | nil => rfl
  | cons x xs ih =>
    have hx := h x (List.mem_cons_self x xs)
    have hxs : ∀ y ∈ xs, (y.2.GetPlants ctx).2.isSome :=
      fun y hy => h y (List.mem_cons_of_mem x hy)
    have ih2 := ih hxs
    simp only [plantsOfSuccessful] at ih2 ⊢
    rw [List.flatMap_cons, ih2]
    cases hg : (x.2.GetPlants ctx).2 with
    | none => simp [hg] at hx
    | some err => simp

theorem plantFailures_of_all_fail (ctx : Context) (xs : List (Σ _ : String, Provider))
    (h : ∀ x ∈ xs, (x.2.GetPlants ctx).2.isSome) :
    List.Forall₂
      (fun (x : Σ _ : String, Provider) (line : String) =>
        ∃ err, (x.2.GetPlants ctx).2 = some err ∧ line = x.1 ++ ": " ++ err.msg)
      xs (plantFailures ctx xs) := by
  induction xs with
  | nil => exact List.Forall₂.nil
  | cons x xs ih =>
    have hx := h x (List.mem_cons_self x xs)
    have hxs : ∀ y ∈ xs, (y.2.GetPlants ctx).2.isSome :=
      fun y hy => h y (List.mem_cons_of_mem x hy)
    cases hg : (x.2.GetPlants ctx).2 with
    | none => simp [hg] at hx
    | some err =>
      have hcons : plantFailures ctx (x :: xs)
          = (x.1 ++ ": " ++ err.msg) :: plantFailures ctx xs := by
        simp [plantFailures, List.filterMap_cons, hg]
      rw [hcons]
      exact List.Forall₂.cons ⟨err, hg, rfl⟩ (ih hxs)

/-- The result of `GetAllPlants` in terms of the arrival order. -/
theorem getAllPlants_result (e : Engine) (sched : Schedule (Σ _ : String, Provider))
    (ctx : Context) :
    (e.GetAllPlants sched ctx).result =
      if (plantsOfSuccessful ctx (sched.order e.providers.entries)).length = 0
          ∧ (plantFailures ctx (sched.order e.providers.entries)).length > 0 then
        ([], some { msg := "all providers failed: "
                      ++ fmtSlice (plantFailures ctx (sched.order e.providers.entries)) })
      else
        (plantsOfSuccessful ctx (sched.order e.providers.entries), none) := by
  simp only [Engine.GetAllPlants, collectPlants_eq, List.nil_append, List.length_map,
    List.map_map]
  have hid : (GoError.msg ∘ GoError.mk) = id := rfl
  rw [hid, List.map_id]

/-- C2. When the engine has at least one provider and `GetPlants` of every
provider returns an error, `GetAllPlants` returns no plants and the error
`all providers failed: [...]` whose bracket holds exactly one line per
provider, each being the provider's registered name, a colon and the text of
that provider's error. -/
theorem getAllPlants_all_fail (e : Engine) (sched : Schedule (Σ _ : String, Provider))
    (ctx : Context) (hN : 1 ≤ e.providers.entries.length)
    (hfail : ∀ x ∈ e.providers.entries, (x.2.GetPlants ctx).2.isSome) :
    ∃ lines : List String,
      (e.GetAllPlants sched ctx).result
        = ([], some { msg := "all providers failed: " ++ fmtSlice lines })
      ∧ lines.length = e.providers.entries.length
      ∧ List.Forall₂
          (fun (x : Σ _ : String, Provider) (line : String) =>
            ∃ err, (x.2.GetPlants ctx).2 = some err ∧ line = x.1 ++ ": " ++ err.msg)
          (sched.order e.providers.entries) lines
      ∧ (sched.order e.providers.entries).Perm e.providers.entries := by
  have hperm := sched.perm e.providers.entries
  have hfail2 : ∀ x ∈ sched.order e.providers.entries, (x.2.GetPlants ctx).2.isSome :=
    fun x hx => hfail x (hperm.mem_iff.mp hx)
  have hall := plantFailures_of_all_fail ctx _ hfail2
  have hlen : (plantFailures ctx (sched.order e.providers.entries)).length
      = e.providers.entries.length := by
    rw [← hall.length_eq, hperm.length_eq]
  refine ⟨plantFailures ctx (sched.order e.providers.entries), ?_, hlen, hall, hperm⟩
  rw [getAllPlants_result, plantsOfSuccessful_of_all_fail ctx _ hfail2, hlen]
  have hpos : e.providers.entries.length > 0 := hN
  simp [hpos]

/-- An engine with the two failing providers `a` and `b`: the error lists
both failures. -/
theorem getAllPlants_all_fail_witness :
    (∃ lines : List String,
      ((registerAll [Provider.failing "a", Provider.failing "b"]).GetAllPlants
          (Schedule.fifo _) ctxLive).result
        = ([], some { msg := "all providers failed: " ++ fmtSlice lines })
      ∧ lines.length = 2)
    ∧ ((registerAll [Provider.failing "a", Provider.failing "b"]).GetAllPlants
          (Schedule.fifo _) ctxLive).result
        = ([], some { msg := "all providers failed: [b: unavailable a: unavailable]" }) :=
  have h := getAllPlants_all_fail (registerAll [Provider.failing "a", Provider.failing "b"])
    (Schedule.fifo _) ctxLive (by decide) (by decide)
  ⟨h.imp fun _ hl => ⟨hl.1, hl.2.1⟩, by decide⟩

/-- C3. Provider `a` succeeds (with an empty plant list) and provider `b`
fails: `GetAllPlants` does not return the nil error with the zero plants of
the successful provider, it returns the error `all providers failed`, naming
only `b`, in whichever order the two results arrive. -/
theorem getAllPlants_empty_success_reported_as_failure :
    (∃ x ∈ engineEmptyAndFailing.providers.entries, (x.2.GetPlants ctxLive).2 = none)
    ∧ (engineEmptyAndFailing.GetAllPlants (Schedule.fifo _) ctxLive).result
        = ([], some { msg := "all providers failed: [b: unavailable]" })
    ∧ (engineEmptyAndFailing.GetAllPlants (Schedule.lifo _) ctxLive).result
        = ([], some { msg := "all providers failed: [b: unavailable]" }) := by
  refine ⟨by decide, by decide, by decide⟩

/-- C4. When `GetPlants` of at least one provider succeeds with a non-empty
list, `GetAllPlants` returns a nil error and a rearrangement of the
concatenated plants of exactly the providers whose call succeeded. -/
theorem getAllPlants_some_data (e : Engine) (sched : Schedule (Σ _ : String, Provider))
    (ctx : Context)
    (h : ∃ x ∈ e.providers.entries, (x.2.GetPlants ctx).2 = none ∧ (x.2.GetPlants ctx).1 ≠ []) :
    (e.GetAllPlants sched ctx).result.2 = none
    ∧ (e.GetAllPlants sched ctx).result.1.Perm (plantsOfSuccessful ctx e.providers.entries) := by
  obtain ⟨x, hx, hok, hne⟩ := h
  have hperm := plantsOfSuccessful_perm ctx (sched.perm e.providers.entries)
  obtain ⟨a, as, has⟩ := List.exists_cons_of_ne_nil hne
  have hmem : a ∈ plantsOfSuccessful ctx e.providers.entries := by
    simp only [plantsOfSuccessful, List.mem_flatMap]
    exact ⟨x, hx, by simp [hok, has]⟩
  have hmem2 := hperm.mem_iff.mpr hmem
  have hlen : (plantsOfSuccessful ctx (sched.order e.providers.entries)).length ≠ 0 := by
    intro h0
    rw [List.length_eq_zero.mp h0] at hmem2
    exact List.not_mem_nil a hmem2
  rw [getAllPlants_result]
  rw [if_neg (fun hc => hlen hc.1)]
  exact ⟨rfl, hperm⟩

/-- Provider `a` returns three plants and provider `b` an error: the result is
exactly the three plants of `a` and a nil error. -/
theorem getAllPlants_some_data_witness :
    ((engineThreeAndFailing.GetAllPlants (Schedule.lifo _) ctxLive).result.2 = none
      ∧ (engineThreeAndFailing.GetAllPlants (Schedule.lifo _) ctxLive).result.1.Perm
          (plantsOfSuccessful ctxLive engineThreeAndFailing.providers.entries))
    ∧ (engineThreeAndFailing.GetAllPlants (Schedule.lifo _) ctxLive).result
        = ([plantOf "a" "1", plantOf "a" "2", plantOf "a" "3"], none) :=
  ⟨getAllPlants_some_data engineThreeAndFailing (Schedule.lifo _) ctxLive (by decide),
    by decide⟩

/-! ## `GetAllAlarms` -/

theorem collectAlarms_eq (ctx : Context) (xs : List (Σ _ : String, Provider))
    (allAlarms : List NormalizedAlarm) :
    collectAlarms (xs.map (alarmsWorker ctx)) allAlarms
      = allAlarms ++ alarmsOfSuccessful ctx xs := by
  induction xs generalizing allAlarms with
  | nil => simp [collectAlarms, alarmsOfSuccessful]
  | cons x xs ih =>
    cases hx : (x.2.GetAllAlarms ctx).2 with
    | none =>
      simp only [List.map_cons, collectAlarms, alarmsWorker, hx, ih]
      simp [alarmsOfSuccessful, hx]
    | some err =>
      simp only [List.map_cons, collectAlarms, alarmsWorker, hx, ih]
      simp [alarmsOfSuccessful, hx]

/-- C5. Whatever the providers return (all failing and no provider at all
included), `GetAllAlarms` returns a nil error and a rearrangement of the
concatenated alarm lists of exactly the providers whose `GetAllAlarms`
returned a nil error; it calls `GetAllAlarms` once on every provider. -/
theorem getAllAlarms_best_effort (e : Engine) (sched : Schedule (Σ _ : String, Provider))
    (ctx : Context) :
    (e.GetAllAlarms sched ctx).result.2 = none
    ∧ (e.GetAllAlarms sched ctx).result.1.Perm (alarmsOfSuccessful ctx e.providers.entries)
    ∧ (e.GetAllAlarms sched ctx).calls.Perm
        (e.providers.entries.map fun x =>
          { provider := x.1, ctx := some ctx, method := Method.GetAllAlarms }) := by
  refine ⟨rfl, ?_, ?_⟩
  · simp only [Engine.GetAllAlarms, collectAlarms_eq, List.nil_append]
    exact List.Perm.flatMap_right _ (sched.perm e.providers.entries)
  · exact List.Perm.map _ (sched.perm e.providers.entries)

/-- With `sma` failing its alarm listing and `saj` returning one alarm, the
merged list is that one alarm and the error is nil. -/
theorem getAllAlarms_best_effort_witness :
    (engineSmaSaj.GetAllAlarms (Schedule.lifo _) ctxLive).result.2 = none
    ∧ (engineSmaSaj.GetAllAlarms (Schedule.lifo _) ctxLive).result.1.Perm
        (alarmsOfSuccessful ctxLive engineSmaSaj.providers.entries)
    ∧ (engineSmaSaj.GetAllAlarms (Schedule.lifo _) ctxLive).result
        = ([{ ID := "saj_al1", Provider := "saj", Code := "E01" }], none)
    ∧ (NewEngine.GetAllAlarms (Schedule.fifo _) ctxLive).result = ([], none) :=
  have h := getAllAlarms_best_effort engineSmaSaj (Schedule.lifo _) ctxLive
  ⟨h.1, h.2.1, by decide, by decide⟩

/-! ## `HealthCheck` -/

theorem lookup_foldl_status_of_not_mem (ctx : Context) (xs : List (Σ _ : String, Provider))
    (status : GoMap Bool) (name : String) (h : ∀ x ∈ xs, x.1 ≠ name) :
    (xs.foldl (fun status x => status.insert x.1 (x.2.Healthy ctx)) status).lookup name
      = status.lookup name := by
  induction xs generalizing status with
  | nil => rfl
  | cons x xs ih =>
    have hx : x.1 ≠ name := h x (List.mem_cons_self x xs)
    have hxs : ∀ y ∈ xs, y.1 ≠ name := fun y hy => h y (List.mem_cons_of_mem x hy)
    rw [List.foldl_cons, ih _ hxs]
    exact AList.lookup_insert_ne (Ne.symm hx)

theorem lookup_foldl_status_of_mem (ctx : Context) (xs : List (Σ _ : String, Provider))
    (status : GoMap Bool) (name : String) (p : Provider) (hnd : xs.NodupKeys)
    (hmem : (⟨name, p⟩ : Σ _ : String, Provider) ∈ xs) :
    (xs.foldl (fun status x => status.insert x.1 (x.2.Healthy ctx)) status).lookup name
      = some (p.Healthy ctx) := by
  induction xs generalizing status with
  | nil => exact absurd hmem (List.not_mem_nil _)
  | cons x xs ih =>
    rw [List.foldl_cons]
    rcases List.mem_cons.mp hmem with heq | htail
    · subst heq
      have hnot : ∀ y ∈ xs, y.1 ≠ name := by
        intro y hy hyn
        have hk := List.not_mem_keys_of_nodupKeys_cons hnd
        have hyk : y.1 ∈ xs.keys := List.mem_keys_of_mem hy
        rw [hyn] at hyk
        exact hk hyk
      rw [lookup_foldl_status_of_not_mem ctx xs _ name hnot]
      exact AList.lookup_insert _
    · exact ih _ (List.nodupKeys_of_nodupKeys_cons hnd) htail

/-- The status stored by `HealthCheck` under each name. -/
theorem healthCheck_lookup (e : Engine) (sched : Schedule (Σ _ : String, Provider))
    (ctx : Context) (name : String) :
    (e.HealthCheck sched ctx).result.lookup name
      = (e.providers.lookup name).map fun p => p.Healthy ctx := by
  have hperm := sched.perm e.providers.entries
  have hnd : (sched.order e.providers.entries).NodupKeys :=
    (List.perm_nodupKeys hperm).mpr e.providers.nodupKeys
  cases hl : e.providers.lookup name with
  | none =>
    have hnot : ∀ x ∈ sched.order e.providers.entries, x.1 ≠ name := by
      intro x hx hxn
      have hk : name ∉ e.providers.keys := AList.lookup_eq_none.mp hl
      have hxk : x.1 ∈ e.providers.entries.keys := List.mem_keys_of_mem (hperm.mem_iff.mp hx)
      rw [hxn] at hxk
      exact hk hxk
    simp only [Engine.HealthCheck, Option.map_none']
    rw [lookup_foldl_status_of_not_mem ctx _ _ name hnot]
    rfl
  | some p =>
    have hmem : (⟨name, p⟩ : Σ _ : String, Provider) ∈ sched.order e.providers.entries :=
      hperm.mem_iff.mpr (AList.mem_lookup_iff.mp hl)
    simp only [Engine.HealthCheck, Option.map_some']
    exact lookup_foldl_status_of_mem ctx _ _ name p hnd hmem

/-- C6. The map returned by `HealthCheck` has exactly the registered provider
names as keys, each once, and under each name the value its provider's
`Healthy` call returned; `Healthy` is called once on every provider. -/
theorem healthCheck_exact (e : Engine) (sched : Schedule (Σ _ : String, Provider))
    (ctx : Context) :
    (e.HealthCheck sched ctx).result.keys.Perm e.providers.keys
    ∧ (∀ name : String, (e.HealthCheck sched ctx).result.lookup name
        = (e.providers.lookup name).map fun p => p.Healthy ctx)
    ∧ (e.HealthCheck sched ctx).calls.Perm
        (e.providers.entries.map fun x =>
          { provider := x.1, ctx := some ctx, method := Method.Healthy }) := by
  refine ⟨?_, healthCheck_lookup e sched ctx, List.Perm.map _ (sched.perm e.providers.entries)⟩
  refine (List.perm_ext_iff_of_nodup (AList.keys_nodup _) (AList.keys_nodup _)).mpr ?_
  intro name
  rw [← AList.mem_keys, ← AList.mem_keys, ← AList.lookup_isSome, ← AList.lookup_isSome,
    healthCheck_lookup]
  cases e.providers.lookup name <;> simp

/-- With `sma` healthy and `saj` unhealthy, the map holds `true` under `sma`,
`false` under `saj`, and nothing under `huawei`. -/
theorem healthCheck_exact_witness :
    (engineSmaSaj.HealthCheck (Schedule.fifo _) ctxLive).result.keys.Perm
        engineSmaSaj.providers.keys
    ∧ (engineSmaSaj.HealthCheck (Schedule.fifo _) ctxLive).result.lookup "sma" = some true
    ∧ (engineSmaSaj.HealthCheck (Schedule.fifo _) ctxLive).result.lookup "saj" = some false
    ∧ (engineSmaSaj.HealthCheck (Schedule.fifo _) ctxLive).result.lookup "huawei" = none :=
  have h := healthCheck_exact engineSmaSaj (Schedule.fifo _) ctxLive
  ⟨h.1, h.2.1 "sma", h.2.1 "saj", h.2.1 "huawei"⟩

/-! ## Routing queries -/

/-- C7. For a provider name without an entry in the engine, each of the six
routing queries returns a nil (empty) result and the error
`provider <quoted name> not registered`, and makes no provider call. -/
theorem routing_unregistered (e : Engine) (quote : String → String) (ctx : Context)
    (providerName : String) (h : e.providers.lookup providerName = none) :
    errNotRegistered quote providerName
      = { msg := "provider " ++ quote providerName ++ " not registered" }
    ∧ (∀ deviceID, e.GetRealTimeData quote ctx providerName deviceID
        = { result := (none, some (errNotRegistered quote providerName)), calls := [] })
    ∧ (∀ plantID, e.GetPlantDetails quote ctx providerName plantID
        = { result := (none, some (errNotRegistered quote providerName)), calls := [] })
    ∧ (∀ plantID, e.GetDevices quote ctx providerName plantID
        = { result := ([], some (errNotRegistered quote providerName)), calls := [] })
    ∧ (∀ plantID period date, e.GetEnergyStats quote ctx providerName plantID period date
        = { result := (none, some (errNotRegistered quote providerName)), calls := [] })
    ∧ (∀ req, e.GetHistoricalData quote ctx providerName req
        = { result := (none, some (errNotRegistered quote providerName)), calls := [] })
    ∧ (∀ deviceID, e.GetDeviceAlarms quote ctx providerName deviceID
        = { result := ([], some (errNotRegistered quote providerName)), calls := [] }) := by
  refine ⟨rfl, ?_, ?_, ?_, ?_, ?_, ?_⟩
  · intro deviceID
    simp [Engine.GetRealTimeData, Engine.GetProvider, h]
  · intro plantID
    simp [Engine.GetPlantDetails, Engine.GetProvider, h]
  · intro plantID
    simp [Engine.GetDevices, Engine.GetProvider, h]
  · intro plantID period date
    simp [Engine.GetEnergyStats, Engine.GetProvider, h]
  · intro req
    simp [Engine.GetHistoricalData, Engine.GetProvider, h]
  · intro deviceID
    simp [Engine.GetDeviceAlarms, Engine.GetProvider, h]

/-- In the engine holding only `sma`, the routing queries for `saj` fail with
`provider "saj" not registered` and call nothing. -/
theorem routing_unregistered_witness :
    errNotRegistered quoteAscii "saj" = { msg := "provider \"saj\" not registered" }
    ∧ engineSma.GetRealTimeData quoteAscii ctxLive "saj" "d1"
        = { result := (none, some (errNotRegistered quoteAscii "saj")), calls := [] }
    ∧ engineSma.GetDevices quoteAscii ctxLive "saj" "1"
        = { result := ([], some (errNotRegistered quoteAscii "saj")), calls := [] }
    ∧ engineSma.GetDeviceAlarms quoteAscii ctxLive "saj" "d1"
        = { result := ([], some (errNotRegistered quoteAscii "saj")), calls := [] } :=
  have h := routing_unregistered engineSma quoteAscii ctxLive "saj" rfl
  ⟨by decide, h.2.1 "d1", h.2.2.2.1 "1", h.2.2.2.2.2.2 "d1"⟩

/-- C8. For a provider name registered with provider `p`, each of the six
routing queries returns exactly what the one corresponding method of `p`
returns on the caller's arguments, error included, and makes that one call
and no other. -/
theorem routing_registered (e : Engine) (quote : String → String) (ctx : Context)
    (providerName : String) (p : Provider) (h : e.providers.lookup providerName = some p) :
    (∀ deviceID, e.GetRealTimeData quote ctx providerName deviceID
        = { result := p.GetRealTimeData ctx deviceID
            calls := [{ provider := providerName, ctx := some ctx,
                        method := Method.GetRealTimeData deviceID }] })
    ∧ (∀ plantID, e.GetPlantDetails quote ctx providerName plantID
        = { result := p.GetPlantDetails ctx plantID
            calls := [{ provider := providerName, ctx := some ctx,
                        method := Method.GetPlantDetails plantID }] })
    ∧ (∀ plantID, e.GetDevices quote ctx providerName plantID
        = { result := p.GetDevices ctx plantID
            calls := [{ provider := providerName, ctx := some ctx,
                        method := Method.GetDevices plantID }] })
    ∧ (∀ plantID period date, e.GetEnergyStats quote ctx providerName plantID period date
        = { result := p.GetEnergyStats ctx plantID period
            calls := [{ provider := providerName, ctx := some ctx,
                        method := Method.GetEnergyStats plantID period }] })
    ∧ (∀ req : HistoryRequest, e.GetHistoricalData quote ctx providerName req
        = { result := p.GetHistoricalData ctx req.DeviceID req
            calls := [{ provider := providerName, ctx := some ctx,
                        method := Method.GetHistoricalData req.DeviceID req }] })
    ∧ (∀ deviceID, e.GetDeviceAlarms quote ctx providerName deviceID
        = { result := p.GetAlarms ctx deviceID
            calls := [{ provider := providerName, ctx := some ctx,
                        method := Method.GetAlarms deviceID }] }) := by
  refine ⟨?_, ?_, ?_, ?_, ?_, ?_⟩
  · intro deviceID
    simp [Engine.GetRealTimeData, Engine.GetProvider, h]
  · intro plantID
    simp [Engine.GetPlantDetails, Engine.GetProvider, h]
  · intro plantID
    simp [Engine.GetDevices, Engine.GetProvider, h]
  · intro plantID period date
    simp [Engine.GetEnergyStats, Engine.GetProvider, h]
  · intro req
    simp [Engine.GetHistoricalData, Engine.GetProvider, h]
  · intro deviceID
    simp [Engine.GetDeviceAlarms, Engine.GetProvider, h]

/-- In the engine holding `sma`, `GetDevices` for plant `1` returns the two
devices of the provider, and for plant `2` the provider's own error, each
with the single call. -/
theorem routing_registered_witness :
    engineSma.GetDevices quoteAscii ctxLive "sma" "1"
        = { result := ([deviceOf "sma" "d1", deviceOf "sma" "d2"], none)
            calls := [{ provider := "sma", ctx := some ctxLive,
                        method := Method.GetDevices "1" }] }
    ∧ engineSma.GetDevices quoteAscii ctxLive "sma" "2"
        = { result := ([], some { msg := "timeout" })
            calls := [{ provider := "sma", ctx := some ctxLive,
                        method := Method.GetDevices "2" }] }
    ∧ engineSma.GetDeviceAlarms quoteAscii ctxLive "sma" "d1"
        = { result := ([], some { msg := "unavailable" })
            calls := [{ provider := "sma", ctx := some ctxLive,
                        method := Method.GetAlarms "d1" }] } :=
  have h := routing_registered engineSma quoteAscii ctxLive "sma" providerSma rfl
  ⟨h.2.2.1 "1", h.2.2.1 "2", h.2.2.2.2.2 "d1"⟩

/-! ## `GetAllDevices` -/

theorem collectDevices_eq (e : Engine) (ctx : Context) (plants : List NormalizedPlant)
    (allDevices : List NormalizedDevice) :
    collectDevices ((plants.map (devicesWorker e ctx)).map Traced.result) allDevices
      = allDevices ++ devicesOfSuccessful e ctx plants := by
  induction plants generalizing allDevices with
  | nil => simp [collectDevices, devicesOfSuccessful]
  | cons plant plants ih =>
    have hcons : devicesOfSuccessful e ctx (plant :: plants)
        = devicesOfSuccessful e ctx [plant] ++ devicesOfSuccessful e ctx plants := by
      simp [devicesOfSuccessful]
    rw [hcons]
    cases hl : e.providers.lookup plant.Provider with
    | none =>
      simp only [List.map_cons, collectDevices, devicesWorker, hl, ih]
      simp [devicesOfSuccessful, hl]
    | some p =>
      cases hg : (p.GetDevices ctx plant.Meta.ProviderPlantID).2 with
      | none =>
        simp only [List.map_cons, collectDevices, devicesWorker, hl, hg, ih]
        simp [devicesOfSuccessful, hl, hg]
      | some err =>
        simp only [List.map_cons, collectDevices, devicesWorker, hl, hg, ih]
        simp [devicesOfSuccessful, hl, hg]

theorem devicesWorker_calls (e : Engine) (ctx : Context) (plants : List NormalizedPlant) :
    (plants.map (devicesWorker e ctx)).flatMap Traced.calls = deviceCallsFor e ctx plants := by
  induction plants with
  | nil => rfl
  | cons plant plants ih =>
    rw [List.map_cons, List.flatMap_cons, ih]
    cases hl : e.providers.lookup plant.Provider with
    | none => simp [devicesWorker, deviceCallsFor, hl]
    | some p => simp [devicesWorker, deviceCallsFor, hl]

theorem filter_isGetDevices_getPlants_calls (ctx : Context)
    (xs : List (Σ _ : String, Provider)) :
    (xs.map fun x =>
        ({ provider := x.1, ctx := some ctx, method := Method.GetPlants } : Call)).filter
      Call.isGetDevices = [] := by
  induction xs with
  | nil => rfl
  | cons x xs ih => simpa [Call.isGetDevices] using ih

theorem filter_isGetDevices_deviceCallsFor (e : Engine) (ctx : Context)
    (plants : List NormalizedPlant) :
    (deviceCallsFor e ctx plants).filter Call.isGetDevices = deviceCallsFor e ctx plants := by
  rw [List.filter_eq_self]
  intro c hc
  simp only [deviceCallsFor, List.mem_map] at hc
  obtain ⟨plant, _, rfl⟩ := hc
  rfl

theorem deviceCallsFor_perm (e : Engine) (ctx : Context) {ps qs : List NormalizedPlant}
    (h : ps.Perm qs) : (deviceCallsFor e ctx ps).Perm (deviceCallsFor e ctx qs) :=
  List.Perm.map _ (List.Perm.filter _ h)

/-- C9 fails as stated: the provider registered as `a` returns one plant whose
`Provider` field is `b`; `GetAllPlants` succeeds with that one plant, and
`GetAllDevices` makes no `GetDevices` call at all, not one per plant. -/
theorem getAllDevices_no_call_for_stray_plant :
    (engineStray.GetAllPlants (Schedule.fifo _) ctxLive).result = ([plantOf "b" "1"], none)
    ∧ ((engineStray.GetAllDevices (Schedule.fifo _) (Schedule.fifo _) ctxLive).calls.filter
        Call.isGetDevices).length ≠ [plantOf "b" "1"].length := by
  refine ⟨by decide, by decide⟩

/-- C9, amended. When `GetAllPlants` succeeds with the plant list `P`,
`GetAllDevices` returns a nil error and a rearrangement of the concatenation,
over the plants of `P` whose `Provider` field names a registered provider and
whose `GetDevices(plant.Meta.ProviderPlantID)` call on that provider
succeeded, of the devices of that call; the `GetDevices` calls made are one
per plant of `P` whose `Provider` field names a registered provider, and
none for any other plant. -/
theorem getAllDevices_per_plant (e : Engine) (sched : Schedule (Σ _ : String, Provider))
    (schedD : Schedule NormalizedPlant) (ctx : Context) (P : List NormalizedPlant)
    (hP : (e.GetAllPlants sched ctx).result = (P, none)) :
    (e.GetAllDevices sched schedD ctx).result.2 = none
    ∧ (e.GetAllDevices sched schedD ctx).result.1.Perm (devicesOfSuccessful e ctx P)
    ∧ ((e.GetAllDevices sched schedD ctx).calls.filter Call.isGetDevices).Perm
        (deviceCallsFor e ctx P) := by
  have h1 : (e.GetAllPlants sched ctx).result.1 = P := by rw [hP]
  have h2 : (e.GetAllPlants sched ctx).result.2 = none := by rw [hP]
  have hcalls : (e.GetAllPlants sched ctx).calls
      = (sched.order e.providers.entries).map fun x =>
          ({ provider := x.1, ctx := some ctx, method := Method.GetPlants } : Call) := rfl
  simp only [Engine.GetAllDevices, h1, h2, collectDevices_eq, List.nil_append,
    devicesWorker_calls, List.filter_append, hcalls, filter_isGetDevices_getPlants_calls,
    filter_isGetDevices_deviceCallsFor]
  refine ⟨trivial, ?_, deviceCallsFor_perm e ctx (schedD.perm P)⟩
  exact List.Perm.flatMap_right _ (schedD.perm P)

/-- Provider `sma` has plants `1` and `2`; the device query succeeds for plant
`1` with two devices and fails for plant `2`: the result is the two devices
and a nil error, after one `GetDevices` call per plant. -/
theorem getAllDevices_per_plant_witness :
    ((engineSma.GetAllDevices (Schedule.fifo _) (Schedule.lifo _) ctxLive).result.2 = none
      ∧ (engineSma.GetAllDevices (Schedule.fifo _) (Schedule.lifo _) ctxLive).result.1.Perm
          (devicesOfSuccessful engineSma ctxLive [plantOf "sma" "1", plantOf "sma" "2"])
      ∧ ((engineSma.GetAllDevices (Schedule.fifo _) (Schedule.lifo _) ctxLive).calls.filter
          Call.isGetDevices).Perm
          (deviceCallsFor engineSma ctxLive [plantOf "sma" "1", plantOf "sma" "2"]))
    ∧ (engineSma.GetAllDevices (Schedule.fifo _) (Schedule.lifo _) ctxLive).result
        = ([deviceOf "sma" "d1", deviceOf "sma" "d2"], none)
    ∧ (engineSma.GetAllDevices (Schedule.fifo _) (Schedule.lifo _) ctxLive).calls
        = [{ provider := "sma", ctx := some ctxLive, method := Method.GetPlants },
           { provider := "sma", ctx := some ctxLive, method := Method.GetDevices "2" },
           { provider := "sma", ctx := some ctxLive, method := Method.GetDevices "1" }] :=
  ⟨getAllDevices_per_plant engineSma (Schedule.fifo _) (Schedule.lifo _) ctxLive
      [plantOf "sma" "1", plantOf "sma" "2"] (by decide),
    by decide, by decide⟩

/-! ## Provider registry -/

theorem foldl_append_names {β : Type} (xs : List (Σ _ : String, β)) (names : List String) :
    xs.foldl (fun names x => names ++ [x.1]) names = names ++ xs.keys := by
  induction xs generalizing names with
  | nil => simp
  | cons x xs ih => simp [List.foldl_cons, ih, List.keys_cons]

theorem listProviders_perm (r : Registry) (sched : Schedule (Σ _ : String, Factory)) :
    (r.ListProviders sched).Perm r.factories.keys := by
  simp only [Registry.ListProviders, foldl_append_names, List.nil_append]
  exact List.Perm.map _ (sched.perm r.factories.entries)

/-- C10. After `Register(n, f1)` and then `Register(n, f2)`, `Create(n)`
returns the provider built by `f2` with a nil error, running the factory
under `n` once; `ListProviders` contains `n` exactly once; and the factory
registered under every other name is the one it was before. -/
theorem register_overwrites (r : Registry) (n : String) (f1 f2 : Factory)
    (quote : String → String) (sched : Schedule (Σ _ : String, Factory)) :
    (((r.Register n f1).Register n f2).Create quote sched n).provider = some (f2 ())
    ∧ (((r.Register n f1).Register n f2).Create quote sched n).err = none
    ∧ (((r.Register n f1).Register n f2).Create quote sched n).invoked = [n]
    ∧ (((r.Register n f1).Register n f2).ListProviders sched).count n = 1
    ∧ (∀ m : String, m ≠ n →
        ((r.Register n f1).Register n f2).factories.lookup m = r.factories.lookup m) := by
  have hl : ((r.Register n f1).Register n f2).factories.lookup n = some f2 :=
    AList.lookup_insert _
  refine ⟨?_, ?_, ?_, ?_, ?_⟩
  · simp [Registry.Create, hl]
  · simp [Registry.Create, hl]
  · simp [Registry.Create, hl]
  · have hperm := listProviders_perm ((r.Register n f1).Register n f2) sched
    rw [hperm.count_eq]
    have hmem : n ∈ ((r.Register n f1).Register n f2).factories.keys := by
      rw [← AList.mem_keys, ← AList.lookup_isSome, hl]
      rfl
    exact List.count_eq_one_of_mem (AList.keys_nodup _) hmem
  · intro m hm
    simp only [Registry.Register]
    rw [AList.lookup_insert_ne hm, AList.lookup_insert_ne hm]

/-- In the registry where `sma` was registered twice, `Create("sma")` builds the
provider of the second factory, `sma` is listed once, and `saj` keeps its
factory. -/
theorem register_overwrites_witness :
    (registryTwice.Create quoteAscii (Schedule.fifo _) "sma").provider = some providerSma
    ∧ (registryTwice.Create quoteAscii (Schedule.fifo _) "sma").err = none
    ∧ (registryTwice.ListProviders (Schedule.fifo _)).count "sma" = 1
    ∧ registryTwice.factories.lookup "saj"
        = (NewRegistry.Register "saj" fun _ => Provider.failing "saj").factories.lookup "saj"
    ∧ registryTwice.ListProviders (Schedule.fifo _) = ["sma", "saj"] :=
  have h := register_overwrites (NewRegistry.Register "saj" fun _ => Provider.failing "saj")
    "sma" (fun _ => Provider.failing "sma") (fun _ => providerSma) quoteAscii (Schedule.fifo _)
  ⟨h.1, h.2.1, h.2.2.2.1, h.2.2.2.2 "saj" (by decide), by decide⟩

/-- C11. `Create(n)` returns a non-nil error exactly when no factory is
registered under `n`.  In that case the provider is nil, the message is
`unknown provider type: ` followed by the quoted name and the bracketed names
of `ListProviders` (the same names as any other call of `ListProviders`
returns), no factory is run and the registry is unchanged.  Otherwise it
returns what the registered factory builds, run once, and a nil error. -/
theorem create_error_iff_unregistered (r : Registry) (quote : String → String)
    (sched : Schedule (Σ _ : String, Factory)) (n : String) :
    ((r.Create quote sched n).err ≠ none ↔ r.factories.lookup n = none)
    ∧ (r.factories.lookup n = none →
        (r.Create quote sched n).provider = none
        ∧ (r.Create quote sched n).err
            = some { msg := "unknown provider type: " ++ quote n ++ " (registered: "
                        ++ fmtSlice (r.ListProviders sched) ++ ")" }
        ∧ (∀ sched2, (r.ListProviders sched).Perm (r.ListProviders sched2))
        ∧ (r.Create quote sched n).invoked = []
        ∧ (r.Create quote sched n).registry = r)
    ∧ (∀ factory : Factory, r.factories.lookup n = some factory →
        (r.Create quote sched n).provider = some (factory ())
        ∧ (r.Create quote sched n).err = none
        ∧ (r.Create quote sched n).invoked = [n]
        ∧ (r.Create quote sched n).registry = r) := by
  refine ⟨?_, ?_, ?_⟩
  · cases h : r.factories.lookup n <;> simp [Registry.Create, h]
  · intro h
    refine ⟨?_, ?_, ?_, ?_, ?_⟩
    · simp [Registry.Create, h]
    · simp [Registry.Create, h]
    · intro sched2
      exact (listProviders_perm r sched).trans (listProviders_perm r sched2).symm
    · simp [Registry.Create, h]
    · simp [Registry.Create, h]
  · intro factory h
    simp [Registry.Create, h]

/-- In the registry holding `sma` and `saj`, `Create("huawei")` fails with the
message naming `huawei` and listing `sma` and `saj`; `Create("saj")` succeeds. -/
theorem create_error_iff_unregistered_witness :
    ((registryTwice.Create quoteAscii (Schedule.fifo _) "huawei").provider = none
      ∧ (registryTwice.Create quoteAscii (Schedule.fifo _) "huawei").err
          = some { msg := "unknown provider type: " ++ quoteAscii "huawei" ++ " (registered: "
                      ++ fmtSlice (registryTwice.ListProviders (Schedule.fifo _)) ++ ")" }
      ∧ (registryTwice.Create quoteAscii (Schedule.fifo _) "huawei").invoked = [])
    ∧ (registryTwice.Create quoteAscii (Schedule.fifo _) "huawei").err
        = some { msg := "unknown provider type: \"huawei\" (registered: [sma saj])" }
    ∧ (registryTwice.Create quoteAscii (Schedule.fifo _) "saj").err = none :=
  have h := create_error_iff_unregistered registryTwice quoteAscii (Schedule.fifo _) "huawei"
  have h2 := h.2.1 rfl
  ⟨⟨h2.1, h2.2.1, h2.2.2.2.1⟩, by decide, by decide⟩

/-! ## Unit and derived-metric helpers -/

theorem clamp_eq_min_max {α : Type} [LinearOrderedField α] (rate : α) :
    (if rate < 0 then 0 else if rate > 1 then 1 else rate) = min 1 (max 0 rate) := by
  by_cases h0 : rate < 0
  · rw [if_pos h0, max_eq_left h0.le, min_eq_right zero_le_one]
  · rw [if_neg h0, max_eq_right (not_lt.mp h0)]
    by_cases h1 : rate > 1
    · rw [if_pos h1, min_eq_left h1.le]
    · rw [if_neg h1, min_eq_right (not_lt.mp h1)]

/-- C12. Over any ordered field (the reals in particular),
`CalculateSelfConsumptionRate` is 0 when `pvGenerationKWh <= 0` and otherwise
`min(1, max(0, (pvGenerationKWh - gridExportKWh) / pvGenerationKWh))`; its
result lies in `[0, 1]`; `(10, 3)` gives 0.7, `(0, x)` gives 0 and `(5, 8)`
gives 0. -/
theorem selfConsumptionRate_spec {α : Type} [LinearOrderedField α] :
    (∀ pv ge : α, pv ≤ 0 → CalculateSelfConsumptionRate pv ge = 0)
    ∧ (∀ pv ge : α, 0 < pv →
        CalculateSelfConsumptionRate pv ge = min 1 (max 0 ((pv - ge) / pv)))
    ∧ (∀ pv ge : α, 0 ≤ CalculateSelfConsumptionRate pv ge
        ∧ CalculateSelfConsumptionRate pv ge ≤ 1)
    ∧ CalculateSelfConsumptionRate (10 : α) 3 = 7 / 10
    ∧ (∀ x : α, CalculateSelfConsumptionRate 0 x = 0)
    ∧ CalculateSelfConsumptionRate (5 : α) 8 = 0 := by
  have hpos : ∀ pv ge : α, 0 < pv →
      CalculateSelfConsumptionRate pv ge = min 1 (max 0 ((pv - ge) / pv)) := by
    intro pv ge h
    simp only [CalculateSelfConsumptionRate, if_neg (not_le.mpr h)]
    exact clamp_eq_min_max _
  have hnonpos : ∀ pv ge : α, pv ≤ 0 → CalculateSelfConsumptionRate pv ge = 0 := by
    intro pv ge h
    simp only [CalculateSelfConsumptionRate, if_pos h]
  refine ⟨hnonpos, hpos, ?_, ?_, ?_, ?_⟩
  · intro pv ge
    rcases le_or_lt pv 0 with h | h
    · rw [hnonpos pv ge h]
      exact ⟨le_refl 0, zero_le_one⟩
    · rw [hpos pv ge h]
      exact ⟨le_min zero_le_one (le_max_left 0 _), min_le_left 1 _⟩
  · rw [hpos 10 3 (by norm_num)]
    norm_num
  · intro x
    exact hnonpos 0 x (le_refl 0)
  · rw [hpos 5 8 (by norm_num)]
    norm_num

/-- Over the rationals and the reals: `(10, 3)` gives 0.7, and with export
above generation the rate is 0. -/
theorem selfConsumptionRate_spec_witness :
    CalculateSelfConsumptionRate (10 : ℚ) 3 = 7 / 10
    ∧ CalculateSelfConsumptionRate (5 : ℝ) 8 = 0
    ∧ (0 ≤ CalculateSelfConsumptionRate (5 : ℝ) 8 ∧ CalculateSelfConsumptionRate (5 : ℝ) 8 ≤ 1) :=
  ⟨selfConsumptionRate_spec.2.2.2.1, selfConsumptionRate_spec.2.2.2.2.2,
    selfConsumptionRate_spec.2.2.1 5 8⟩

/-- C13. Over any ordered field (the reals in particular),
`CalculateSelfSufficiencyRate` is 0 when `totalConsumptionKWh <= 0` and
otherwise `min(1, max(0, (totalConsumptionKWh - gridImportKWh) /
totalConsumptionKWh))`; its result lies in `[0, 1]`; `(20, 5)` gives 0.75. -/
theorem selfSufficiencyRate_spec {α : Type} [LinearOrderedField α] :
    (∀ tc gi : α, tc ≤ 0 → CalculateSelfSufficiencyRate tc gi = 0)
    ∧ (∀ tc gi : α, 0 < tc →
        CalculateSelfSufficiencyRate tc gi = min 1 (max 0 ((tc - gi) / tc)))
    ∧ (∀ tc gi : α, 0 ≤ CalculateSelfSufficiencyRate tc gi
        ∧ CalculateSelfSufficiencyRate tc gi ≤ 1)
    ∧ CalculateSelfSufficiencyRate (20 : α) 5 = 3 / 4 := by
  have hpos : ∀ tc gi : α, 0 < tc →
      CalculateSelfSufficiencyRate tc gi = min 1 (max 0 ((tc - gi) / tc)) := by
    intro tc gi h
    simp only [CalculateSelfSufficiencyRate, if_neg (not_le.mpr h)]
    exact clamp_eq_min_max _
  have hnonpos : ∀ tc gi : α, tc ≤ 0 → CalculateSelfSufficiencyRate tc gi = 0 := by
    intro tc gi h
    simp only [CalculateSelfSufficiencyRate, if_pos h]
  refine ⟨hnonpos, hpos, ?_, ?_⟩
  · intro tc gi
    rcases le_or_lt tc 0 with h | h
    · rw [hnonpos tc gi h]
      exact ⟨le_refl 0, zero_le_one⟩
    · rw [hpos tc gi h]
      exact ⟨le_min zero_le_one (le_max_left 0 _), min_le_left 1 _⟩
  · rw [hpos 20 5 (by norm_num)]
    norm_num

/-- Over the rationals and the reals: `(20, 5)` gives 0.75, and with import
above consumption the rate is 0. -/
theorem selfSufficiencyRate_spec_witness :
    CalculateSelfSufficiencyRate (20 : ℚ) 5 = 3 / 4
    ∧ CalculateSelfSufficiencyRate (20 : ℝ) 5 = 3 / 4
    ∧ (0 ≤ CalculateSelfSufficiencyRate (4 : ℝ) 9 ∧ CalculateSelfSufficiencyRate (4 : ℝ) 9 ≤ 1) :=
  ⟨selfSufficiencyRate_spec.2.2.2, selfSufficiencyRate_spec.2.2.2,
    selfSufficiencyRate_spec.2.2.1 4 9⟩

/-- C14. Over any ordered field, `CalculateCO2Savings(x) = x * 0.475` and
`CalculateTreesEquivalent(c) = c / 22`, so their composition is
`x * 0.475 / 22`; for `x = 100` the saving is 47.5 and the trees-equivalent
is `47.5 / 22`, which lies between 2.159 and 2.160. -/
theorem co2_and_trees_spec {α : Type} [LinearOrderedField α] :
    (∀ x : α, CalculateCO2Savings x = x * (475 / 1000))
    ∧ (∀ c : α, CalculateTreesEquivalent c = c / 22)
    ∧ (∀ x : α, CalculateTreesEquivalent (CalculateCO2Savings x) = x * (475 / 1000) / 22)
    ∧ CalculateCO2Savings (100 : α) = 475 / 10
    ∧ CalculateTreesEquivalent (CalculateCO2Savings (100 : α)) = 475 / 10 / 22
    ∧ (2159 / 1000 : α) ≤ CalculateTreesEquivalent (CalculateCO2Savings 100)
    ∧ CalculateTreesEquivalent (CalculateCO2Savings (100 : α)) < 2160 / 1000 := by
  refine ⟨fun _ => rfl, fun _ => rfl, fun _ => rfl, ?_, ?_, ?_, ?_⟩ <;>
    simp only [CalculateTreesEquivalent, CalculateCO2Savings, CO2KgPerKWh] <;> norm_num

/-- Over the rationals and the reals, 100 kWh save 47.5 kg. -/
theorem co2_and_trees_spec_witness :
    CalculateCO2Savings (100 : ℚ) = 475 / 10
    ∧ CalculateCO2Savings (100 : ℝ) = 475 / 10
    ∧ CalculateTreesEquivalent (CalculateCO2Savings (100 : ℚ)) = 475 / 10 / 22 :=
  ⟨co2_and_trees_spec.2.2.2.1, co2_and_trees_spec.2.2.2.1, co2_and_trees_spec.2.2.2.2.1⟩

/-! ## SMA energy summary -/

theorem smaEnergyFeedInAboveGeneration_sums :
    SMA.sumKWh smaEnergyFeedInAboveGeneration.Sets "PvGeneration" = 5
    ∧ SMA.sumKWh smaEnergyFeedInAboveGeneration.Sets "GridFeedIn" = 8
    ∧ SMA.sumKWh smaEnergyFeedInAboveGeneration.Sets "TotalConsumption" = 4
    ∧ SMA.sumKWh smaEnergyFeedInAboveGeneration.Sets "GridPurchase" = 9 := by
  have e1 : SMA.sumKWh smaEnergyFeedInAboveGeneration.Sets "PvGeneration"
      = 0 + 5000 / 1000 := rfl
  have e2 : SMA.sumKWh smaEnergyFeedInAboveGeneration.Sets "GridFeedIn"
      = 0 + 8000 / 1000 := rfl
  have e3 : SMA.sumKWh smaEnergyFeedInAboveGeneration.Sets "TotalConsumption"
      = 0 + 4000 / 1000 := rfl
  have e4 : SMA.sumKWh smaEnergyFeedInAboveGeneration.Sets "GridPurchase"
      = 0 + 9000 / 1000 := rfl
  rw [e1, e2, e3, e4]
  norm_num

/-- C15. For the SMA response with 5 kWh generated, 8 kWh fed in, 4 kWh
consumed and 9 kWh purchased, `normalizeSMAEnergy` sets
`SelfConsumptionRate` to -3/5 and `SelfSufficiencyRate` to -5/4, both below
0, while `CalculateSelfConsumptionRate` and `CalculateSelfSufficiencyRate`
give 0 on the same sums. -/
theorem normalizeSMAEnergy_rates_not_clamped :
    (SMA.normalizeSMAEnergy smaEnergyFeedInAboveGeneration "p1" PeriodDay).SelfConsumptionRate
      = some (-3 / 5)
    ∧ (SMA.normalizeSMAEnergy smaEnergyFeedInAboveGeneration "p1" PeriodDay).SelfSufficiencyRate
      = some (-5 / 4)
    ∧ (-3 / 5 : ℚ) < 0 ∧ (-5 / 4 : ℚ) < 0
    ∧ CalculateSelfConsumptionRate (5 : ℚ) 8 = 0
    ∧ CalculateSelfSufficiencyRate (4 : ℚ) 9 = 0 := by
  obtain ⟨h1, h2, h3, h4⟩ := smaEnergyFeedInAboveGeneration_sums
  refine ⟨?_, ?_, by norm_num, by norm_num, ?_, ?_⟩
  · simp only [SMA.normalizeSMAEnergy, h1, h2]
    norm_num
  · simp only [SMA.normalizeSMAEnergy, h3, h4]
    norm_num
  · norm_num [CalculateSelfConsumptionRate]
  · norm_num [CalculateSelfSufficiencyRate]

/-! ## Composite identifiers -/

theorem plantNormalizedFrom_idFrom (lib : GoLib) (name native : String) (pl : NormalizedPlant)
    (h : PlantNormalizedFrom lib name native pl) :
    name ∈ adapterNames ∧ PlantIDFrom name native pl := by
  cases h <;> exact ⟨by simp [adapterNames], rfl, rfl, rfl, rfl, rfl⟩

theorem compositeID_injective (n1 n2 a b : String) (h1 : n1 ∈ adapterNames)
    (h2 : n2 ∈ adapterNames) (h : n1 ++ "_" ++ a = n2 ++ "_" ++ b) : n1 = n2 ∧ a = b := by
  have hd := congrArg String.data h
  simp only [adapterNames, Huawei.providerName, SMA.providerName, Sungrow.providerName,
    SAJ.providerName, List.mem_cons, List.mem_singleton, List.not_mem_nil, or_false] at h1 h2
  rcases h1 with rfl | rfl | rfl | rfl <;> rcases h2 with rfl | rfl | rfl | rfl <;>
    simp [String.data_append] at hd <;>
    exact ⟨rfl, String.ext hd⟩

/-- C16. For every vendor input, each plant normalizer of the four adapters
produces the plant of its adapter for the vendor-native plant identifier of
that input, and each device normalizer the device of its adapter for the
vendor-native device identifier of that input: `Provider` and
`Meta.Provider` are the adapter's name, `Meta.ProviderPlantID`
(`Meta.ProviderDeviceID`) is the native identifier of the input, and `ID` is
the name, an underscore and that identifier, that is `Provider`, an
underscore and `Meta.ProviderPlantID` (`Meta.ProviderDeviceID`).  The native
identifier is the identifier field of the vendor record (`PlantID`,
`StationCode`, `PSID`, `ps_id`, `PlantUid`; `DeviceID`, `DevID` in decimal,
for a SAJ device the first non-empty of the inverter, EMS and meter serial
numbers and the wrapper's `SN`) or the identifier the normalizer is called
with.  So the `ID` is determined by the adapter name and the native
identifier alone: two records for the same name and native identifier have
the same `ID`, whatever else the inputs hold.  The adapter names are `sma`,
`huawei`, `sungrow` and `saj`. -/
theorem normalizers_composite_id (lib : GoLib) :
    (SMA.providerName = "sma" ∧ Huawei.providerName = "huawei"
      ∧ Sungrow.providerName = "sungrow" ∧ SAJ.providerName = "saj")
    ∧ (∀ raw : SMA.smaPlant,
        PlantIDFrom SMA.providerName raw.PlantID (SMA.normalizeSMAPlant raw))
    ∧ (∀ raw plantID,
        PlantIDFrom SMA.providerName plantID (SMA.normalizeSMAPlantInstallation raw plantID))
    ∧ (∀ raw : Huawei.huaweiStation,
        PlantIDFrom Huawei.providerName raw.StationCode (Huawei.normalizeHuaweiStation raw))
    ∧ (∀ raw plantID,
        PlantIDFrom Huawei.providerName plantID (Huawei.normalizeHuaweiStationKpi raw plantID))
    ∧ (∀ raw : Sungrow.sungrowPlant,
        PlantIDFrom Sungrow.providerName raw.PSID (Sungrow.normalizeSungrowPlant lib raw))
    ∧ (∀ data,
        PlantIDFrom Sungrow.providerName (Sungrow.extractStr lib data "ps_id")
          (Sungrow.normalizeSungrowPlantDetail lib data))
    ∧ (∀ raw : SAJ.sajPlantRow,
        PlantIDFrom SAJ.providerName raw.PlantID (SAJ.normalizeSAJPlant raw))
    ∧ (∀ raw : SAJ.sajPlantDetails,
        PlantIDFrom SAJ.providerName raw.PlantUid (SAJ.normalizeSAJPlantDetails raw))
    ∧ (∀ (raw : SMA.smaDevice) plantID,
        DeviceIDFrom SMA.providerName raw.DeviceID (SMA.normalizeSMADevice raw plantID))
    ∧ (∀ (raw : Huawei.huaweiDevInfo) plantID,
        DeviceIDFrom Huawei.providerName (itoa raw.DevID)
          (Huawei.normalizeHuaweiDevice raw plantID))
    ∧ (∀ (raw : Sungrow.sungrowDevice) plantID,
        DeviceIDFrom Sungrow.providerName raw.DeviceID
          (Sungrow.normalizeSungrowDevice raw plantID))
    ∧ (∀ (raw : SAJ.sajDeviceWrapper) plantID,
        DeviceIDFrom SAJ.providerName
          (if SAJ.extractStringSafe lib raw.InverterData "deviceSn" ≠ "" then
            SAJ.extractStringSafe lib raw.InverterData "deviceSn"
          else if SAJ.extractStringSafe lib raw.EmsData "deviceSn" ≠ "" then
            SAJ.extractStringSafe lib raw.EmsData "deviceSn"
          else if SAJ.extractStringSafe lib raw.MeterData "meterSn" ≠ "" then
            SAJ.extractStringSafe lib raw.MeterData "meterSn"
          else raw.SN)
          (SAJ.normalizeSAJDevice lib raw plantID))
    ∧ (∀ raw deviceID,
        DeviceIDFrom SAJ.providerName deviceID (SAJ.normalizeSAJBaseInfo lib raw deviceID))
    ∧ (∀ (name native : String) (p q : NormalizedPlant),
        PlantIDFrom name native p → PlantIDFrom name native q → p.ID = q.ID)
    ∧ (∀ (name native : String) (d e : NormalizedDevice),
        DeviceIDFrom name native d → DeviceIDFrom name native e → d.ID = e.ID) := by
  refine ⟨⟨rfl, rfl, rfl, rfl⟩, fun _ => ⟨rfl, rfl, rfl, rfl, rfl⟩,
    fun _ _ => ⟨rfl, rfl, rfl, rfl, rfl⟩, fun _ => ⟨rfl, rfl, rfl, rfl, rfl⟩,
    fun _ _ => ⟨rfl, rfl, rfl, rfl, rfl⟩, fun _ => ⟨rfl, rfl, rfl, rfl, rfl⟩,
    fun _ => ⟨rfl, rfl, rfl, rfl, rfl⟩, fun _ => ⟨rfl, rfl, rfl, rfl, rfl⟩,
    fun _ => ⟨rfl, rfl, rfl, rfl, rfl⟩, fun _ _ => ⟨rfl, rfl, rfl, rfl, rfl⟩,
    fun _ _ => ⟨rfl, rfl, rfl, rfl, rfl⟩, fun _ _ => ⟨rfl, rfl, rfl, rfl, rfl⟩, ?_,
    fun _ _ => ⟨rfl, rfl, rfl, rfl, rfl⟩, ?_, ?_⟩
  · intro raw plantID
    have hsn : (SAJ.normalizeSAJDevice lib raw plantID).Meta.ProviderDeviceID
        = (if SAJ.extractStringSafe lib raw.InverterData "deviceSn" ≠ "" then
            SAJ.extractStringSafe lib raw.InverterData "deviceSn"
          else if SAJ.extractStringSafe lib raw.EmsData "deviceSn" ≠ "" then
            SAJ.extractStringSafe lib raw.EmsData "deviceSn"
          else if SAJ.extractStringSafe lib raw.MeterData "meterSn" ≠ "" then
            SAJ.extractStringSafe lib raw.MeterData "meterSn"
          else raw.SN) := by
      simp only [SAJ.normalizeSAJDevice]
      split_ifs <;> simp_all
    refine ⟨rfl, rfl, hsn, ?_, rfl⟩
    rw [← hsn]
    rfl
  · intro name native p q hp hq
    rw [hp.2.2.2.1, hq.2.2.2.1]
  · intro name native d e hd he
    rw [hd.2.2.2.1, he.2.2.2.1]

/-- The SMA plant `P_1` gets the identifier `sma_P_1` whatever its name, the
Huawei device 1002 the identifier `huawei_1002`. -/
theorem normalizers_composite_id_witness :
    PlantIDFrom "sma" "P_1" (SMA.normalizeSMAPlant { PlantID := "P_1", Name := "Roof" })
    ∧ (SMA.normalizeSMAPlant { PlantID := "P_1", Name := "Roof" }).ID = "sma_P_1"
    ∧ (SMA.normalizeSMAPlant { PlantID := "P_1", Name := "Roof" }).ID
        = (SMA.normalizeSMAPlant { PlantID := "P_1", Name := "Barn" }).ID
    ∧ DeviceIDFrom "huawei" (itoa 1002)
        (Huawei.normalizeHuaweiDevice { DevID := 1002, DevTypeID := 99 } "NE=1")
    ∧ (Huawei.normalizeHuaweiDevice { DevID := 1002, DevTypeID := 99 } "NE=1").ID
        = "huawei_1002" :=
  have h := normalizers_composite_id libPlain
  ⟨h.2.1 { PlantID := "P_1", Name := "Roof" }, by decide,
    h.2.2.2.2.2.2.2.2.2.2.2.2.2.2.1 "sma" "P_1" _ _
      (h.2.1 { PlantID := "P_1", Name := "Roof" }) (h.2.1 { PlantID := "P_1", Name := "Barn" }),
    h.2.2.2.2.2.2.2.2.2.2.1 { DevID := 1002, DevTypeID := 99 } "NE=1", by decide⟩

/-- C17. Plant identifiers are unique across the four adapters.  Take two
plants produced by plant normalizers of the adapters `n1` and `n2` from
inputs with the vendor-native plant identifiers `a` and `b` (any strings,
underscores included).  If their `ID`s are equal then `n1 = n2` and `a = b`,
and the plants have the same `Provider` and the same `Meta.ProviderPlantID`;
so plants of different adapters, or from different native identifiers, have
different `ID`s.  Each such plant has `Provider = n`, `Meta.ProviderPlantID`
the native identifier, and `ID` the name, an underscore and the native
identifier.  And on the four adapter names the map sending a name and a
native identifier to the name, an underscore and the identifier is
injective. -/
theorem plant_id_injective (lib : GoLib) :
    (∀ (n1 a : String) (p : NormalizedPlant) (n2 b : String) (q : NormalizedPlant),
        PlantNormalizedFrom lib n1 a p → PlantNormalizedFrom lib n2 b q → p.ID = q.ID →
          n1 = n2 ∧ a = b ∧ p.Provider = q.Provider
            ∧ p.Meta.ProviderPlantID = q.Meta.ProviderPlantID)
    ∧ (∀ (n1 a : String) (p : NormalizedPlant) (n2 b : String) (q : NormalizedPlant),
        PlantNormalizedFrom lib n1 a p → PlantNormalizedFrom lib n2 b q →
          (n1 ≠ n2 ∨ a ≠ b) → p.ID ≠ q.ID)
    ∧ (∀ (n a : String) (p : NormalizedPlant), PlantNormalizedFrom lib n a p →
        n ∈ adapterNames ∧ p.Provider = n ∧ p.Meta.ProviderPlantID = a
          ∧ p.ID = n ++ "_" ++ a)
    ∧ (∀ n1 n2 a b : String, n1 ∈ adapterNames → n2 ∈ adapterNames →
        n1 ++ "_" ++ a = n2 ++ "_" ++ b → n1 = n2 ∧ a = b) := by
  have key : ∀ (n1 a : String) (p : NormalizedPlant) (n2 b : String) (q : NormalizedPlant),
      PlantNormalizedFrom lib n1 a p → PlantNormalizedFrom lib n2 b q → p.ID = q.ID →
        n1 = n2 ∧ a = b ∧ p.Provider = q.Provider
          ∧ p.Meta.ProviderPlantID = q.Meta.ProviderPlantID := by
    intro n1 a p n2 b q hp hq h
    obtain ⟨hn1, hp1, _, hp3, hp4, _⟩ := plantNormalizedFrom_idFrom lib n1 a p hp
    obtain ⟨hn2, hq1, _, hq3, hq4, _⟩ := plantNormalizedFrom_idFrom lib n2 b q hq
    rw [hp4, hq4] at h
    obtain ⟨hn, hab⟩ := compositeID_injective n1 n2 a b hn1 hn2 h
    exact ⟨hn, hab, by rw [hp1, hq1, hn], by rw [hp3, hq3, hab]⟩
  refine ⟨key, ?_, ?_, fun n1 n2 a b h1 h2 h => compositeID_injective n1 n2 a b h1 h2 h⟩
  · intro n1 a p n2 b q hp hq hne h
    obtain ⟨hn, hab, _⟩ := key n1 a p n2 b q hp hq h
    rcases hne with hne | hne
    · exact hne hn
    · exact hne hab
  · intro n a p hp
    obtain ⟨hn, hp1, _, hp3, hp4, _⟩ := plantNormalizedFrom_idFrom lib n a p hp
    exact ⟨hn, hp1, hp3, hp4⟩

/-- The SMA plant `a_b` and the SAJ plant `a_b` get different identifiers,
and so do the Sungrow plants `1` and `2`; an SMA plant and an SMA plant
installation with the same identifier come from the same native identifier. -/
theorem plant_id_injective_witness :
    (SMA.normalizeSMAPlant { PlantID := "a_b" }).ID ≠ (SAJ.normalizeSAJPlant { PlantID := "a_b" }).ID
    ∧ (Sungrow.normalizeSungrowPlant libPlain { PSID := "1" }).ID
        ≠ (Sungrow.normalizeSungrowPlant libPlain { PSID := "2" }).ID
    ∧ (SMA.providerName = SMA.providerName ∧ "a_b" = "a_b"
        ∧ (SMA.normalizeSMAPlant { PlantID := "a_b", Name := "x" }).Provider
          = (SMA.normalizeSMAPlantInstallation { Name := "y" } "a_b").Provider
        ∧ (SMA.normalizeSMAPlant { PlantID := "a_b", Name := "x" }).Meta.ProviderPlantID
          = (SMA.normalizeSMAPlantInstallation { Name := "y" } "a_b").Meta.ProviderPlantID) :=
  ⟨(plant_id_injective libPlain).2.1 _ _ _ _ _ _
      (PlantNormalizedFrom.smaPlant { PlantID := "a_b" })
      (PlantNormalizedFrom.sajPlant { PlantID := "a_b" }) (Or.inl (by decide)),
    (plant_id_injective libPlain).2.1 _ _ _ _ _ _
      (PlantNormalizedFrom.sungrowPlant { PSID := "1" })
      (PlantNormalizedFrom.sungrowPlant { PSID := "2" }) (Or.inr (by decide)),
    (plant_id_injective libPlain).1 _ _ _ _ _ _
      (PlantNormalizedFrom.smaPlant { PlantID := "a_b", Name := "x" })
      (PlantNormalizedFrom.smaPlantInstallation { Name := "y" } "a_b") (by decide)⟩

/-! ## Vendor codes -/

theorem foldl_append_singleton_eq_map {α β : Type} (f : α → β) (xs : List α) (init : List β) :
    xs.foldl (fun acc x => acc ++ [f x]) init = init ++ xs.map f := by
  induction xs generalizing init with
  | nil => simp
  | cons x xs ih => simp [List.foldl_cons, ih]

/-- C18. Each device-type mapper returns `DeviceTypeUnknown` on every vendor
code outside the codes it lists; and when the vendor call succeeded, the
device list of each adapter is the vendor list mapped entry by entry through
the device normalizer, whose `DeviceType` is the mapper applied to the
entry's code: a device with an unlisted code is kept, with type unknown. -/
theorem deviceType_unknown_default (lib : GoLib) :
    (∀ t : Int, t ∉ [1, 2, 38, 39, 46, 47, 62] → Huawei.huaweiDeviceType t = DeviceTypeUnknown)
    ∧ (∀ t : Int, t ∉ [0, 1, 2, 3, 6, 7, 10, 16, 18, 17, 19] →
        SAJ.sajDeviceType t = DeviceTypeUnknown)
    ∧ (∀ t : Int, t ∉ [1, 2, 3, 4, 5, 7, 11, 14] → Sungrow.sungrowDeviceType t = DeviceTypeUnknown)
    ∧ (∀ t : String,
        t ∉ ["SolarInverter", "PV Inverter", "HybridInverter", "Battery", "BatteryInverter",
          "EnergyMeter", "Meter", "Gateway", "CommunicationProduct", "Sensor",
          "SatelliteSensor", "EVCharger"] →
        SMA.smaDeviceType t = DeviceTypeUnknown)
    ∧ (∀ resp plantID,
        SMA.GetDevices none resp plantID
          = (resp.Devices.map fun raw => SMA.normalizeSMADevice raw plantID, none))
    ∧ (∀ raw plantID,
        (SMA.normalizeSMADevice raw plantID).DeviceType = SMA.smaDeviceType raw.DeviceType)
    ∧ (∀ (resp : Huawei.huaweiDevListResponse) plantID, resp.Success = true →
        Huawei.GetDevices none resp plantID
          = (resp.Data.map fun raw => Huawei.normalizeHuaweiDevice raw plantID, none))
    ∧ (∀ raw plantID,
        (Huawei.normalizeHuaweiDevice raw plantID).DeviceType
          = Huawei.huaweiDeviceType raw.DevTypeID)
    ∧ (∀ (resp : Sungrow.sungrowDeviceListResponse) plantID, resp.ResultCode = "1" →
        Sungrow.GetDevices none resp plantID
          = (resp.PageList.map fun raw => Sungrow.normalizeSungrowDevice raw plantID, none))
    ∧ (∀ raw plantID,
        (Sungrow.normalizeSungrowDevice raw plantID).DeviceType
          = Sungrow.sungrowDeviceType raw.DeviceType)
    ∧ (∀ (resp : SAJ.sajDeviceListResponse) plantID, resp.Code = 200 →
        SAJ.GetDevices lib none none resp plantID
          = (resp.Data.map fun raw => SAJ.normalizeSAJDevice lib raw plantID, none))
    ∧ (∀ raw plantID,
        (SAJ.normalizeSAJDevice lib raw plantID).DeviceType = SAJ.sajDeviceType raw.DeviceType) := by
  refine ⟨?_, ?_, ?_, ?_, ?_, fun _ _ => rfl, ?_, fun _ _ => rfl, ?_, fun _ _ => rfl, ?_,
    fun _ _ => rfl⟩
  · intro t h
    simp only [List.mem_cons, List.mem_singleton, List.not_mem_nil, or_false, not_or] at h
    simp [Huawei.huaweiDeviceType, h]
  · intro t h
    simp only [List.mem_cons, List.mem_singleton, List.not_mem_nil, or_false, not_or] at h
    simp [SAJ.sajDeviceType, h]
  · intro t h
    simp only [List.mem_cons, List.mem_singleton, List.not_mem_nil, or_false, not_or] at h
    simp [Sungrow.sungrowDeviceType, h]
  · intro t h
    simp only [List.mem_cons, List.mem_singleton, List.not_mem_nil, or_false, not_or] at h
    simp [SMA.smaDeviceType, h]
  · intro resp plantID
    simp [SMA.GetDevices, foldl_append_singleton_eq_map]
  · intro resp plantID h
    simp [Huawei.GetDevices, foldl_append_singleton_eq_map, h]
  · intro resp plantID h
    simp [Sungrow.GetDevices, foldl_append_singleton_eq_map, h]
  · intro resp plantID h
    simp [SAJ.GetDevices, foldl_append_singleton_eq_map, h]

/-- The Huawei device list with the unlisted code 99 yields two devices, the
second with type unknown. -/
theorem deviceType_unknown_default_witness :
    Huawei.huaweiDeviceType 99 = DeviceTypeUnknown
    ∧ Huawei.GetDevices none huaweiDevicesWithUnlistedType "NE=1"
        = (huaweiDevicesWithUnlistedType.Data.map fun raw =>
            Huawei.normalizeHuaweiDevice raw "NE=1", none)
    ∧ (Huawei.GetDevices none huaweiDevicesWithUnlistedType "NE=1").1.map
          (fun d => (d.ID, d.DeviceType))
        = [("huawei_1001", DeviceTypeStringInverter), ("huawei_1002", DeviceTypeUnknown)] :=
  have h := deviceType_unknown_default libPlain
  ⟨h.1 99 (by decide), h.2.2.2.2.2.2.1 huaweiDevicesWithUnlistedType "NE=1" rfl, by decide⟩

/-- C19 fails as stated: for an active SMA device whose status text is none of
the mapped codes, `smaDeviceStatus` returns `online`, not `unknown`; for an
inactive one it returns `offline`. -/
theorem smaDeviceStatus_default_not_unknown :
    "Unrecognized" ∉ ["Ok", "ok", "Warning", "warning", "Error", "error", "Alarm", "alarm"]
    ∧ SMA.smaDeviceStatus "Unrecognized" true = DeviceStatusOnline
    ∧ SMA.smaDeviceStatus "Unrecognized" true ≠ DeviceStatusUnknown
    ∧ SMA.smaDeviceStatus "Unrecognized" false = DeviceStatusOffline
    ∧ SMA.smaDeviceStatus "Unrecognized" false ≠ DeviceStatusUnknown := by
  refine ⟨by decide, by decide, by decide, by decide, by decide⟩

/-- C19, amended. Every mapper of a vendor code to a normalized enum other
than device type, `smaDeviceStatus` apart, returns the `unknown` variant of
its enum on every code outside the codes it maps; `smaDeviceStatus` returns
`offline` for an inactive device whatever the code, and `online` for an
active device with a code outside the codes it maps. -/
theorem enum_mappers_default :
    (∀ s : Int, s ∉ [0, 1] → Sungrow.sungrowDeviceStatus s = DeviceStatusUnknown)
    ∧ (∀ c : Int, c ∉ [1, 2, 3, 4] → Huawei.huaweiAlarmSeverity c = AlarmSeverityUnknown)
    ∧ (∀ c : Int, c ∉ [1, 2] → Huawei.huaweiAlarmStatus c = AlarmStatusUnknown)
    ∧ (∀ c : Int, c ∉ [1, 2, 3] → SAJ.sajAlarmSeverity c = AlarmSeverityUnknown)
    ∧ (∀ c : Int, c ∉ [1, 4] → SAJ.sajAlarmStatus c = AlarmStatusUnknown)
    ∧ (∀ c : Int, c ∉ [1, 2, 3] → Sungrow.sungrowAlarmSeverity c = AlarmSeverityUnknown)
    ∧ (∀ c : Int, c ∉ [1, 2] → Sungrow.sungrowAlarmStatus c = AlarmStatusUnknown)
    ∧ (∀ c : String, c ∉ ["info", "warning", "alarm", "error"] →
        SMA.smaLogSeverity c = AlarmSeverityUnknown)
    ∧ (∀ c : Int, c ∉ [0, 1, 3] → SAJ.sajPlantType c = PlantTypeUnknown)
    ∧ (∀ c : String, c ∉ ["1", "2", "3"] → SAJ.sajGridConnectionType c = GridConnectionUnknown)
    ∧ (∀ c : Int, c ∉ [0, 1, 2, 3, 5, 6] → SAJ.sajOperatingMode c = OperatingModeUnknown)
    ∧ (∀ c : Int, c ∉ [-1, 1, 0] → SAJ.sajBatteryDirection c = DirectionUnknown)
    ∧ (∀ c : Int, c ∉ [-1, 1, 0] → SAJ.sajGridDirection c = GridDirectionUnknown)
    ∧ (∀ c : String, SMA.smaDeviceStatus c false = DeviceStatusOffline)
    ∧ (∀ c : String,
        c ∉ ["Ok", "ok", "Warning", "warning", "Error", "error", "Alarm", "alarm"] →
        SMA.smaDeviceStatus c true = DeviceStatusOnline) := by
  refine ⟨?_, ?_, ?_, ?_, ?_, ?_, ?_, ?_, ?_, ?_, ?_, ?_, ?_, ?_, ?_⟩
  · intro c h
    simp only [List.mem_cons, List.mem_singleton, List.not_mem_nil, or_false, not_or] at h
    simp [Sungrow.sungrowDeviceStatus, h]
  · intro c h
    simp only [List.mem_cons, List.mem_singleton, List.not_mem_nil, or_false, not_or] at h
    simp [Huawei.huaweiAlarmSeverity, h]
  · intro c h
    simp only [List.mem_cons, List.mem_singleton, List.not_mem_nil, or_false, not_or] at h
    simp [Huawei.huaweiAlarmStatus, h]
  · intro c h
    simp only [List.mem_cons, List.mem_singleton, List.not_mem_nil, or_false, not_or] at h
    simp [SAJ.sajAlarmSeverity, h]
  · intro c h
    simp only [List.mem_cons, List.mem_singleton, List.not_mem_nil, or_false, not_or] at h
    simp [SAJ.sajAlarmStatus, h]
  · intro c h
    simp only [List.mem_cons, List.mem_singleton, List.not_mem_nil, or_false, not_or] at h
    simp [Sungrow.sungrowAlarmSeverity, h]
  · intro c h
    simp only [List.mem_cons, List.mem_singleton, List.not_mem_nil, or_false, not_or] at h
    simp [Sungrow.sungrowAlarmStatus, h]
  · intro c h
    simp only [List.mem_cons, List.mem_singleton, List.not_mem_nil, or_false, not_or] at h
    simp [SMA.smaLogSeverity, h]
  · intro c h
    simp only [List.mem_cons, List.mem_singleton, List.not_mem_nil, or_false, not_or] at h
    simp [SAJ.sajPlantType, h]
  · intro c h
    simp only [List.mem_cons, List.mem_singleton, List.not_mem_nil, or_false, not_or] at h
    simp [SAJ.sajGridConnectionType, h]
  · intro c h
    simp only [List.mem_cons, List.mem_singleton, List.not_mem_nil, or_false, not_or] at h
    simp [SAJ.sajOperatingMode, h]
  · intro c h
    simp only [List.mem_cons, List.mem_singleton, List.not_mem_nil, or_false, not_or] at h
    simp [SAJ.sajBatteryDirection, h]
  · intro c h
    simp only [List.mem_cons, List.mem_singleton, List.not_mem_nil, or_false, not_or] at h
    simp [SAJ.sajGridDirection, h]
  · intro c
    simp [SMA.smaDeviceStatus]
  · intro c h
    simp only [List.mem_cons, List.mem_singleton, List.not_mem_nil, or_false, not_or] at h
    simp [SMA.smaDeviceStatus, h]

/-- The SAJ alarm level 9 and the Sungrow device status 7 map to unknown, the
SMA status `Unrecognized` of an active device to online. -/
theorem enum_mappers_default_witness :
    SAJ.sajAlarmSeverity 9 = AlarmSeverityUnknown
    ∧ Sungrow.sungrowDeviceStatus 7 = DeviceStatusUnknown
    ∧ SMA.smaLogSeverity "debug" = AlarmSeverityUnknown
    ∧ SMA.smaDeviceStatus "Unrecognized" true = DeviceStatusOnline :=
  have h := enum_mappers_default
  ⟨h.2.2.2.1 9 (by decide), h.1 7 (by decide), h.2.2.2.2.2.2.2.1 "debug" (by decide),
    h.2.2.2.2.2.2.2.2.2.2.2.2.2.2 "Unrecognized" (by decide)⟩

/-! ## History points -/

/-- C20. At the granularity `minute`, the Sungrow history normalizer produces
from a point carrying `pac` and `e_day` a time-series point with both the
power field `PVPowerW` and the energy field `PVEnergyKWh` populated.  Also,
the SMA normalizer populates `PVPowerW` at the granularity `day`, and the
Huawei and SAJ normalizers populate `PVEnergyKWh` at the granularities
`minute` and `hour`. -/
theorem history_point_power_and_energy :
    (Sungrow.normalizeSungrowHistory libPlain sungrowHistoryPowerAndEnergy "d1"
        (historyRequestAt GranularityMinute)).DataPoints.map
        (fun dp => (dp.Granularity, dp.PVPowerW, dp.PVEnergyKWh))
      = [("minute", some 1500, some 3)]
    ∧ (SMA.normalizeSMAHistory smaHistoryPower "d1"
        (historyRequestAt GranularityDay)).DataPoints.map
        (fun dp => (dp.Granularity, dp.PVPowerW))
      = [("day", some 1500)]
    ∧ (Huawei.normalizeHuaweiHistory libPlain huaweiHistoryEnergy "d1"
        (historyRequestAt GranularityMinute)).DataPoints.map
        (fun dp => (dp.Granularity, dp.PVEnergyKWh))
      = [("minute", some 12)]
    ∧ (SAJ.normalizeSAJHistory libPlain sajHistoryEnergy "d1"
        (historyRequestAt GranularityHour)).DataPoints.map
        (fun dp => (dp.Granularity, dp.PVEnergyKWh))
      = [("hour", some 7)] := by
  refine ⟨by rfl, by rfl, by rfl, by rfl⟩

/-! ## `Close` -/

theorem foldl_close_calls (xs : List (Σ _ : String, Provider)) (calls : List Call) :
    xs.foldl
        (fun calls x =>
          match x.2.Close with
          | some _ => calls ++ [({ provider := x.1, ctx := none, method := Method.Close } : Call)]
          | none => calls ++ [{ provider := x.1, ctx := none, method := Method.Close }])
        calls
      = calls ++ xs.map fun x => { provider := x.1, ctx := none, method := Method.Close } := by
  induction xs generalizing calls with
  | nil => simp
  | cons x xs ih =>
    rw [List.foldl_cons, List.map_cons]
    cases x.2.Close <;> simp [ih]

/-- C22. Whatever the providers return from `Close`, `Engine.Close` returns a
nil error and calls `Close` once on every registered provider: its calls are
a rearrangement of one `Close` call per entry of the provider map. -/
theorem close_all_providers (e : Engine) (sched : Schedule (Σ _ : String, Provider)) :
    (e.Close sched).result = none
    ∧ (e.Close sched).calls.Perm
        (e.providers.entries.map fun x =>
          { provider := x.1, ctx := none, method := Method.Close })
    ∧ (∀ name : String, name ∈ e.providers.keys →
        (e.Close sched).calls.count { provider := name, ctx := none, method := Method.Close } = 1)
    ∧ (e.Close sched).calls.length = e.providers.entries.length := by
  have hcalls : (e.Close sched).calls
      = (sched.order e.providers.entries).map fun x =>
          ({ provider := x.1, ctx := none, method := Method.Close } : Call) := by
    simp [Engine.Close, foldl_close_calls]
  have hperm : (e.Close sched).calls.Perm
      (e.providers.entries.map fun x =>
        ({ provider := x.1, ctx := none, method := Method.Close } : Call)) := by
    rw [hcalls]
    exact List.Perm.map _ (sched.perm e.providers.entries)
  refine ⟨rfl, hperm, ?_, ?_⟩
  · intro name hname
    rw [hperm.count_eq]
    have hinj : Function.Injective
        (fun k : String => ({ provider := k, ctx := none, method := Method.Close } : Call)) := by
      intro a b hab
      exact congrArg Call.provider hab
    have hmap : (e.providers.entries.map fun x =>
        ({ provider := x.1, ctx := none, method := Method.Close } : Call))
        = e.providers.keys.map
            (fun k : String => ({ provider := k, ctx := none, method := Method.Close } : Call)) := by
      simp [AList.keys, List.keys, List.map_map, Function.comp_def]
    rw [hmap, List.count_map_of_injective _ _ hinj]
    exact List.count_eq_one_of_mem (AList.keys_nodup _) hname
  · rw [hperm.length_eq, List.length_map]

/-- With `sma` closing cleanly and `saj` failing to close, both are closed
once and the result is the nil error. -/
theorem close_all_providers_witness :
    (engineCloseFailing.Close (Schedule.fifo _)).result = none
    ∧ (engineCloseFailing.Close (Schedule.fifo _)).calls.count
        { provider := "sma", ctx := none, method := Method.Close } = 1
    ∧ (engineCloseFailing.Close (Schedule.fifo _)).calls
        = [{ provider := "saj", ctx := none, method := Method.Close },
           { provider := "sma", ctx := none, method := Method.Close }] :=
  have h := close_all_providers engineCloseFailing (Schedule.fifo _)
  ⟨h.1, h.2.2.1 "sma" (by decide), by decide⟩

/-! ## `GetAllDevices`: errors -/

/-- C28. `GetAllDevices` returns a non-nil error exactly when its
`GetAllPlants` call does; then it returns that error, no devices, and makes
no `GetDevices` call.  For a plant whose `Provider` field names no registered
provider the goroutine sends an error without calling anything, and the plant
contributes no devices. -/
theorem getAllDevices_error_iff (e : Engine) (sched : Schedule (Σ _ : String, Provider))
    (schedD : Schedule NormalizedPlant) (ctx : Context) :
    ((e.GetAllDevices sched schedD ctx).result.2 ≠ none
      ↔ (e.GetAllPlants sched ctx).result.2 ≠ none)
    ∧ (∀ err, (e.GetAllPlants sched ctx).result.2 = some err →
        (e.GetAllDevices sched schedD ctx).result = ([], some err)
        ∧ (e.GetAllDevices sched schedD ctx).calls.filter Call.isGetDevices = [])
    ∧ (∀ plant : NormalizedPlant, e.providers.lookup plant.Provider = none →
        (devicesWorker e ctx plant).result.devices = []
        ∧ (devicesWorker e ctx plant).result.err
            = some { msg := "provider " ++ plant.Provider ++ " not found" }
        ∧ (devicesWorker e ctx plant).calls = []
        ∧ devicesOfSuccessful e ctx [plant] = [])
    ∧ (∀ P, (e.GetAllPlants sched ctx).result = (P, none) →
        (e.GetAllDevices sched schedD ctx).result.1.Perm
          (devicesOfSuccessful e ctx
            (P.filter fun plant => (e.providers.lookup plant.Provider).isSome))) := by
  have hcalls : (e.GetAllPlants sched ctx).calls
      = (sched.order e.providers.entries).map fun x =>
          ({ provider := x.1, ctx := some ctx, method := Method.GetPlants } : Call) := rfl
  refine ⟨?_, ?_, ?_, ?_⟩
  · cases h : (e.GetAllPlants sched ctx).result.2 <;> simp [Engine.GetAllDevices, h]
  · intro err h
    simp [Engine.GetAllDevices, h, hcalls, filter_isGetDevices_getPlants_calls]
  · intro plant h
    simp [devicesWorker, devicesOfSuccessful, h]
  · intro P hP
    have h1 : (e.GetAllPlants sched ctx).result.1 = P := by rw [hP]
    have h2 : (e.GetAllPlants sched ctx).result.2 = none := by rw [hP]
    simp only [Engine.GetAllDevices, h1, h2, collectDevices_eq, List.nil_append]
    refine (List.Perm.flatMap_right _ (schedD.perm P)).trans ?_
    have hfilter : ∀ Q : List NormalizedPlant,
        devicesOfSuccessful e ctx (Q.filter fun plant => (e.providers.lookup plant.Provider).isSome)
          = devicesOfSuccessful e ctx Q := by
      intro Q
      induction Q with
      | nil => rfl
      | cons q Q ih =>
        have hc : ∀ R, devicesOfSuccessful e ctx (q :: R)
            = devicesOfSuccessful e ctx [q] ++ devicesOfSuccessful e ctx R := by
          intro R
          simp [devicesOfSuccessful]
        cases hl : e.providers.lookup q.Provider with
        | none =>
          rw [List.filter_cons_of_neg (by simp [hl]), ih, hc Q]
          simp [devicesOfSuccessful, hl]
        | some p =>
          rw [List.filter_cons_of_pos (by simp [hl]), hc, ih, ← hc]
    rw [hfilter P]
    exact List.Perm.refl _

/-- When the only provider fails, `GetAllDevices` returns that error and no
`GetDevices` call is made; the stray plant of `engineStray` contributes no
devices. -/
theorem getAllDevices_error_iff_witness :
    ((registerAll [Provider.failing "a"]).GetAllDevices (Schedule.fifo _) (Schedule.fifo _)
        ctxLive).result
      = ([], some { msg := "all providers failed: [a: unavailable]" })
    ∧ ((registerAll [Provider.failing "a"]).GetAllDevices (Schedule.fifo _) (Schedule.fifo _)
        ctxLive).calls.filter Call.isGetDevices = []
    ∧ (devicesWorker engineStray ctxLive (plantOf "b" "1")).result.err
        = some { msg := "provider b not found" }
    ∧ (engineStray.GetAllDevices (Schedule.fifo _) (Schedule.fifo _) ctxLive).result = ([], none) :=
  have h := getAllDevices_error_iff (registerAll [Provider.failing "a"]) (Schedule.fifo _)
    (Schedule.fifo _) ctxLive
  have h2 := h.2.1 { msg := "all providers failed: [a: unavailable]" } (by decide)
  ⟨h2.1, h2.2, by decide, by decide⟩

/-! ## `GetEnergyStats`: the date argument -/

/-- C30. The `date` argument of `Engine.GetEnergyStats` has no effect: for any
two dates the call makes the same provider calls and returns the same result
and error; with the provider registered, the one call is
`GetEnergyStats(plantID, Period(period))`. -/
theorem getEnergyStats_date_irrelevant (e : Engine) (quote : String → String) (ctx : Context)
    (providerName plantID period d1 d2 : String) :
    e.GetEnergyStats quote ctx providerName plantID period d1
      = e.GetEnergyStats quote ctx providerName plantID period d2
    ∧ (e.GetEnergyStats quote ctx providerName plantID period d1).result
      = (e.GetEnergyStats quote ctx providerName plantID period d2).result
    ∧ (e.GetEnergyStats quote ctx providerName plantID period d1).calls
      = (e.GetEnergyStats quote ctx providerName plantID period d2).calls
    ∧ (∀ p, e.providers.lookup providerName = some p →
        (e.GetEnergyStats quote ctx providerName plantID period d1).calls
          = [{ provider := providerName, ctx := some ctx,
               method := Method.GetEnergyStats plantID period }]
        ∧ (e.GetEnergyStats quote ctx providerName plantID period d1).result
          = p.GetEnergyStats ctx plantID period) := by
  refine ⟨rfl, rfl, rfl, ?_⟩
  intro p h
  simp [Engine.GetEnergyStats, Engine.GetProvider, h]

/-- For the provider `sma`, the energy query of plant `1` with two different
dates makes the same single call. -/
theorem getEnergyStats_date_irrelevant_witness :
    engineSma.GetEnergyStats quoteAscii ctxLive "sma" "1" "day" "2025-01-15"
      = engineSma.GetEnergyStats quoteAscii ctxLive "sma" "1" "day" "1999-12-31"
    ∧ (engineSma.GetEnergyStats quoteAscii ctxLive "sma" "1" "day" "2025-01-15").calls
      = [{ provider := "sma", ctx := some ctxLive, method := Method.GetEnergyStats "1" "day" }] :=
  have h := getEnergyStats_date_irrelevant engineSma quoteAscii ctxLive "sma" "1" "day"
    "2025-01-15" "1999-12-31"
  ⟨h.1, (h.2.2.2 providerSma rfl).1⟩

/-! ## History responses -/

/-- C27. Each of the four history normalizers maps the vendor entries one by
one, in vendor order, to the data points; `TotalPoints` is their number, which
is the number of vendor entries; the `DeviceID` of the response is the
adapter name, an underscore and `deviceID`; every data point carries that
`DeviceID` and the requested granularity. -/
theorem history_points_in_order (lib : GoLib) (deviceID : String) (req : HistoryRequest) :
    (∀ resp : SAJ.sajUploadDataResponse,
      (SAJ.normalizeSAJHistory lib resp deviceID req).DataPoints
        = resp.Data.map (SAJ.historyPoint lib (SAJ.providerName ++ "_" ++ deviceID) deviceID req)
      ∧ (SAJ.normalizeSAJHistory lib resp deviceID req).TotalPoints = resp.Data.length
      ∧ (SAJ.normalizeSAJHistory lib resp deviceID req).DataPoints.length = resp.Data.length
      ∧ (SAJ.normalizeSAJHistory lib resp deviceID req).DeviceID
          = SAJ.providerName ++ "_" ++ deviceID
      ∧ ∀ dp ∈ (SAJ.normalizeSAJHistory lib resp deviceID req).DataPoints,
          dp.DeviceID = SAJ.providerName ++ "_" ++ deviceID ∧ dp.Granularity = req.Granularity)
    ∧ (∀ resp : Sungrow.sungrowHistoryResponse,
      (Sungrow.normalizeSungrowHistory lib resp deviceID req).DataPoints
        = resp.DataList.map (fun point =>
            { DeviceID := Sungrow.providerName ++ "_" ++ deviceID
              Provider := Sungrow.providerName
              Granularity := req.Granularity
              Meta := { Provider := Sungrow.providerName, ProviderDeviceID := deviceID }
              PVPowerW := Sungrow.extractFlP lib point "pac"
              PVEnergyKWh := Sungrow.extractFlP lib point "e_day"
              GridPowerW := Sungrow.extractFlP lib point "meter_power" })
      ∧ (Sungrow.normalizeSungrowHistory lib resp deviceID req).TotalPoints = resp.DataList.length
      ∧ (Sungrow.normalizeSungrowHistory lib resp deviceID req).DataPoints.length
          = resp.DataList.length
      ∧ (Sungrow.normalizeSungrowHistory lib resp deviceID req).DeviceID
          = Sungrow.providerName ++ "_" ++ deviceID
      ∧ ∀ dp ∈ (Sungrow.normalizeSungrowHistory lib resp deviceID req).DataPoints,
          dp.DeviceID = Sungrow.providerName ++ "_" ++ deviceID
            ∧ dp.Granularity = req.Granularity)
    ∧ (∀ resp : SMA.smaMeasurementSetResponse,
      (SMA.normalizeSMAHistory resp deviceID req).DataPoints
        = resp.Sets.map (fun entry =>
            { DeviceID := SMA.providerName ++ "_" ++ deviceID
              Provider := SMA.providerName
              Granularity := req.Granularity
              Meta := { Provider := SMA.providerName, ProviderDeviceID := deviceID }
              PVPowerW := SMA.value entry "PowerActive"
              GridPhases := SMA.historyPhases entry })
      ∧ (SMA.normalizeSMAHistory resp deviceID req).TotalPoints = resp.Sets.length
      ∧ (SMA.normalizeSMAHistory resp deviceID req).DataPoints.length = resp.Sets.length
      ∧ (SMA.normalizeSMAHistory resp deviceID req).DeviceID = SMA.providerName ++ "_" ++ deviceID
      ∧ ∀ dp ∈ (SMA.normalizeSMAHistory resp deviceID req).DataPoints,
          dp.DeviceID = SMA.providerName ++ "_" ++ deviceID ∧ dp.Granularity = req.Granularity)
    ∧ (∀ resp : Huawei.huaweiKpiHistoryResponse,
      (Huawei.normalizeHuaweiHistory lib resp deviceID req).DataPoints
        = resp.Data.map (fun entry =>
            { DeviceID := Huawei.providerName ++ "_" ++ deviceID
              Provider := Huawei.providerName
              Granularity := req.Granularity
              Meta := { Provider := Huawei.providerName }
              PVEnergyKWh := Huawei.extractFloatP lib entry.DataItemMap "inverter_power"
              GridExportEnergyKWh := Huawei.extractFloatP lib entry.DataItemMap "ongrid_power"
              LoadEnergyKWh := Huawei.extractFloatP lib entry.DataItemMap "use_power" })
      ∧ (Huawei.normalizeHuaweiHistory lib resp deviceID req).TotalPoints = resp.Data.length
      ∧ (Huawei.normalizeHuaweiHistory lib resp deviceID req).DataPoints.length
          = resp.Data.length
      ∧ (Huawei.normalizeHuaweiHistory lib resp deviceID req).DeviceID
          = Huawei.providerName ++ "_" ++ deviceID
      ∧ ∀ dp ∈ (Huawei.normalizeHuaweiHistory lib resp deviceID req).DataPoints,
          dp.DeviceID = Huawei.providerName ++ "_" ++ deviceID
            ∧ dp.Granularity = req.Granularity) := by
  refine ⟨?_, ?_, ?_, ?_⟩
  · intro resp
    have hdp : (SAJ.normalizeSAJHistory lib resp deviceID req).DataPoints
        = resp.Data.map
            (SAJ.historyPoint lib (SAJ.providerName ++ "_" ++ deviceID) deviceID req) := by
      simp only [SAJ.normalizeSAJHistory, foldl_append_singleton_eq_map, List.nil_append]
    have htp : (SAJ.normalizeSAJHistory lib resp deviceID req).TotalPoints
        = ((SAJ.normalizeSAJHistory lib resp deviceID req).DataPoints.length : Int) := rfl
    refine ⟨hdp, ?_, ?_, rfl, ?_⟩
    · rw [htp, hdp, List.length_map]
    · rw [hdp, List.length_map]
    · intro dp hmem
      rw [hdp, List.mem_map] at hmem
      obtain ⟨point, _, rfl⟩ := hmem
      simp only [SAJ.historyPoint]
      split <;> exact ⟨rfl, rfl⟩
  · intro resp
    have hdp : (Sungrow.normalizeSungrowHistory lib resp deviceID req).DataPoints
        = resp.DataList.map (fun point =>
            ({ DeviceID := Sungrow.providerName ++ "_" ++ deviceID
               Provider := Sungrow.providerName
               Granularity := req.Granularity
               Meta := { Provider := Sungrow.providerName, ProviderDeviceID := deviceID }
               PVPowerW := Sungrow.extractFlP lib point "pac"
               PVEnergyKWh := Sungrow.extractFlP lib point "e_day"
               GridPowerW := Sungrow.extractFlP lib point "meter_power" }
              : NormalizedTimeSeries)) := by
      simp only [Sungrow.normalizeSungrowHistory, foldl_append_singleton_eq_map, List.nil_append]
    have htp : (Sungrow.normalizeSungrowHistory lib resp deviceID req).TotalPoints
        = ((Sungrow.normalizeSungrowHistory lib resp deviceID req).DataPoints.length : Int) := rfl
    refine ⟨hdp, ?_, ?_, rfl, ?_⟩
    · rw [htp, hdp, List.length_map]
    · rw [hdp, List.length_map]
    · intro dp hmem
      rw [hdp, List.mem_map] at hmem
      obtain ⟨point, _, rfl⟩ := hmem
      exact ⟨rfl, rfl⟩
  · intro resp
    have hdp : (SMA.normalizeSMAHistory resp deviceID req).DataPoints
        = resp.Sets.map (fun entry =>
            ({ DeviceID := SMA.providerName ++ "_" ++ deviceID
               Provider := SMA.providerName
               Granularity := req.Granularity
               Meta := { Provider := SMA.providerName, ProviderDeviceID := deviceID }
               PVPowerW := SMA.value entry "PowerActive"
               GridPhases := SMA.historyPhases entry } : NormalizedTimeSeries)) := by
      simp only [SMA.normalizeSMAHistory, foldl_append_singleton_eq_map, List.nil_append]
    have htp : (SMA.normalizeSMAHistory resp deviceID req).TotalPoints
        = ((SMA.normalizeSMAHistory resp deviceID req).DataPoints.length : Int) := rfl
    refine ⟨hdp, ?_, ?_, rfl, ?_⟩
    · rw [htp, hdp, List.length_map]
    · rw [hdp, List.length_map]
    · intro dp hmem
      rw [hdp, List.mem_map] at hmem
      obtain ⟨entry, _, rfl⟩ := hmem
      exact ⟨rfl, rfl⟩
  · intro resp
    have hdp : (Huawei.normalizeHuaweiHistory lib resp deviceID req).DataPoints
        = resp.Data.map (fun entry =>
            ({ DeviceID := Huawei.providerName ++ "_" ++ deviceID
               Provider := Huawei.providerName
               Granularity := req.Granularity
               Meta := { Provider := Huawei.providerName }
               PVEnergyKWh := Huawei.extractFloatP lib entry.DataItemMap "inverter_power"
               GridExportEnergyKWh := Huawei.extractFloatP lib entry.DataItemMap "ongrid_power"
               LoadEnergyKWh := Huawei.extractFloatP lib entry.DataItemMap "use_power" }
              : NormalizedTimeSeries)) := by
      simp only [Huawei.normalizeHuaweiHistory, foldl_append_singleton_eq_map, List.nil_append]
    have htp : (Huawei.normalizeHuaweiHistory lib resp deviceID req).TotalPoints
        = ((Huawei.normalizeHuaweiHistory lib resp deviceID req).DataPoints.length : Int) := rfl
    refine ⟨hdp, ?_, ?_, rfl, ?_⟩
    · rw [htp, hdp, List.length_map]
    · rw [hdp, List.length_map]
    · intro dp hmem
      rw [hdp, List.mem_map] at hmem
      obtain ⟨entry, _, rfl⟩ := hmem
      exact ⟨rfl, rfl⟩

/-- The Sungrow response of one point gives one data point for `sungrow_d1`
at the requested granularity. -/
theorem history_points_in_order_witness :
    (Sungrow.normalizeSungrowHistory libPlain sungrowHistoryPowerAndEnergy "d1"
        (historyRequestAt GranularityDay)).TotalPoints = 1
    ∧ (Sungrow.normalizeSungrowHistory libPlain sungrowHistoryPowerAndEnergy "d1"
        (historyRequestAt GranularityDay)).DeviceID = "sungrow_d1"
    ∧ (Sungrow.normalizeSungrowHistory libPlain sungrowHistoryPowerAndEnergy "d1"
        (historyRequestAt GranularityDay)).DataPoints.map
          (fun dp => (dp.DeviceID, dp.Granularity))
        = [("sungrow_d1", "day")] :=
  have h := (history_points_in_order libPlain "d1" (historyRequestAt GranularityDay)).2.1
    sungrowHistoryPowerAndEnergy
  ⟨h.2.1, h.2.2.2.1, by rfl⟩

/-! ## Provenance -/

/-- C21. The time-series point that `normalizeHuaweiHistory` produces for the
device `d1` has the composite `DeviceID` `huawei_d1` and `Meta.Provider`
`huawei`, but an empty `Meta.ProviderDeviceID` (and an empty
`Meta.ProviderPlantID`): its metadata holds no vendor-native identifier.  The
SMA history normalizer stores `d1` in `Meta.ProviderDeviceID`. -/
theorem huawei_history_point_without_native_id :
    (Huawei.normalizeHuaweiHistory libPlain huaweiHistoryEnergy "d1"
        (historyRequestAt GranularityDay)).DataPoints.map
        (fun dp => (dp.DeviceID, dp.Meta.Provider, dp.Meta.ProviderDeviceID,
          dp.Meta.ProviderPlantID))
      = [("huawei_d1", "huawei", "", "")]
    ∧ (SMA.normalizeSMAHistory smaHistoryPower "d1"
        (historyRequestAt GranularityDay)).DataPoints.map
        (fun dp => (dp.DeviceID, dp.Meta.Provider, dp.Meta.ProviderDeviceID))
      = [("sma_d1", "sma", "d1")] := by
  refine ⟨by rfl, by rfl⟩

/-! ## SMA alarms -/

theorem appendLogAlarms_eq (alarms : List NormalizedAlarm) (logs : List SMA.smaLogEntry)
    (deviceID : String) :
    SMA.appendLogAlarms alarms logs deviceID
      = alarms ++ (logs.filter fun entry =>
          decide (entry.Severity = "alarm" ∨ entry.Severity = "error"
            ∨ entry.Severity = "warning")).map
          fun entry => SMA.normalizeSMALogEntry entry deviceID := by
  induction logs generalizing alarms with
  | nil => simp [SMA.appendLogAlarms]
  | cons entry logs ih =>
    have hstep : SMA.appendLogAlarms alarms (entry :: logs) deviceID
        = SMA.appendLogAlarms
            (if entry.Severity = "alarm" ∨ entry.Severity = "error"
                ∨ entry.Severity = "warning" then
              alarms ++ [SMA.normalizeSMALogEntry entry deviceID]
            else alarms) logs deviceID := rfl
    rw [hstep, ih]
    by_cases h : entry.Severity = "alarm" ∨ entry.Severity = "error"
        ∨ entry.Severity = "warning"
    · rw [if_pos h, List.filter_cons_of_pos (by simpa using h)]
      simp
    · rw [if_neg h, List.filter_cons_of_neg (by simpa using h)]

theorem appendLogAlarms_severity (alarms : List NormalizedAlarm) (logs : List SMA.smaLogEntry)
    (deviceID : String)
    (h : ∀ a ∈ alarms, (a.Severity = AlarmSeverityCritical ∨ a.Severity = AlarmSeverityWarning)
      ∧ a.Status = AlarmStatusActive) :
    ∀ a ∈ SMA.appendLogAlarms alarms logs deviceID,
      (a.Severity = AlarmSeverityCritical ∨ a.Severity = AlarmSeverityWarning)
        ∧ a.Status = AlarmStatusActive := by
  intro a ha
  rw [appendLogAlarms_eq, List.mem_append] at ha
  rcases ha with ha | ha
  · exact h a ha
  · rw [List.mem_map] at ha
    obtain ⟨entry, hentry, rfl⟩ := ha
    have hsev := (List.mem_filter.mp hentry).2
    simp only [decide_eq_true_eq] at hsev
    refine ⟨?_, rfl⟩
    rcases hsev with hs | hs | hs <;> simp [SMA.normalizeSMALogEntry, SMA.smaLogSeverity, hs]

/-- C29. When the log request succeeded, `SMAProvider.GetAlarms` returns the
normalized log entries whose vendor severity is `alarm`, `error` or
`warning`, in vendor order.  Every alarm returned by `GetAlarms` and by
`GetAllAlarms` has severity critical or warning, which are neither info nor
unknown, and status active. -/
theorem sma_alarms_filtered :
    (∀ (resp : SMA.smaLogResponse) (deviceID : String),
      SMA.GetAlarms none resp deviceID
        = ((resp.Logs.filter fun entry =>
              decide (entry.Severity = "alarm" ∨ entry.Severity = "error"
                ∨ entry.Severity = "warning")).map
            (fun entry => SMA.normalizeSMALogEntry entry deviceID), none))
    ∧ (∀ httpErr resp deviceID, ∀ a ∈ (SMA.GetAlarms httpErr resp deviceID).1,
        (a.Severity = AlarmSeverityCritical ∨ a.Severity = AlarmSeverityWarning)
          ∧ a.Status = AlarmStatusActive)
    ∧ (∀ plantsErr plantsResp logs, ∀ a ∈ (SMA.GetAllAlarms plantsErr plantsResp logs).1,
        (a.Severity = AlarmSeverityCritical ∨ a.Severity = AlarmSeverityWarning)
          ∧ a.Status = AlarmStatusActive)
    ∧ AlarmSeverityCritical ≠ AlarmSeverityInfo ∧ AlarmSeverityCritical ≠ AlarmSeverityUnknown
    ∧ AlarmSeverityWarning ≠ AlarmSeverityInfo ∧ AlarmSeverityWarning ≠ AlarmSeverityUnknown := by
  refine ⟨?_, ?_, ?_, by decide, by decide, by decide, by decide⟩
  · intro resp deviceID
    simp [SMA.GetAlarms, appendLogAlarms_eq]
  · intro httpErr resp deviceID a ha
    cases httpErr with
    | some err => simp [SMA.GetAlarms] at ha
    | none =>
      exact appendLogAlarms_severity [] resp.Logs deviceID
        (fun b hb => absurd hb (List.not_mem_nil b)) a ha
  · intro plantsErr plantsResp logs a ha
    cases hp : SMA.GetPlants plantsErr plantsResp with
    | mk plants perr =>
      cases perr with
      | some err => simp [SMA.GetAllAlarms, hp] at ha
      | none =>
        simp only [SMA.GetAllAlarms, hp] at ha
        have hfold : ∀ (ps : List NormalizedPlant) (acc : List NormalizedAlarm),
            (∀ b ∈ acc, (b.Severity = AlarmSeverityCritical ∨ b.Severity = AlarmSeverityWarning)
              ∧ b.Status = AlarmStatusActive) →
            ∀ b ∈ ps.foldl
                (fun allAlarms plant =>
                  match logs plant.Meta.ProviderPlantID with
                  | (some _, _) => allAlarms
                  | (none, resp) => SMA.appendLogAlarms allAlarms resp.Logs "")
                acc,
              (b.Severity = AlarmSeverityCritical ∨ b.Severity = AlarmSeverityWarning)
                ∧ b.Status = AlarmStatusActive := by
          intro ps
          induction ps with
          | nil => intro acc hacc b hb; exact hacc b hb
          | cons q qs ih =>
            intro acc hacc
            rw [List.foldl_cons]
            apply ih
            cases hq : logs q.Meta.ProviderPlantID with
            | mk lerr lresp =>
              cases lerr with
              | some err => simpa using hacc
              | none => exact appendLogAlarms_severity acc lresp.Logs "" hacc
        exact hfold plants [] (fun b hb => absurd hb (List.not_mem_nil b)) a ha

/-- Of the five log entries with severities info, alarm, warning, debug and
error, `GetAlarms` returns the second, third and fifth, as critical, warning
and critical. -/
theorem sma_alarms_filtered_witness :
    (SMA.GetAlarms none smaLogsMixed "d1").1.map (fun a => (a.Code, a.Severity, a.Status))
      = [("2", "critical", "active"), ("3", "warning", "active"), ("5", "critical", "active")]
    ∧ SMA.GetAlarms none smaLogsMixed "d1"
        = ((smaLogsMixed.Logs.filter fun entry =>
              decide (entry.Severity = "alarm" ∨ entry.Severity = "error"
                ∨ entry.Severity = "warning")).map
            (fun entry => SMA.normalizeSMALogEntry entry "d1"), none) :=
  ⟨by decide, sma_alarms_filtered.1 smaLogsMixed "d1"⟩

/-! ## Huawei plant list pagination -/

theorem wrapInt_eq (x : Int) (h1 : -(2 ^ 63) ≤ x) (h2 : x < 2 ^ 63) : wrapInt x = x := by
  unfold wrapInt
  norm_num at h1 h2 ⊢
  omega

theorem lastPage_pos (T : Int) : 1 ≤ Huawei.lastPage T := by
  unfold Huawei.lastPage
  omega

theorem lastPage_reaches (T : Int) : T ≤ (Huawei.lastPage T : Int) * 20 := by
  unfold Huawei.lastPage
  omega

theorem lastPage_least (T : Int) (k : Nat) (h1 : 1 ≤ k) (h : k < Huawei.lastPage T) :
    (k : Int) * 20 < T := by
  unfold Huawei.lastPage at h
  omega

theorem lastPage_bound (T : Int) (hT : T ≤ 2 ^ 63 - 20) :
    (Huawei.lastPage T : Int) * 20 < 2 ^ 63 - 1 := by
  unfold Huawei.lastPage
  norm_num at hT ⊢
  omega

theorem lastPage_eq_ceil (T : Int) : (Huawei.lastPage T : Int) = max 1 ⌈(T : ℚ) / 20⌉ := by
  have hc : ⌈(T : ℚ) / 20⌉ = (T + 19) / 20 := by
    rw [Int.ceil_eq_iff]
    have h20 : (0 : ℚ) < 20 := by norm_num
    constructor
    · rw [lt_div_iff₀ h20]
      have : ((T + 19) / 20 - 1) * 20 < T := by omega
      exact_mod_cast this
    · rw [div_le_iff₀ h20]
      have : T ≤ (T + 19) / 20 * 20 := by omega
      exact_mod_cast this
  rw [hc]
  unfold Huawei.lastPage
  omega

theorem stationsOfPages_succ (endpoint : Int → Option GoError × Huawei.huaweiStationListResponse)
    (k m : Nat) :
    Huawei.stationsOfPages endpoint k (m + 1)
      = (endpoint (k : Int)).2.Stations.map Huawei.normalizeHuaweiStation
          ++ Huawei.stationsOfPages endpoint (k + 1) m := by
  simp [Huawei.stationsOfPages, List.range'_succ]

theorem pageNumbers_succ (k m : Nat) :
    Huawei.pageNumbers k (m + 1) = (k : Int) :: Huawei.pageNumbers (k + 1) m := by
  simp [Huawei.pageNumbers, List.range'_succ]

theorem getPlantsLoop_all_ok (endpoint : Int → Option GoError × Huawei.huaweiStationListResponse)
    (T : Int) (hT : T ≤ 2 ^ 63 - 20)
    (hok : ∀ page : Nat, 1 ≤ page → page ≤ Huawei.lastPage T →
      (endpoint (page : Int)).1 = none ∧ (endpoint (page : Int)).2.Success = true
        ∧ (endpoint (page : Int)).2.Total = T) :
    ∀ (m k : Nat), 1 ≤ k → k + m = Huawei.lastPage T → ∀ fuel, m + 1 ≤ fuel →
      ∀ (acc : List NormalizedPlant) (pages : List Int),
        Huawei.GetPlantsLoop endpoint fuel (k : Int) acc pages
          = some ((acc ++ Huawei.stationsOfPages endpoint k (m + 1), none),
                  pages ++ Huawei.pageNumbers k (m + 1)) := by
  have hb := lastPage_bound T hT
  intro m
  induction m with
  | zero =>
    intro k hk hkm fuel hfuel acc pages
    obtain ⟨f, rfl⟩ : ∃ f, fuel = f + 1 := ⟨fuel - 1, by omega⟩
    obtain ⟨h1, h2, h3⟩ := hok k hk (by omega)
    have hreach := lastPage_reaches T
    have hkn : k = Huawei.lastPage T := by omega
    have hw : wrapInt ((k : Int) * 20) = (k : Int) * 20 := by
      apply wrapInt_eq
      · have : (0 : Int) ≤ (k : Int) * 20 := by positivity
        norm_num
        omega
      · rw [hkn]; norm_num at hb ⊢; omega
    have hge : (k : Int) * 20 ≥ T := by rw [hkn]; exact hreach
    simp [Huawei.GetPlantsLoop, h1, h2, h3, hw, hge, foldl_append_singleton_eq_map,
      stationsOfPages_succ, pageNumbers_succ, Huawei.stationsOfPages, Huawei.pageNumbers]
  | succ m ih =>
    intro k hk hkm fuel hfuel acc pages
    obtain ⟨f, rfl⟩ : ∃ f, fuel = f + 1 := ⟨fuel - 1, by omega⟩
    obtain ⟨h1, h2, h3⟩ := hok k hk (by omega)
    have hlt : (k : Int) * 20 < T := lastPage_least T k hk (by omega)
    have hkle : (k : Int) + 1 ≤ (Huawei.lastPage T : Int) := by omega
    have hw : wrapInt ((k : Int) * 20) = (k : Int) * 20 := by
      apply wrapInt_eq
      · norm_num; omega
      · norm_num at hb ⊢; omega
    have hw1 : wrapInt ((k : Int) + 1) = ((k + 1 : Nat) : Int) := by
      rw [wrapInt_eq]
      · push_cast; rfl
      · norm_num; omega
      · norm_num at hb ⊢; omega
    have hnot : ¬ (k : Int) * 20 ≥ T := by omega
    have hrec := ih (k + 1) (by omega) (by omega) f (by omega)
      (acc ++ (endpoint (k : Int)).2.Stations.map Huawei.normalizeHuaweiStation)
      (pages ++ [(k : Int)])
    rw [Huawei.GetPlantsLoop]
    simp only [h1, h2, h3, hw, hw1, hnot, foldl_append_singleton_eq_map, Bool.not_true,
      Bool.false_eq_true, if_false]
    rw [hrec, stationsOfPages_succ endpoint k (m + 1), pageNumbers_succ k (m + 1)]
    simp

theorem getPlantsLoop_failure (endpoint : Int → Option GoError × Huawei.huaweiStationListResponse) :
    ∀ (m k : Nat), 1 ≤ k → ((k + m : Nat) : Int) * 20 < 2 ^ 63 →
      (∀ j : Nat, k ≤ j → j < k + m →
        (endpoint (j : Int)).1 = none ∧ (endpoint (j : Int)).2.Success = true
          ∧ (j : Int) * 20 < (endpoint (j : Int)).2.Total) →
      ((endpoint ((k + m : Nat) : Int)).1.isSome = true
        ∨ (endpoint ((k + m : Nat) : Int)).2.Success = false) →
      ∀ fuel, m + 1 ≤ fuel → ∀ (acc : List NormalizedPlant) (pages : List Int),
        ∃ err, Huawei.GetPlantsLoop endpoint fuel (k : Int) acc pages
          = some (([], some err), pages ++ Huawei.pageNumbers k (m + 1)) := by
  intro m
  induction m with
  | zero =>
    intro k _ _ _ hfail fuel hfuel acc pages
    obtain ⟨f, rfl⟩ : ∃ f, fuel = f + 1 := ⟨fuel - 1, by omega⟩
    rw [Huawei.GetPlantsLoop]
    simp only [Nat.add_zero] at hfail
    cases h1 : (endpoint (k : Int)).1 with
    | some err =>
      exact ⟨{ msg := "Huawei GetPlants: " ++ err.msg }, by simp [Huawei.pageNumbers]⟩
    | none =>
      have h2 : (endpoint (k : Int)).2.Success = false := by
        rcases hfail with h | h
        · rw [h1] at h; simp at h
        · exact h
      exact ⟨{ msg := "Huawei GetPlants failed: " ++ itoa (endpoint (k : Int)).2.FailCode ++ " "
                      ++ (endpoint (k : Int)).2.Message },
        by simp [h2, Huawei.pageNumbers]⟩
  | succ m ih =>
    intro k hk hb hok hfail fuel hfuel acc pages
    obtain ⟨f, rfl⟩ : ∃ f, fuel = f + 1 := ⟨fuel - 1, by omega⟩
    obtain ⟨h1, h2, h3⟩ := hok k (le_refl k) (by omega)
    have hw : wrapInt ((k : Int) * 20) = (k : Int) * 20 := by
      apply wrapInt_eq
      · norm_num; omega
      · push_cast at hb; norm_num at hb ⊢; omega
    have hw1 : wrapInt ((k : Int) + 1) = ((k + 1 : Nat) : Int) := by
      rw [wrapInt_eq]
      · push_cast; rfl
      · norm_num; omega
      · push_cast at hb; norm_num at hb ⊢; omega
    have hnot : ¬ (k : Int) * 20 ≥ (endpoint (k : Int)).2.Total := by omega
    have hkm : k + 1 + m = k + (m + 1) := by omega
    obtain ⟨err, hrec⟩ := ih (k + 1) (by omega) (by rw [hkm]; exact hb)
      (fun j hj1 hj2 => hok j (by omega) (by omega)) (by rw [hkm]; exact hfail) f (by omega)
      (acc ++ (endpoint (k : Int)).2.Stations.map Huawei.normalizeHuaweiStation)
      (pages ++ [(k : Int)])
    refine ⟨err, ?_⟩
    rw [Huawei.GetPlantsLoop]
    simp only [h1, h2, hw, hw1, hnot, foldl_append_singleton_eq_map, Bool.not_true,
      Bool.false_eq_true, if_false]
    rw [hrec, pageNumbers_succ k (m + 1)]
    simp

/-- C26 fails as stated: a failing page that is never requested has no
effect; when page 1 succeeds and announces a total of 1, `GetPlants` returns
the station of page 1 without an error although page 2 cannot be fetched.
And in 64-bit `int` arithmetic a total of `2^63 - 1` is never reached by
`pageNo*20`: from the last page `⌈(2^63 - 1)/20⌉` on the loop goes on
requesting pages. -/
theorem huawei_getPlants_unrequested_page_fails :
    (huaweiOnePageThenFailure 2).1 = some { msg := "timeout" }
    ∧ Huawei.GetPlants huaweiOnePageThenFailure 5
        = some (([Huawei.normalizeHuaweiStation { StationCode := "S1" }], none), [1])
    ∧ Huawei.lastPage 9223372036854775807 = 461168601842738791
    ∧ Huawei.GetPlantsLoop huaweiTotalMaxInt 3 461168601842738791 [] [] = none := by
  refine ⟨rfl, rfl, by decide, ?_⟩
  simp [Huawei.GetPlantsLoop, huaweiTotalMaxInt, wrapInt]

/-- C26, amended. With the station-list endpoint a function of the page
number: the last page `lastPage T` is `max 1 ⌈T/20⌉`; if `T ≤ 2^63 - 20` and
every page from 1 to the last one succeeds and reports the total `T`, then
with fuel for that many requests `GetPlants` ends, has requested exactly the
pages `1, ..., lastPage T` in increasing order, and returns the normalized
stations of those pages concatenated in page order, with a nil error; and
if the pages before page `f` succeed, each announcing more stations than
twenty times its number, and page `f` fails or reports `success = false`,
then `GetPlants` requests the pages `1, ..., f` and returns an error and no
plants. -/
theorem huawei_getPlants_pagination
    (endpoint : Int → Option GoError × Huawei.huaweiStationListResponse) :
    (∀ T : Int, (Huawei.lastPage T : Int) = max 1 ⌈(T : ℚ) / 20⌉)
    ∧ (∀ T : Int, T ≤ 2 ^ 63 - 20 →
        (∀ page : Nat, 1 ≤ page → page ≤ Huawei.lastPage T →
          (endpoint (page : Int)).1 = none ∧ (endpoint (page : Int)).2.Success = true
            ∧ (endpoint (page : Int)).2.Total = T) →
        ∀ fuel, Huawei.lastPage T ≤ fuel →
          Huawei.GetPlants endpoint fuel
            = some ((Huawei.stationsOfPages endpoint 1 (Huawei.lastPage T), none),
                    Huawei.pageNumbers 1 (Huawei.lastPage T)))
    ∧ (∀ f : Nat, 1 ≤ f → (f : Int) * 20 < 2 ^ 63 →
        (∀ j : Nat, 1 ≤ j → j < f →
          (endpoint (j : Int)).1 = none ∧ (endpoint (j : Int)).2.Success = true
            ∧ (j : Int) * 20 < (endpoint (j : Int)).2.Total) →
        ((endpoint (f : Int)).1.isSome = true ∨ (endpoint (f : Int)).2.Success = false) →
        ∀ fuel, f ≤ fuel →
          ∃ err, Huawei.GetPlants endpoint fuel = some (([], some err), Huawei.pageNumbers 1 f)) := by
  refine ⟨lastPage_eq_ceil, ?_, ?_⟩
  · intro T hT hok fuel hfuel
    have hpos := lastPage_pos T
    obtain ⟨m, hm⟩ : ∃ m, Huawei.lastPage T = m + 1 := ⟨Huawei.lastPage T - 1, by omega⟩
    have h := getPlantsLoop_all_ok endpoint T hT hok m 1 (le_refl 1) (by omega) fuel (by omega)
      [] []
    rw [hm]
    simpa [Huawei.GetPlants] using h
  · intro f hf hb hok hfail fuel hfuel
    obtain ⟨m, hm⟩ : ∃ m, f = 1 + m := ⟨f - 1, by omega⟩
    subst hm
    obtain ⟨err, h⟩ := getPlantsLoop_failure endpoint m 1 (le_refl 1) hb
      (fun j hj1 hj2 => hok j hj1 hj2) hfail fuel (by omega) [] []
    refine ⟨err, ?_⟩
    have hm1 : 1 + m = m + 1 := by omega
    rw [hm1]
    simpa [Huawei.GetPlants] using h

theorem huawei_getPlants_pagination_witness :
    Huawei.GetPlants huaweiTwoPages 2
        = some ((Huawei.stationsOfPages huaweiTwoPages 1 (Huawei.lastPage 25), none),
                Huawei.pageNumbers 1 (Huawei.lastPage 25))
    ∧ Huawei.pageNumbers 1 (Huawei.lastPage 25) = [1, 2]
    ∧ ∃ err, Huawei.GetPlants huaweiThirdPageRefused 3
        = some (([], some err), Huawei.pageNumbers 1 3) :=
  ⟨(huawei_getPlants_pagination huaweiTwoPages).2.1 25 (by norm_num)
      (fun _ _ _ => ⟨rfl, rfl, rfl⟩) 2 (by decide),
    by decide,
    (huawei_getPlants_pagination huaweiThirdPageRefused).2.2 3 (by decide) (by norm_num)
      (fun j hj1 hj2 => by
        have hj : j = 1 ∨ j = 2 := by omega
        rcases hj with rfl | rfl
        · exact ⟨rfl, rfl, by decide⟩
        · exact ⟨rfl, rfl, by decide⟩)
      (Or.inr rfl) 3 (by decide)⟩

/-! ## Adapter initialization -/

theorem sma_initialize_requires_bearerToken (p : SMA.SMAProvider) (cfg : ProviderConfig)
    (h : cfg.GetCredential "bearerToken" = "") :
    (SMA.Initialize p cfg).2 = some { msg := "SMA provider requires 'bearerToken' credential" }
    ∧ SMA.Healthy (SMA.Initialize p cfg).1 = false := by
  simp [SMA.Initialize, SMA.Healthy, h]

/-- C24. With a configuration that holds no credential at all, and a vendor
login endpoint that answers with success, `Initialize` of the Huawei, SAJ
and Sungrow adapters returns a nil error and the provider then reports
`Healthy = true`: these three adapters never test whether their credentials
are present.  The SMA adapter does: on the same configuration it returns the
error `SMA provider requires 'bearerToken' credential` and stays unhealthy. -/
theorem initialize_without_credentials_succeeds :
    configNoCredentials.GetCredential "username" = ""
    ∧ configNoCredentials.GetCredential "systemCode" = ""
    ∧ (Huawei.Initialize {} configNoCredentials none { Success := true }).2 = none
    ∧ Huawei.Healthy (Huawei.Initialize {} configNoCredentials none { Success := true }).1 = true
    ∧ (SAJ.Initialize {} configNoCredentials 0 none
          { Code := 200, AccessToken := "t", Expires := 3600 }).2 = none
    ∧ SAJ.Healthy (SAJ.Initialize {} configNoCredentials 0 none
          { Code := 200, AccessToken := "t", Expires := 3600 }).1 1 = true
    ∧ (Sungrow.Initialize {} configNoCredentials none { ResultCode := "1", Token := "t" }).2 = none
    ∧ Sungrow.Healthy
          (Sungrow.Initialize {} configNoCredentials none { ResultCode := "1", Token := "t" }).1
        = true
    ∧ (SMA.Initialize {} configNoCredentials).2
        = some { msg := "SMA provider requires 'bearerToken' credential" }
    ∧ SMA.Healthy (SMA.Initialize {} configNoCredentials).1 = false := by
  refine ⟨rfl, rfl, rfl, ?_, rfl, ?_, rfl, ?_, rfl, ?_⟩ <;> decide

/-! ## Fan-out and the context -/

theorem perm_cons_eraseIdx {α : Type} :
    ∀ (l : List α) (k : Nat) (x : α), l.get? k = some x → (x :: l.eraseIdx k).Perm l
  | [], k, x, h => by simp at h
  | a :: l, 0, x, h => by
    simp at h
    subst h
    simp
  | a :: l, k + 1, x, h => by
    rw [List.get?_cons_succ] at h
    have ih := perm_cons_eraseIdx l k x h
    simp only [List.eraseIdx_cons_succ]
    exact (List.Perm.swap a x _).trans (ih.cons a)

theorem fanOut_step_inv {α : Type} (s t : FanOut α) (ev : FanOutEvent)
    (h : s.step ev = some t) :
    t.n = s.n
    ∧ (t.running ++ t.ch ++ t.received).Perm (s.running ++ s.ch ++ s.received)
    ∧ t.i + s.received.length = s.i + t.received.length
    ∧ t.running.length + ([ev].filter FanOutEvent.isDeliver).length = s.running.length := by
  cases ev with
  | deliver k =>
    simp only [FanOut.step] at h
    cases hk : s.running.get? k with
    | none => rw [hk] at h; simp at h
    | some x =>
      rw [hk] at h
      simp only [Option.some.injEq] at h
      subst h
      have hp := perm_cons_eraseIdx s.running k x hk
      refine ⟨rfl, ?_, rfl, ?_⟩
      · have h1 : (s.running.eraseIdx k ++ (s.ch ++ [x])).Perm (s.running ++ s.ch) := by
          have h2 : (s.running.eraseIdx k ++ (s.ch ++ [x])).Perm
              (x :: s.running.eraseIdx k ++ s.ch) := by
            rw [← List.append_assoc]
            exact (List.perm_append_comm).trans (by
              simp only [List.singleton_append, List.cons_append]
              exact List.Perm.refl _)
          exact h2.trans (hp.append_right s.ch)
        exact h1.append_right s.received
      · have := hp.length_eq
        simp [FanOutEvent.isDeliver] at this ⊢
        omega
  | receive =>
    simp only [FanOut.step] at h
    split at h
    · cases hch : s.ch with
      | nil => rw [hch] at h; simp at h
      | cons x rest =>
        rw [hch] at h
        simp only [Option.some.injEq] at h
        subst h
        refine ⟨rfl, ?_, ?_, ?_⟩
        · simp only [List.append_assoc]
          apply List.Perm.append_left
          have h1 : (rest ++ (s.received ++ [x])).Perm ([x] ++ (rest ++ s.received)) := by
            rw [← List.append_assoc]
            exact List.perm_append_comm
          simpa using h1
        · simp
          omega
        · simp [FanOutEvent.isDeliver]
    · simp at h

theorem fanOut_run_inv {α : Type} :
    ∀ (evs : List FanOutEvent) (s t : FanOut α), s.run evs = some t →
      t.n = s.n
      ∧ (t.running ++ t.ch ++ t.received).Perm (s.running ++ s.ch ++ s.received)
      ∧ t.i + s.received.length = s.i + t.received.length
      ∧ t.running.length + (evs.filter FanOutEvent.isDeliver).length = s.running.length
  | [], s, t, h => by
    simp only [FanOut.run, Option.some.injEq] at h
    subst h
    simp
  | ev :: evs, s, t, h => by
    simp only [FanOut.run] at h
    cases hs : s.step ev with
    | none => rw [hs] at h; simp at h
    | some u =>
      rw [hs] at h
      obtain ⟨a1, a2, a3, a4⟩ := fanOut_step_inv s u ev hs
      obtain ⟨b1, b2, b3, b4⟩ := fanOut_run_inv evs u t h
      refine ⟨b1.trans a1, b2.trans a2, by omega, ?_⟩
      have hsplit : ((ev :: evs).filter FanOutEvent.isDeliver).length
          = ([ev].filter FanOutEvent.isDeliver).length
            + (evs.filter FanOutEvent.isDeliver).length := by
        cases ev <;> simp [FanOutEvent.isDeliver, List.filter_cons]
        omega
      omega

theorem fanOut_returned_all_delivered {α : Type} (branches : List α) (evs : List FanOutEvent)
    (t : FanOut α) (h : (FanOut.start branches).run evs = some t) (hr : t.returned = true) :
    t.running = [] ∧ t.ch = [] ∧ t.received.Perm branches
    ∧ (evs.filter FanOutEvent.isDeliver).length = branches.length := by
  obtain ⟨h1, h2, h3, h4⟩ := fanOut_run_inv evs (FanOut.start branches) t h
  simp only [FanOut.start, List.append_nil, List.length_nil, Nat.add_zero, Nat.zero_add] at h1 h2 h3 h4
  have hlen := h2.length_eq
  simp only [List.length_append] at hlen
  simp only [FanOut.returned, Bool.not_eq_true', decide_eq_false_iff_not, not_lt] at hr
  have hrun : t.running.length = 0 := by omega
  have hch : t.ch.length = 0 := by omega
  have hrun0 := List.length_eq_zero.mp hrun
  have hch0 := List.length_eq_zero.mp hch
  refine ⟨hrun0, hch0, ?_, by omega⟩
  rw [hrun0, hch0] at h2
  simpa using h2

theorem exists_schedule_of_perm {α : Type} (l r : List α) (h : r.Perm l) :
    ∃ sched : Schedule α, sched.order l = r := by
  classical
  refine ⟨{ order := fun x => if x = l then r else x, perm := ?_ }, by simp⟩
  intro x
  by_cases hx : x = l
  · subst hx; simpa using h
  · simp [hx]

theorem fanOut_run_append {α : Type} :
    ∀ (a b : List FanOutEvent) (s : FanOut α),
      s.run (a ++ b) = (s.run a).bind fun t => t.run b
  | [], b, s => by simp [FanOut.run]
  | ev :: a, b, s => by
    simp only [List.cons_append, FanOut.run]
    cases s.step ev with
    | none => simp
    | some u => simpa using fanOut_run_append a b u

theorem fanOut_run_deliveries {α : Type} (n i : Nat) (received : List α) :
    ∀ (l ch : List α),
      FanOut.run { n := n, running := l, ch := ch, i := i, received := received }
          (List.replicate l.length (FanOutEvent.deliver 0))
        = some { n := n, running := [], ch := ch ++ l, i := i, received := received }
  | [], ch => by simp [FanOut.run]
  | x :: l, ch => by
    simp only [List.length_cons, List.replicate_succ, FanOut.run, FanOut.step, List.get?_cons_zero,
      List.eraseIdx_cons_zero]
    rw [fanOut_run_deliveries n i received l (ch ++ [x])]
    simp

theorem fanOut_run_receipts {α : Type} (n : Nat) :
    ∀ (ch received : List α) (i : Nat), i + ch.length ≤ n →
      FanOut.run { n := n, running := [], ch := ch, i := i, received := received }
          (List.replicate ch.length FanOutEvent.receive)
        = some { n := n, running := [], ch := [], i := i + ch.length,
                 received := received ++ ch }
  | [], received, i, _ => by simp [FanOut.run]
  | x :: ch, received, i, h => by
    have hi : i < n := by simp at h; omega
    simp only [List.length_cons, List.replicate_succ, FanOut.run, FanOut.step, hi, if_true]
    rw [fanOut_run_receipts n ch (received ++ [x]) (i + 1) (by simp at h ⊢; omega)]
    simp
    omega

theorem fanOut_run_inOrder {α : Type} (branches : List α) :
    (FanOut.start branches).run (FanOut.inOrder branches.length)
      = some { n := branches.length, running := [], ch := [], i := branches.length,
               received := branches } := by
  rw [FanOut.inOrder, fanOut_run_append]
  have h1 := fanOut_run_deliveries branches.length 0 ([] : List α) branches []
  simp only [FanOut.start]
  rw [h1]
  have h2 := fanOut_run_receipts branches.length branches ([] : List α) 0 (by omega)
  simpa using h2

/-- C25 fails as stated: with a cancelled context and the provider call of
the only provider still in flight, `GetAllPlants` has not returned and its
loop cannot proceed: `r := <-ch` blocks on the empty channel.  It returns
only after the branch has delivered. -/
theorem getAllPlants_blocked_while_in_flight :
    ctxCancelled.done = true
    ∧ (FanOut.start engineSma.providers.entries).running.length = 1
    ∧ engineSma.GetAllPlantsAfter ctxCancelled [] = none
    ∧ engineSma.GetAllPlantsAfter ctxCancelled [FanOutEvent.receive] = none
    ∧ (engineSma.GetAllPlantsAfter ctxCancelled
          [FanOutEvent.deliver 0, FanOutEvent.receive]).isSome = true := by
  refine ⟨rfl, rfl, rfl, rfl, rfl⟩

/-- C25, amended. The aggregate queries hand the context to every provider
call and do not observe it otherwise.  Whatever the context (cancelled or
not), in every run of `GetAllPlants`, `GetAllAlarms` and the device fan-out
of `GetAllDevices` the call returns only after every spawned branch has
delivered (the run holds as many deliveries as there are branches), and the
value returned is the one the call computes from all results in some order
of arrival; and once every branch has delivered and been received, the call
does return. -/
theorem fanout_returns_after_every_delivery (e : Engine) (ctx : Context) :
    (∀ evs r, e.GetAllPlantsAfter ctx evs = some r →
        (evs.filter FanOutEvent.isDeliver).length = e.providers.entries.length
        ∧ ∃ sched, r = (e.GetAllPlants sched ctx).result)
    ∧ (∀ evs r, e.GetAllAlarmsAfter ctx evs = some r →
        (evs.filter FanOutEvent.isDeliver).length = e.providers.entries.length
        ∧ ∃ sched, r = (e.GetAllAlarms sched ctx).result)
    ∧ (∀ plants evs r, e.GetAllDevicesAfter ctx plants evs = some r →
        (evs.filter FanOutEvent.isDeliver).length = plants.length
        ∧ ∃ schedD : Schedule NormalizedPlant,
            r = (collectDevices
                  (((schedD.order plants).map (devicesWorker e ctx)).map Traced.result) [],
                 none))
    ∧ (e.GetAllPlantsAfter ctx (FanOut.inOrder e.providers.entries.length)).isSome = true
    ∧ (e.GetAllAlarmsAfter ctx (FanOut.inOrder e.providers.entries.length)).isSome = true
    ∧ (∀ plants, (e.GetAllDevicesAfter ctx plants (FanOut.inOrder plants.length)).isSome
        = true) := by
  refine ⟨?_, ?_, ?_, ?_, ?_, ?_⟩
  · intro evs r h
    unfold Engine.GetAllPlantsAfter at h
    cases hrun : (FanOut.start e.providers.entries).run evs with
    | none => rw [hrun] at h; simp at h
    | some s =>
      rw [hrun] at h
      by_cases hret : s.returned = true
      · obtain ⟨_, _, hperm, hcount⟩ :=
          fanOut_returned_all_delivered e.providers.entries evs s hrun hret
        obtain ⟨sched, hsched⟩ := exists_schedule_of_perm e.providers.entries s.received hperm
        refine ⟨hcount, sched, ?_⟩
        simp only [hret, if_true] at h
        simp only [Engine.GetAllPlants, hsched]
        split_ifs at h ⊢ with hc <;> simp_all
      · simp [hret] at h
  · intro evs r h
    unfold Engine.GetAllAlarmsAfter at h
    cases hrun : (FanOut.start e.providers.entries).run evs with
    | none => rw [hrun] at h; simp at h
    | some s =>
      rw [hrun] at h
      by_cases hret : s.returned = true
      · obtain ⟨_, _, hperm, hcount⟩ :=
          fanOut_returned_all_delivered e.providers.entries evs s hrun hret
        obtain ⟨sched, hsched⟩ := exists_schedule_of_perm e.providers.entries s.received hperm
        refine ⟨hcount, sched, ?_⟩
        simp only [hret, if_true, Option.some.injEq] at h
        simp only [Engine.GetAllAlarms, hsched]
        exact h.symm
      · simp [hret] at h
  · intro plants evs r h
    unfold Engine.GetAllDevicesAfter at h
    cases hrun : (FanOut.start plants).run evs with
    | none => rw [hrun] at h; simp at h
    | some s =>
      rw [hrun] at h
      by_cases hret : s.returned = true
      · obtain ⟨_, _, hperm, hcount⟩ := fanOut_returned_all_delivered plants evs s hrun hret
        obtain ⟨sched, hsched⟩ := exists_schedule_of_perm plants s.received hperm
        refine ⟨hcount, sched, ?_⟩
        simp only [hret, if_true, Option.some.injEq] at h
        rw [hsched, ← h]
        simp [List.map_map, Function.comp_def]
      · simp [hret] at h
  · simp only [Engine.GetAllPlantsAfter, fanOut_run_inOrder, FanOut.returned]
    simp only [lt_self_iff_false, decide_False, Bool.not_false, if_true]
    split_ifs <;> rfl
  · simp [Engine.GetAllAlarmsAfter, fanOut_run_inOrder, FanOut.returned]
  · intro plants
    simp [Engine.GetAllDevicesAfter, fanOut_run_inOrder, FanOut.returned]

/-- With the context cancelled, the single call of `engineSma` returns after
the delivery and the receipt of its one branch, with the value `GetAllPlants`
computes. -/
theorem fanout_returns_after_every_delivery_witness :
    engineSma.GetAllPlantsAfter ctxCancelled [FanOutEvent.deliver 0, FanOutEvent.receive]
        = some ([plantOf "sma" "1", plantOf "sma" "2"], none)
    ∧ ([FanOutEvent.deliver 0, FanOutEvent.receive].filter FanOutEvent.isDeliver).length
        = engineSma.providers.entries.length
    ∧ ∃ sched, ([plantOf "sma" "1", plantOf "sma" "2"], (none : Option GoError))
        = (engineSma.GetAllPlants sched ctxCancelled).result :=
  ⟨rfl, (fanout_returns_after_every_delivery engineSma ctxCancelled).1
      [FanOutEvent.deliver 0, FanOutEvent.receive]
      ([plantOf "sma" "1", plantOf "sma" "2"], none) rfl⟩

/-! ## Realtime payloads with missing keys -/

theorem saj_extractFloatSafe_missing (lib : GoLib) (m : JsonObject) (key : String)
    (h : keyMissing m key = true) : SAJ.extractFloatSafe lib m key = 0 := by
  unfold keyMissing at h
  unfold SAJ.extractFloatSafe
  split at h <;> simp_all

theorem saj_extractFloatPtr_missing (lib : GoLib) (m : JsonObject) (key : String)
    (h : keyMissing m key = true) : SAJ.extractFloatPtr lib m key = none := by
  unfold keyMissing at h
  unfold SAJ.extractFloatPtr
  split at h <;> simp_all

theorem saj_extractIntPtr_missing (lib : GoLib) (m : JsonObject) (key : String)
    (h : keyMissing m key = true) : SAJ.extractIntPtr lib m key = none := by
  unfold keyMissing at h
  unfold SAJ.extractIntPtr
  split at h <;> simp_all

theorem sungrow_extractFl_missing (lib : GoLib) (m : JsonObject) (key : String)
    (h : keyMissing m key = true) : Sungrow.extractFl lib m key = 0 := by
  unfold keyMissing at h
  unfold Sungrow.extractFl
  split at h <;> simp_all

theorem sungrow_extractFlP_missing (lib : GoLib) (m : JsonObject) (key : String)
    (h : keyMissing m key = true) : Sungrow.extractFlP lib m key = none := by
  unfold keyMissing at h
  unfold Sungrow.extractFlP
  split at h <;> simp_all

theorem foldl_invariant {α σ : Type} (Q : σ → Prop) (f : σ → α → σ) :
    ∀ (l : List α) (init : σ), Q init → (∀ acc x, x ∈ l → Q acc → Q (f acc x)) →
      Q (l.foldl f init)
  | [], _, h0, _ => h0
  | x :: l, init, h0, hf =>
    foldl_invariant Q f l (f init x) (hf init x (List.mem_cons_self x l) h0)
      (fun acc y hy hacc => hf acc y (List.mem_cons_of_mem x hy) hacc)

theorem saj_pvStrings_missing (lib : GoLib) (raw : JsonObject) :
    ∀ s ∈ SAJ.realtimePVStrings lib raw, ∃ i : Nat, 1 ≤ i ∧ i ≤ 16 ∧ s.ID = (i : Int)
      ∧ (keyMissing raw ("pv" ++ itoa (i : Int) ++ "volt") = true → s.VoltageV = none)
      ∧ (keyMissing raw ("pv" ++ itoa (i : Int) ++ "curr") = true → s.CurrentA = none)
      ∧ (keyMissing raw ("pv" ++ itoa (i : Int) ++ "power") = true → s.PowerW = none) := by
  unfold SAJ.realtimePVStrings
  refine foldl_invariant (fun acc : List PVString => ∀ s ∈ acc, ∃ i : Nat, 1 ≤ i ∧ i ≤ 16
      ∧ s.ID = (i : Int)
      ∧ (keyMissing raw ("pv" ++ itoa (i : Int) ++ "volt") = true → s.VoltageV = none)
      ∧ (keyMissing raw ("pv" ++ itoa (i : Int) ++ "curr") = true → s.CurrentA = none)
      ∧ (keyMissing raw ("pv" ++ itoa (i : Int) ++ "power") = true → s.PowerW = none))
    _ _ _ ?_ ?_
  · intro s hs
    simp at hs
  · intro acc i hi hacc s hs
    rw [List.mem_range'_1] at hi
    dsimp only at hs
    split at hs
    · rw [List.mem_append] at hs
      rcases hs with hs | hs
      · exact hacc s hs
      · rw [List.mem_singleton] at hs
        subst hs
        exact ⟨i, hi.1, by omega, rfl, saj_extractFloatPtr_missing lib raw _,
          saj_extractFloatPtr_missing lib raw _, saj_extractFloatPtr_missing lib raw _⟩
    · exact hacc s hs

theorem saj_gridPhases_missing (lib : GoLib) (raw : JsonObject) :
    ∀ ph ∈ SAJ.realtimeGridPhases lib raw, ∃ pre : String, pre ∈ ["r", "s", "t"]
      ∧ (keyMissing raw (pre ++ "GridVolt") = true → ph.VoltageV = none)
      ∧ (keyMissing raw (pre ++ "GridCurr") = true → ph.CurrentA = none)
      ∧ (keyMissing raw (pre ++ "GridPowerWatt") = true → ph.PowerW = none)
      ∧ (keyMissing raw (pre ++ "GridFreq") = true → ph.FrequencyHz = none)
      ∧ ph.PowerFactor = none ∧ ph.ApparentPowerVA = none ∧ ph.ReactivePowerVAR = none := by
  unfold SAJ.realtimeGridPhases
  refine foldl_invariant (fun acc : List PhaseData => ∀ ph ∈ acc, ∃ pre : String,
      pre ∈ ["r", "s", "t"]
      ∧ (keyMissing raw (pre ++ "GridVolt") = true → ph.VoltageV = none)
      ∧ (keyMissing raw (pre ++ "GridCurr") = true → ph.CurrentA = none)
      ∧ (keyMissing raw (pre ++ "GridPowerWatt") = true → ph.PowerW = none)
      ∧ (keyMissing raw (pre ++ "GridFreq") = true → ph.FrequencyHz = none)
      ∧ ph.PowerFactor = none ∧ ph.ApparentPowerVA = none ∧ ph.ReactivePowerVAR = none)
    _ _ _ ?_ ?_
  · intro s hs
    simp at hs
  · intro acc x hx hacc ph hph
    dsimp only at hph
    split at hph
    · rw [List.mem_append] at hph
      rcases hph with hph | hph
      · exact hacc ph hph
      · rw [List.mem_singleton] at hph
        subst hph
        refine ⟨x.1, ?_, saj_extractFloatPtr_missing lib raw _,
          saj_extractFloatPtr_missing lib raw _, saj_extractFloatPtr_missing lib raw _,
          saj_extractFloatPtr_missing lib raw _, rfl, rfl, rfl⟩
        simp only [List.mem_cons, List.mem_singleton, List.not_mem_nil, or_false] at hx ⊢
        rcases hx with rfl | rfl | rfl <;> simp
    · exact hacc ph hph

theorem sungrow_pvStrings_missing (lib : GoLib) (data : JsonObject) :
    ∀ s ∈ Sungrow.realtimePVStrings lib data, ∃ i : Nat, 1 ≤ i ∧ i ≤ 12 ∧ s.ID = (i : Int)
      ∧ (keyMissing data ("mppt_" ++ itoa (i : Int) ++ "_cap_u") = true →
          s.VoltageV = none ∧ s.PowerW = none)
      ∧ (keyMissing data ("mppt_" ++ itoa (i : Int) ++ "_cap_i") = true →
          s.CurrentA = none ∧ s.PowerW = none) := by
  unfold Sungrow.realtimePVStrings
  refine foldl_invariant (fun acc : List PVString => ∀ s ∈ acc, ∃ i : Nat, 1 ≤ i ∧ i ≤ 12
      ∧ s.ID = (i : Int)
      ∧ (keyMissing data ("mppt_" ++ itoa (i : Int) ++ "_cap_u") = true →
          s.VoltageV = none ∧ s.PowerW = none)
      ∧ (keyMissing data ("mppt_" ++ itoa (i : Int) ++ "_cap_i") = true →
          s.CurrentA = none ∧ s.PowerW = none))
    _ _ _ ?_ ?_
  · intro s hs
    simp at hs
  · intro acc i hi hacc s hs
    rw [List.mem_range'_1] at hi
    dsimp only at hs
    split at hs
    · rw [List.mem_append] at hs
      rcases hs with hs | hs
      · exact hacc s hs
      · rw [List.mem_singleton] at hs
        subst hs
        refine ⟨i, hi.1, by omega, rfl, ?_, ?_⟩
        · intro hk
          have hv := sungrow_extractFlP_missing lib data _ hk
          simp [hv]
        · intro hk
          have hc := sungrow_extractFlP_missing lib data _ hk
          simp only [hc, true_and]
          split <;> simp_all
    · exact hacc s hs

theorem sungrow_phases_missing (lib : GoLib) (data : JsonObject) (freq : Option ℚ) :
    ∀ ph ∈ Sungrow.realtimePhases lib data freq,
      ∃ k : String × String, k ∈ [("ua", "ia"), ("ub", "ib"), ("uc", "ic")]
        ∧ (keyMissing data k.1 = true → ph.VoltageV = none)
        ∧ (keyMissing data k.2 = true → ph.CurrentA = none)
        ∧ ph.FrequencyHz = freq
        ∧ ph.PowerW = none ∧ ph.PowerFactor = none ∧ ph.ApparentPowerVA = none
        ∧ ph.ReactivePowerVAR = none := by
  unfold Sungrow.realtimePhases
  refine foldl_invariant (fun acc : List PhaseData => ∀ ph ∈ acc,
      ∃ k : String × String, k ∈ [("ua", "ia"), ("ub", "ib"), ("uc", "ic")]
        ∧ (keyMissing data k.1 = true → ph.VoltageV = none)
        ∧ (keyMissing data k.2 = true → ph.CurrentA = none)
        ∧ ph.FrequencyHz = freq
        ∧ ph.PowerW = none ∧ ph.PowerFactor = none ∧ ph.ApparentPowerVA = none
        ∧ ph.ReactivePowerVAR = none)
    _ _ _ ?_ ?_
  · intro s hs
    simp at hs
  · intro acc x hx hacc ph hph
    dsimp only at hph
    split at hph
    · rw [List.mem_append] at hph
      rcases hph with hph | hph
      · exact hacc ph hph
      · rw [List.mem_singleton] at hph
        subst hph
        refine ⟨(x.1, x.2.1), ?_, sungrow_extractFlP_missing lib data _,
          sungrow_extractFlP_missing lib data _, rfl, rfl, rfl, rfl, rfl⟩
        simp only [List.mem_cons, List.mem_singleton, List.not_mem_nil, or_false] at hx ⊢
        rcases hx with rfl | rfl | rfl <;> simp
    · exact hacc ph hph

/-- C23. For every payload (any map, the nil map being the empty one, with
values of any kind) `normalizeSAJRealtime` and `normalizeSungrowRealtime`
return a record whose `PV`, `Grid` and `Load` are present.  A key counts as
missing when it is absent or its value is null, a bool or of another
non-numeric, non-string type.  `TotalPowerW` of `PV`, `Grid` and `Load` is 0
when the vendor power keys it is read from are missing; every optional
numeric field is absent when the key it is read from is missing, and the
optional numeric fields that are read from no key are always absent; this
holds for the entries of the string and phase lists too.  On the empty map
both return the empty `PV` and `Load` and an idle `Grid` with power 0. -/
theorem realtime_missing_keys (lib : GoLib) (raw data : JsonObject) (deviceID : String) :
    (∃ pv bat grid load env,
        (SAJ.normalizeSAJRealtime lib raw).PV = some pv
        ∧ (SAJ.normalizeSAJRealtime lib raw).Battery = some bat
        ∧ (SAJ.normalizeSAJRealtime lib raw).Grid = some grid
        ∧ (SAJ.normalizeSAJRealtime lib raw).Load = some load
        ∧ (SAJ.normalizeSAJRealtime lib raw).Environment = some env
        ∧ (keyMissing raw "totalPVPower" = true → pv.TotalPowerW = 0)
        ∧ (keyMissing raw "totalGridPowerWatt" = true →
            keyMissing raw "sysGridPowerWatt" = true → grid.TotalPowerW = 0)
        ∧ (keyMissing raw "totalLoadPowerWatt" = true →
            keyMissing raw "sysTotalLoadWatt" = true → load.TotalPowerW = 0)
        ∧ (keyMissing raw "todayPvEnergy" = true → pv.TodayEnergyKWh = none)
        ∧ (keyMissing raw "totalPvEnergy" = true → pv.TotalEnergyKWh = none)
        ∧ pv.MonthEnergyKWh = none ∧ pv.YearEnergyKWh = none
        ∧ (∀ s ∈ pv.Strings, ∃ i : Nat, 1 ≤ i ∧ i ≤ 16 ∧ s.ID = (i : Int)
            ∧ (keyMissing raw ("pv" ++ itoa (i : Int) ++ "volt") = true → s.VoltageV = none)
            ∧ (keyMissing raw ("pv" ++ itoa (i : Int) ++ "curr") = true → s.CurrentA = none)
            ∧ (keyMissing raw ("pv" ++ itoa (i : Int) ++ "power") = true → s.PowerW = none))
        ∧ (keyMissing raw "batEnergyPercent" = true → bat.SOCPercent = none)
        ∧ (keyMissing raw "totalBatteryPower" = true → bat.PowerW = 0)
        ∧ (keyMissing raw "batTempC" = true → bat.TemperatureC = none)
        ∧ (keyMissing raw "todayBatChgEnergy" = true → bat.TodayChargeKWh = none)
        ∧ (keyMissing raw "todayBatDisEnergy" = true → bat.TodayDischargeKWh = none)
        ∧ (keyMissing raw "totalBatChgEnergy" = true → bat.TotalChargeKWh = none)
        ∧ (keyMissing raw "totalBatDisEnergy" = true → bat.TotalDischargeKWh = none)
        ∧ bat.MaxChargePowerW = none ∧ bat.MaxDischargePowerW = none
        ∧ bat.VoltageDC = none ∧ bat.CurrentDC = none ∧ bat.Groups = []
        ∧ (keyMissing raw "todayFeedInEnergy" = true → grid.TodayImportKWh = none)
        ∧ (keyMissing raw "todaySellEnergy" = true → grid.TodayExportKWh = none)
        ∧ (keyMissing raw "totalFeedInEnergy" = true → grid.TotalImportKWh = none)
        ∧ (keyMissing raw "totalSellEnergy" = true → grid.TotalExportKWh = none)
        ∧ grid.FrequencyHz = none ∧ grid.PowerFactor = none
        ∧ grid.MonthImportKWh = none ∧ grid.MonthExportKWh = none
        ∧ grid.YearImportKWh = none ∧ grid.YearExportKWh = none
        ∧ (∀ ph ∈ grid.Phases, ∃ pre : String, pre ∈ ["r", "s", "t"]
            ∧ (keyMissing raw (pre ++ "GridVolt") = true → ph.VoltageV = none)
            ∧ (keyMissing raw (pre ++ "GridCurr") = true → ph.CurrentA = none)
            ∧ (keyMissing raw (pre ++ "GridPowerWatt") = true → ph.PowerW = none)
            ∧ (keyMissing raw (pre ++ "GridFreq") = true → ph.FrequencyHz = none)
            ∧ ph.PowerFactor = none ∧ ph.ApparentPowerVA = none
            ∧ ph.ReactivePowerVAR = none)
        ∧ (keyMissing raw "todayLoadEnergy" = true → load.TodayEnergyKWh = none)
        ∧ (keyMissing raw "totalTotalLoadEnergy" = true → load.TotalEnergyKWh = none)
        ∧ load.SelfConsumptionRate = none ∧ load.SelfSufficiencyRate = none
        ∧ (keyMissing raw "sinkTempC" = true → env.SinkTemperatureC = none)
        ∧ (keyMissing raw "ambTempC" = true → env.AmbientTemperatureC = none)
        ∧ (keyMissing raw "invTempC" = true → env.InverterTemperatureC = none)
        ∧ (keyMissing raw "linkSignal" = true → env.SignalStrengthDBm = none)
        ∧ env.IrradianceWM2 = none ∧ env.WindSpeedMS = none ∧ env.ModuleTemperatureC = none)
    ∧ (∃ pv bat grid load,
        (Sungrow.normalizeSungrowRealtime lib data deviceID).PV = some pv
        ∧ (Sungrow.normalizeSungrowRealtime lib data deviceID).Battery = some bat
        ∧ (Sungrow.normalizeSungrowRealtime lib data deviceID).Grid = some grid
        ∧ (Sungrow.normalizeSungrowRealtime lib data deviceID).Load = some load
        ∧ (Sungrow.normalizeSungrowRealtime lib data deviceID).Environment = none
        ∧ (keyMissing data "total_dc_power" = true → keyMissing data "pac" = true →
            pv.TotalPowerW = 0)
        ∧ (keyMissing data "meter_power" = true → grid.TotalPowerW = 0)
        ∧ (keyMissing data "load_power" = true → load.TotalPowerW = 0)
        ∧ (keyMissing data "e_today" = true → pv.TodayEnergyKWh = none)
        ∧ (keyMissing data "e_total" = true → pv.TotalEnergyKWh = none)
        ∧ pv.MonthEnergyKWh = none ∧ pv.YearEnergyKWh = none
        ∧ (∀ s ∈ pv.Strings, ∃ i : Nat, 1 ≤ i ∧ i ≤ 12 ∧ s.ID = (i : Int)
            ∧ (keyMissing data ("mppt_" ++ itoa (i : Int) ++ "_cap_u") = true →
                s.VoltageV = none ∧ s.PowerW = none)
            ∧ (keyMissing data ("mppt_" ++ itoa (i : Int) ++ "_cap_i") = true →
                s.CurrentA = none ∧ s.PowerW = none))
        ∧ (keyMissing data "soc" = true → bat.SOCPercent = none)
        ∧ (keyMissing data "battery_power" = true → bat.PowerW = 0)
        ∧ bat.TemperatureC = none ∧ bat.TodayChargeKWh = none ∧ bat.TodayDischargeKWh = none
        ∧ bat.TotalChargeKWh = none ∧ bat.TotalDischargeKWh = none
        ∧ bat.MaxChargePowerW = none ∧ bat.MaxDischargePowerW = none
        ∧ bat.VoltageDC = none ∧ bat.CurrentDC = none ∧ bat.Groups = []
        ∧ (keyMissing data "fac" = true → grid.FrequencyHz = none)
        ∧ (keyMissing data "pf" = true → grid.PowerFactor = none)
        ∧ grid.TodayImportKWh = none ∧ grid.TodayExportKWh = none
        ∧ grid.TotalImportKWh = none ∧ grid.TotalExportKWh = none
        ∧ grid.MonthImportKWh = none ∧ grid.MonthExportKWh = none
        ∧ grid.YearImportKWh = none ∧ grid.YearExportKWh = none
        ∧ (∀ ph ∈ grid.Phases,
            ∃ k : String × String, k ∈ [("ua", "ia"), ("ub", "ib"), ("uc", "ic")]
              ∧ (keyMissing data k.1 = true → ph.VoltageV = none)
              ∧ (keyMissing data k.2 = true → ph.CurrentA = none)
              ∧ (keyMissing data "fac" = true → ph.FrequencyHz = none)
              ∧ ph.PowerW = none ∧ ph.PowerFactor = none ∧ ph.ApparentPowerVA = none
              ∧ ph.ReactivePowerVAR = none)
        ∧ load.TodayEnergyKWh = none ∧ load.TotalEnergyKWh = none
        ∧ load.SelfConsumptionRate = none ∧ load.SelfSufficiencyRate = none)
    ∧ (SAJ.normalizeSAJRealtime lib ∅).PV = some {}
    ∧ (SAJ.normalizeSAJRealtime lib ∅).Grid = some { Direction := GridDirectionIdle }
    ∧ (SAJ.normalizeSAJRealtime lib ∅).Load = some {}
    ∧ (Sungrow.normalizeSungrowRealtime lib ∅ deviceID).PV = some {}
    ∧ (Sungrow.normalizeSungrowRealtime lib ∅ deviceID).Grid
        = some { Direction := GridDirectionIdle }
    ∧ (Sungrow.normalizeSungrowRealtime lib ∅ deviceID).Load = some {} := by
  refine ⟨⟨_, _, _, _, _, rfl, rfl, rfl, rfl, rfl, ?_⟩, ⟨_, _, _, _, rfl, rfl, rfl, rfl, rfl, ?_⟩,
    ?_, ?_, ?_, ?_, ?_, ?_⟩
  · refine ⟨saj_extractFloatSafe_missing lib raw _, ?_, ?_,
      saj_extractFloatPtr_missing lib raw _, saj_extractFloatPtr_missing lib raw _, rfl, rfl,
      saj_pvStrings_missing lib raw,
      saj_extractFloatPtr_missing lib raw _, saj_extractFloatSafe_missing lib raw _,
      saj_extractFloatPtr_missing lib raw _, saj_extractFloatPtr_missing lib raw _,
      saj_extractFloatPtr_missing lib raw _, saj_extractFloatPtr_missing lib raw _,
      saj_extractFloatPtr_missing lib raw _, rfl, rfl, rfl, rfl, rfl,
      saj_extractFloatPtr_missing lib raw _, saj_extractFloatPtr_missing lib raw _,
      saj_extractFloatPtr_missing lib raw _, saj_extractFloatPtr_missing lib raw _,
      rfl, rfl, rfl, rfl, rfl, rfl,
      saj_gridPhases_missing lib raw,
      saj_extractFloatPtr_missing lib raw _, saj_extractFloatPtr_missing lib raw _, rfl, rfl,
      saj_extractFloatPtr_missing lib raw _, saj_extractFloatPtr_missing lib raw _,
      saj_extractFloatPtr_missing lib raw _, saj_extractIntPtr_missing lib raw _,
      rfl, rfl, rfl⟩
    · intro h1 h2
      show (if SAJ.extractFloatSafe lib raw "totalGridPowerWatt" = 0 then
              SAJ.extractFloatSafe lib raw "sysGridPowerWatt"
            else SAJ.extractFloatSafe lib raw "totalGridPowerWatt") = 0
      rw [saj_extractFloatSafe_missing lib raw _ h1, saj_extractFloatSafe_missing lib raw _ h2]
      simp
    · intro h1 h2
      show (if SAJ.extractFloatSafe lib raw "totalLoadPowerWatt" = 0 then
              SAJ.extractFloatSafe lib raw "sysTotalLoadWatt"
            else SAJ.extractFloatSafe lib raw "totalLoadPowerWatt") = 0
      rw [saj_extractFloatSafe_missing lib raw _ h1, saj_extractFloatSafe_missing lib raw _ h2]
      simp
  · refine ⟨?_, sungrow_extractFl_missing lib data _, sungrow_extractFl_missing lib data _,
      sungrow_extractFlP_missing lib data _, sungrow_extractFlP_missing lib data _, rfl, rfl,
      sungrow_pvStrings_missing lib data,
      sungrow_extractFlP_missing lib data _, sungrow_extractFl_missing lib data _,
      rfl, rfl, rfl, rfl, rfl, rfl, rfl, rfl, rfl, rfl,
      sungrow_extractFlP_missing lib data _, sungrow_extractFlP_missing lib data _,
      rfl, rfl, rfl, rfl, rfl, rfl, rfl, rfl, ?_, rfl, rfl, rfl, rfl⟩
    · intro h1 h2
      show (if Sungrow.extractFl lib data "total_dc_power" = 0 then
              Sungrow.extractFl lib data "pac"
            else Sungrow.extractFl lib data "total_dc_power") = 0
      rw [sungrow_extractFl_missing lib data _ h1, sungrow_extractFl_missing lib data _ h2]
      simp
    · intro ph hph
      obtain ⟨k, hk, h1, h2, h3, h4⟩ :=
        sungrow_phases_missing lib data (Sungrow.extractFlP lib data "fac") ph hph
      exact ⟨k, hk, h1, h2,
        fun hf => h3.trans (sungrow_extractFlP_missing lib data _ hf), h4⟩
  · rfl
  · simp [SAJ.normalizeSAJRealtime, SAJ.extractFloatSafe, SAJ.extractIntSafe, jsonGet,
      SAJ.sajGridDirection, SAJ.extractFloatPtr]
    rfl
  · simp [SAJ.normalizeSAJRealtime, SAJ.extractFloatSafe, jsonGet, SAJ.extractFloatPtr]
  · rfl
  · simp [Sungrow.normalizeSungrowRealtime, Sungrow.extractFl, jsonGet,
      Sungrow.sungrowGridDirection, Sungrow.extractFlP]
    rfl
  · simp [Sungrow.normalizeSungrowRealtime, Sungrow.extractFl, jsonGet]

/-- On a SAJ payload whose PV power is null, whose grid power has an
unexpected type and which reports today's PV energy: PV and grid power are
0, the total PV energy is absent, today's PV energy is kept. -/
theorem realtime_missing_keys_witness :
    ∃ pv grid,
      (SAJ.normalizeSAJRealtime libPlain sajRealtimeSparse).PV = some pv
      ∧ (SAJ.normalizeSAJRealtime libPlain sajRealtimeSparse).Grid = some grid
      ∧ pv.TotalPowerW = 0 ∧ grid.TotalPowerW = 0 ∧ pv.TotalEnergyKWh = none
      ∧ pv.TodayEnergyKWh = some 3 := by
  obtain ⟨⟨pv, bat, grid, load, env, hpv, _, hgrid, _, _, h1, h2, _, _, h5, _⟩, _⟩ :=
    realtime_missing_keys libPlain sajRealtimeSparse ∅ "d1"
  refine ⟨pv, grid, hpv, hgrid, h1 (by rfl), h2 (by rfl) (by rfl), h5 (by rfl), ?_⟩
  have hp : (SAJ.normalizeSAJRealtime libPlain sajRealtimeSparse).PV.map PVData.TodayEnergyKWh
      = some (some 3) := by rfl
  rw [hpv] at hp
  simpa using hp

end InverterNormalizer
